import Mathlib

/-!
# Triton kernel launch dispatcher (jaxlib/gpu/triton_rocm.cc)

A shallow embedding of the ROCm Triton kernel-call dispatcher.

* The HIP driver is an external collaborator.  It is a parameter of every
  definition: a function that, given the calls issued so far and the next call,
  answers with a result code and the value it writes to the out-parameter.
* Device-side effects are recorded as a trace (the list of driver calls, oldest
  first).  The mutable member `modules_` of a `TritonKernel` is threaded
  explicitly.
* A C++ function either returns, or the process is terminated by a failed
  `CHECK`, or the behaviour is undefined (`Outcome`).
-/

namespace jax_triton

/-! ## Results -/

/-- The canonical status codes of `absl::Status` used by this file. -/
inductive StatusCode where
  | kOk
  | kInvalidArgument
  | kInternal
  deriving DecidableEq, Repr

/-- An `absl::Status`: a code and a message. -/
structure Status where
  code : StatusCode
  message : String
  deriving DecidableEq, Repr

/-- `absl::Status::ok()`. -/
def Status.ok (s : Status) : Bool := decide (s.code = StatusCode.kOk)

/-- `absl::OkStatus()`. -/
def OkStatus : Status := ⟨StatusCode.kOk, ""⟩

/-- `absl::InvalidArgumentError(msg)`. -/
def InvalidArgumentError (msg : String) : Status := ⟨StatusCode.kInvalidArgument, msg⟩

/-- `absl::InternalError(msg)`. -/
def InternalError (msg : String) : Status := ⟨StatusCode.kInternal, msg⟩

/-- An `absl::StatusOr<T>`: a value, or a status. -/
inductive StatusOr (α : Type) where
  | value (a : α)
  | status (s : Status)
  deriving DecidableEq, Repr

/-- What a call of a C++ function does: it returns a value, or a failed `CHECK`
terminates the process (`abort`, with the text of the failed condition), or its
behaviour is undefined. -/
inductive Outcome (α : Type) where
  | ret (a : α)
  | abort (check : String)
  | undefined
  deriving DecidableEq, Repr

/-! ## The HIP driver -/

/-- A driver result code, `hipError_t`. -/
abbrev hipError_t := Nat

/-- The success code `HIP_SUCCESS` (`hipSuccess = 0`). -/
def HIP_SUCCESS : hipError_t := 0

/-- A stream handle. -/
abbrev hipStream_t := Nat

/-- A module handle, as written by `hipModuleLoadData`. -/
abbrev hipModule_t := Int

/-- A function handle, as written by `hipModuleGetFunction`. -/
abbrev hipFunction_t := Int

/-- A device ordinal (`hipDevice_t` is `int`). -/
abbrev hipDevice_t := Int

/-- The device attributes queried by this file. -/
inductive hipDeviceAttribute_t where
  | hipDeviceAttributeSharedMemPerBlockOptin
  | hipDeviceAttributeMaxBlocksPerMultiProcessor
  | hipDeviceAttributeComputeCapabilityMajor
  | hipDeviceAttributeComputeCapabilityMinor
  deriving DecidableEq, Repr

/-- The function attribute read by `hipFuncGetAttribute`. -/
inductive hipFunction_attribute where
  | HIP_FUNC_ATTRIBUTE_SHARED_SIZE_BYTES
  deriving DecidableEq, Repr

/-- The function attribute written by `hipFuncSetAttribute`. -/
inductive hipFuncAttribute where
  | hipFuncAttributeMaxDynamicSharedMemorySize
  deriving DecidableEq, Repr

/-- The cache configuration passed to `hipFuncSetCacheConfig`. -/
inductive hipFuncCache_t where
  | hipFuncCachePreferShared
  deriving DecidableEq, Repr

/-- An entry of the flat argument array handed to the native launch: a pointer
either to the `k`-th slot of the caller's buffer-address array (`&ptr`) or to the
64-bit payload stored in element `i` of `parameters_`. -/
inductive ArgRef where
  | bufferSlot (k : Nat)
  | scalarSlot (i : Nat)
  deriving DecidableEq, Repr

/-- A call into the HIP driver, with the arguments that this file chooses
(out-parameters are left out: the driver's answer carries their value). -/
inductive Call where
  | hipMemsetD8Async (dst : Nat) (value : Nat) (count : Nat) (stream : hipStream_t)
  | hipModuleLoadData (image : String)
  | hipModuleGetFunction (module : hipModule_t) (kname : String)
  | hipStreamGetDevice (stream : hipStream_t)
  | hipDeviceGetAttribute (attr : hipDeviceAttribute_t) (device : hipDevice_t)
  | hipFuncSetCacheConfig (function : hipFunction_t) (config : hipFuncCache_t)
  | hipFuncGetAttribute (attr : hipFunction_attribute) (function : hipFunction_t)
  | hipFuncSetAttribute (function : hipFunction_t) (attr : hipFuncAttribute) (value : Int)
  | hipModuleLaunchKernel (function : hipFunction_t) (gridDimX gridDimY gridDimZ : Nat)
      (blockDimX blockDimY blockDimZ : Nat) (sharedMemBytes : Nat) (stream : hipStream_t)
      (kernelParams : List ArgRef)
  | hipInit (flags : Int)
  deriving DecidableEq, Repr

/-- The calls issued so far, oldest first. -/
abbrev Trace := List Call

/-- The driver's answer to one call: the result code, and the value written to
the call's out-parameter (a handle, a device ordinal or an attribute value; an
attribute value is a C `int`). -/
structure Reply where
  err : hipError_t
  out : Int
  deriving DecidableEq, Repr

/-- The driver: its answer may depend on everything issued before. -/
abbrev Driver := Trace → Call → Reply

/-! ## `jax::JAX_GPU_NAMESPACE::AsStatus` -/

/-- The value of `__FILE__` in this translation unit. -/
def FILE : String := "jaxlib/gpu/triton_rocm.cc"

/-- The local `const char* str` of `AsStatus`, which is declared and never
assigned (the call that filled it is commented out). -/
def str_unassigned : String := ""

/-- `absl::StrFormat("%s:%d: operation %s failed: %s", file, line, expr, str)`. -/
def AsStatus_message (file : String) (line : Int) (expr : String) (str : String) : String :=
  file ++ ":" ++ toString line ++ ": operation " ++ expr ++ " failed: " ++ str

/-- `CHECK_EQ(a, b)` of absl/log/check.h: the process is terminated unless
`a == b`; otherwise execution continues with `next`.  `text` is the condition
reported by the failed check. -/
def CHECK_EQ {α : Type} (a b : Nat) (text : String) (next : Outcome α) : Outcome α :=
  if a = b then next else Outcome.abort text

/-- `AsStatus(error, file, line, expr)`, lines 36-47.

    if (error == HIP_SUCCESS) return absl::OkStatus();
    const char* str;
    CHECK_EQ(error, HIP_SUCCESS);
    return absl::InternalError(absl::StrFormat(...)); -/
def AsStatus (error : hipError_t) (file : String) (line : Int) (expr : String) :
    Outcome Status :=
  if error = HIP_SUCCESS then
    Outcome.ret OkStatus
  else
    CHECK_EQ error HIP_SUCCESS "error == HIP_SUCCESS"
      (Outcome.ret (InternalError (AsStatus_message file line expr str_unassigned)))

/-- The outcome of a function that returns `f a` where the callee returned `a`. -/
def Outcome.map {α β : Type} (f : α → β) : Outcome α → Outcome β
  | Outcome.ret a => Outcome.ret (f a)
  | Outcome.abort m => Outcome.abort m
  | Outcome.undefined => Outcome.undefined

/-- Modelled from the spec: the macros `JAX_AS_STATUS` and `JAX_RETURN_IF_ERROR`
of jaxlib/gpu/gpu_kernel_helpers.h, which `HIP_RETURN_IF_ERROR(expr)` (line 28)
expands to and which are not among the sources.  `JAX_AS_STATUS(expr)` is
`AsStatus(expr, __FILE__, __LINE__, #expr)` (line 35: "Used via
JAX_AS_STATUS(expr) macro"); `JAX_RETURN_IF_ERROR` returns the status from the
enclosing function when it is not OK ("the first failure on any path
short-circuits the remaining steps").

The driver call `c` is issued (appended to the trace).  On an OK status
execution continues with `next`, which receives the out-parameter's value and
the trace; otherwise the enclosing function ends there: `stop` receives the
status being returned (or the termination) and the trace. -/
def HIP_RETURN_IF_ERROR {ρ : Type} (d : Driver) (c : Call) (line : Int) (expr : String)
    (tr : Trace) (stop : Outcome Status → Trace → ρ) (next : Int → Trace → ρ) : ρ :=
  match AsStatus (d tr c).err FILE line expr with
  | Outcome.ret st =>
      if st.ok then next (d tr c).out (tr ++ [c]) else stop (Outcome.ret st) (tr ++ [c])
  | Outcome.abort m => stop (Outcome.abort m) (tr ++ [c])
  | Outcome.undefined => stop Outcome.undefined (tr ++ [c])

/-! ## `TritonKernel` -/

/-- `kNumThreadsPerWarp`, line 54. -/
def kNumThreadsPerWarp : Nat := 64

/-- The class `TritonKernel`, lines 63-151.  `block_dim_x_` and
`shared_mem_bytes_` are `uint32_t`; `modules_` is the vector of owned modules. -/
structure TritonKernel where
  module_image_ : String
  kernel_name_ : String
  block_dim_x_ : Nat
  shared_mem_bytes_ : Nat
  modules_ : List hipModule_t
  deriving DecidableEq, Repr

/-- The constructor, lines 65-70: `block_dim_x_(num_warps * kNumThreadsPerWarp)`
in `uint32_t` arithmetic. -/
def TritonKernel.new (module_image kernel_name : String) (num_warps shared_mem_bytes : Nat) :
    TritonKernel :=
  { module_image_ := module_image
    kernel_name_ := kernel_name
    block_dim_x_ := (num_warps * kNumThreadsPerWarp) % 2 ^ 32
    shared_mem_bytes_ := shared_mem_bytes
    modules_ := [] }

/-- `constexpr int kMaxStaticSharedMemBytes = 49152`, line 107. -/
def kMaxStaticSharedMemBytes : Int := 49152

/-- Conversion of an `int` to `unsigned int` (the usual arithmetic conversion
applied when a `uint32_t` is compared with an `int`). -/
def to_unsigned (x : Int) : Nat := (x % 2 ^ 32).toNat

/-- Subtraction of two `int`s: undefined (`none`) when the result is not
representable. -/
def int_sub (a b : Int) : Option Int :=
  if -(2 ^ 31) ≤ a - b ∧ a - b < 2 ^ 31 then some (a - b) else none

/-- The characters that a `const char*` obtained from `s` denotes when read as a
C string: those before the first NUL (the buffer behind `s` is NUL-terminated). -/
def c_str (s : String) : String := String.mk (s.data.takeWhile (fun ch => ch ≠ Char.ofNat 0))

/-- How `GetFunctionForStream` ends when a `HIP_RETURN_IF_ERROR` returns: the
status becomes the `StatusOr`, the kernel object is as it is at that point. -/
def TritonKernel.GetFunctionForStream.stop (k : TritonKernel) (o : Outcome Status)
    (tr : Trace) : Outcome (StatusOr hipFunction_t) × TritonKernel × Trace :=
  (Outcome.map StatusOr.status o, k, tr)

/-- `TritonKernel::GetFunctionForStream`, lines 85-141.  The lookup in and the
insertion into `functions_` are commented out in the source, as is the member. -/
def TritonKernel.GetFunctionForStream (d : Driver) (k : TritonKernel) (stream : hipStream_t)
    (tr : Trace) : Outcome (StatusOr hipFunction_t) × TritonKernel × Trace :=
  HIP_RETURN_IF_ERROR d (Call.hipModuleLoadData k.module_image_) 96
    "hipModuleLoadData(&module, module_image_.c_str())" tr
    (TritonKernel.GetFunctionForStream.stop k)
  fun module tr =>
  let k := { k with modules_ := k.modules_ ++ [module] }
  HIP_RETURN_IF_ERROR d (Call.hipModuleGetFunction module (c_str k.kernel_name_)) 100
    "hipModuleGetFunction(&function, module, kernel_name_.c_str())" tr
    (TritonKernel.GetFunctionForStream.stop k)
  fun function tr =>
  if k.shared_mem_bytes_ ≤ to_unsigned kMaxStaticSharedMemBytes then
    (Outcome.ret (StatusOr.value function), k, tr)
  else
  HIP_RETURN_IF_ERROR d (Call.hipStreamGetDevice stream) 114
    "hipStreamGetDevice(stream, &device)" tr (TritonKernel.GetFunctionForStream.stop k)
  fun device tr =>
  HIP_RETURN_IF_ERROR d
    (Call.hipDeviceGetAttribute
      hipDeviceAttribute_t.hipDeviceAttributeSharedMemPerBlockOptin device) 117
    "hipDeviceGetAttribute( &shared_optin, hipDeviceAttributeSharedMemPerBlockOptin, device)"
    tr (TritonKernel.GetFunctionForStream.stop k)
  fun shared_optin tr =>
  if k.shared_mem_bytes_ > to_unsigned shared_optin then
    (Outcome.ret (StatusOr.status
      (InvalidArgumentError "Shared memory requested exceeds device resources.")), k, tr)
  else if shared_optin > kMaxStaticSharedMemBytes then
    HIP_RETURN_IF_ERROR d
      (Call.hipFuncSetCacheConfig function hipFuncCache_t.hipFuncCachePreferShared) 127
      "hipFuncSetCacheConfig(function, hipFuncCachePreferShared)"
      tr (TritonKernel.GetFunctionForStream.stop k)
    fun _ tr =>
    HIP_RETURN_IF_ERROR d
      (Call.hipDeviceGetAttribute
        hipDeviceAttribute_t.hipDeviceAttributeMaxBlocksPerMultiProcessor device) 130
      "hipDeviceGetAttribute( &shared_total, hipDeviceAttributeMaxBlocksPerMultiProcessor , device)"
      tr (TritonKernel.GetFunctionForStream.stop k)
    fun _shared_total tr =>
    HIP_RETURN_IF_ERROR d
      (Call.hipFuncGetAttribute
        hipFunction_attribute.HIP_FUNC_ATTRIBUTE_SHARED_SIZE_BYTES function) 134
      "hipFuncGetAttribute( &shared_static, HIP_FUNC_ATTRIBUTE_SHARED_SIZE_BYTES, function)"
      tr (TritonKernel.GetFunctionForStream.stop k)
    fun shared_static tr =>
    match int_sub shared_optin shared_static with
    | none => (Outcome.undefined, k, tr)
    | some value =>
      HIP_RETURN_IF_ERROR d
        (Call.hipFuncSetAttribute function
          hipFuncAttribute.hipFuncAttributeMaxDynamicSharedMemorySize value) 136
        "hipFuncSetAttribute( function, hipFuncAttributeMaxDynamicSharedMemorySize, shared_optin - shared_static)"
        tr (TritonKernel.GetFunctionForStream.stop k)
      fun _ tr => (Outcome.ret (StatusOr.value function), k, tr)
  else
    (Outcome.ret (StatusOr.value function), k, tr)

/-- `TritonKernel::Launch`, lines 72-82: resolve the function, return its status
if that failed, otherwise issue the native launch and return its status. -/
def TritonKernel.Launch (d : Driver) (k : TritonKernel) (stream : hipStream_t)
    (grid : Nat × Nat × Nat) (params : List ArgRef) (tr : Trace) :
    Outcome Status × TritonKernel × Trace :=
  match TritonKernel.GetFunctionForStream d k stream tr with
  | (Outcome.ret (StatusOr.status st), k1, tr1) =>
      if st.ok then (Outcome.undefined, k1, tr1) else (Outcome.ret st, k1, tr1)
  | (Outcome.ret (StatusOr.value kernel), k1, tr1) =>
      let c := Call.hipModuleLaunchKernel kernel grid.1 grid.2.1 grid.2.2 k.block_dim_x_ 1 1
        k.shared_mem_bytes_ stream params
      (AsStatus (d tr1 c).err FILE 78
        "hipModuleLaunchKernel( *kernel, grid[0], grid[1], grid[2], block_dim_x_, 1, 1, shared_mem_bytes_, stream, params, nullptr)",
        k1, tr1 ++ [c])
  | (Outcome.abort m, k1, tr1) => (Outcome.abort m, k1, tr1)
  | (Outcome.undefined, k1, tr1) => (Outcome.undefined, k1, tr1)

/-! ## `TritonKernelCall` -/

/-- `TritonKernelCall::ArrayParameter`, lines 160-163 (`bytes_to_zero` is a
`size_t`). -/
structure ArrayParameter where
  bytes_to_zero : Nat
  ptr_must_be_divisible_by_16 : Bool
  deriving DecidableEq, Repr

/-- `TritonKernelCall::Parameter`, the variant of line 166: an array, or a scalar
encoded as a `uint64_t`. -/
inductive Parameter where
  | array (a : ArrayParameter)
  | scalar (bits : Nat)
  deriving DecidableEq, Repr

/-- The class `TritonKernelCall`, lines 158-206.  `kernel_` is a reference: the
address of the `TritonKernel` it refers to. -/
structure TritonKernelCall where
  kernel_ : Nat
  grid_ : Nat × Nat × Nat
  parameters_ : List Parameter
  deriving DecidableEq, Repr

/-- The digits of `absl::StrFormat`'s `%p` for a non-null pointer: lower-case
hexadecimal. -/
def hex_lower (p : Nat) : String := String.mk (Nat.toDigits 16 p)

/-- `absl::StrFormat`'s `%p`. -/
def format_pointer (p : Nat) : String := if p = 0 then "(nil)" else "0x" ++ hex_lower p

/-- The message of line 185-186,
`absl::StrFormat("Parameter %zu (%p) is not divisible by 16.", i, ptr)`. -/
def alignment_message (i : Nat) (ptr : Nat) : String :=
  "Parameter " ++ toString i ++ " (" ++ format_pointer ptr ++ ") is not divisible by 16."

/-- The `for` loop of `TritonKernelCall::Launch`, lines 177-197, from index `i`
on: `rest` are the parameters from `i` on, `next` is the position of the cursor
`buffers` in the caller's array `buffers`, `params` the vector built so far.
Reading the array past its end is undefined.  The loop either returns a status
from `Launch` (`StatusOr.status`) or runs to its end (`StatusOr.value`, with the
vector `params` and the final position of the cursor). -/
def TritonKernelCall.Launch.loop (d : Driver) (stream : hipStream_t) (buffers : List Nat) :
    List Parameter → Nat → Nat → List ArgRef → Trace →
      Outcome (StatusOr (List ArgRef × Nat)) × Trace
  | [], _, next, params, tr => (Outcome.ret (StatusOr.value (params, next)), tr)
  | Parameter.array array :: rest, i, next, params, tr =>
      match buffers[next]? with
      | none => (Outcome.undefined, tr)
      | some ptr =>
        if array.ptr_must_be_divisible_by_16 && (ptr % 16 != 0) then
          (Outcome.ret (StatusOr.status (InvalidArgumentError (alignment_message i ptr))), tr)
        else if array.bytes_to_zero > 0 then
          HIP_RETURN_IF_ERROR d (Call.hipMemsetD8Async ptr 0 array.bytes_to_zero stream) 190
            "hipMemsetD8Async(cu_ptr, 0, array.bytes_to_zero, stream)" tr
            (fun o tr => (Outcome.map StatusOr.status o, tr))
          fun _ tr =>
          TritonKernelCall.Launch.loop d stream buffers rest (i + 1) (next + 1)
            (params ++ [ArgRef.bufferSlot next]) tr
        else
          TritonKernelCall.Launch.loop d stream buffers rest (i + 1) (next + 1)
            (params ++ [ArgRef.bufferSlot next]) tr
  | Parameter.scalar _ :: rest, i, next, params, tr =>
      TritonKernelCall.Launch.loop d stream buffers rest (i + 1) next
        (params ++ [ArgRef.scalarSlot i]) tr

/-- `TritonKernelCall::Launch`, lines 174-200.  `kernel` is the object that the
reference `kernel_` refers to; it is returned as the launch leaves it. -/
def TritonKernelCall.Launch (d : Driver) (call : TritonKernelCall) (kernel : TritonKernel)
    (stream : hipStream_t) (buffers : List Nat) (tr : Trace) :
    Outcome Status × TritonKernel × Trace :=
  match TritonKernelCall.Launch.loop d stream buffers call.parameters_ 0 0 [] tr with
  | (Outcome.ret (StatusOr.value (params, _)), tr1) =>
      TritonKernel.Launch d kernel stream call.grid_ params tr1
  | (Outcome.ret (StatusOr.status st), tr1) => (Outcome.ret st, kernel, tr1)
  | (Outcome.abort m, tr1) => (Outcome.abort m, kernel, tr1)
  | (Outcome.undefined, tr1) => (Outcome.undefined, kernel, tr1)

/-- What an entry of the argument array points at: the address held in the
buffer slot, or the stored payload of the scalar parameter. -/
def ArgRef.deref (parameters : List Parameter) (buffers : List Nat) : ArgRef → Option Nat
  | ArgRef.bufferSlot k => buffers[k]?
  | ArgRef.scalarSlot i =>
      match parameters[i]? with
      | some (Parameter.scalar bits) => some bits
      | _ => none

/-! ## Scalar encoding -/

/-- The integer types that `EncodeKernelParameterAs` is instantiated with. -/
inductive CppInt where
  | int8_t
  | uint8_t
  | int16_t
  | uint16_t
  | int32_t
  | int64_t
  | uint64_t
  deriving DecidableEq, Repr

/-- The width in bits, `8 * sizeof(T)`. -/
def CppInt.width : CppInt → Nat
  | CppInt.int8_t => 8
  | CppInt.uint8_t => 8
  | CppInt.int16_t => 16
  | CppInt.uint16_t => 16
  | CppInt.int32_t => 32
  | CppInt.int64_t => 64
  | CppInt.uint64_t => 64

/-- `std::is_unsigned<T>::value`. -/
def CppInt.is_unsigned : CppInt → Bool
  | CppInt.uint8_t => true
  | CppInt.uint16_t => true
  | CppInt.uint64_t => true
  | _ => false

/-- The integral conversion `(T) x`: the value of type `T` congruent to `x`
modulo `2 ^ width`. -/
def CppInt.cast (T : CppInt) (x : Int) : Int :=
  if T.is_unsigned then x % 2 ^ T.width
  else (x + 2 ^ (T.width - 1)) % 2 ^ T.width - 2 ^ (T.width - 1)

/-- The object representation of a value of type `T`, read as a number: two's
complement in `width` bits. -/
def CppInt.object_bits (T : CppInt) (x : Int) : Nat := (x % 2 ^ T.width).toNat

/-- CPython's `PyLong_AsLong` on a Python `int` (`long` has 64 bits): the value
when it fits, and `-1` with an `OverflowError` raised when it does not. -/
def PyLong_AsLong (v : Int) : Int :=
  if -(2 ^ 63) ≤ v ∧ v < 2 ^ 63 then v else -1

/-- CPython's `PyLong_AsUnsignedLong` on a Python `int`: the value when it is in
`[0, 2 ^ 64)`; otherwise `(unsigned long) -1` with an `OverflowError` raised.  The
second component is `PyErr_Occurred()`. -/
def PyLong_AsUnsignedLong (v : Int) : Nat × Bool :=
  if 0 ≤ v ∧ v < 2 ^ 64 then (v.toNat, false) else (2 ^ 64 - 1, true)

/-- The helper `detail::as_unsigned<Unsigned>` of pybind11 (pytypes.h):

    unsigned long v = PyLong_AsUnsignedLong(o);
    return v == (unsigned long) -1 && PyErr_Occurred() ? (Unsigned) -1 : (Unsigned) v; -/
def as_unsigned (T : CppInt) (v : Int) : Int :=
  let r := PyLong_AsUnsignedLong v
  if r.1 = 2 ^ 64 - 1 ∧ r.2 = true then T.cast (-1) else T.cast r.1

/-- The conversion `CppT(value)` of a `py::int_`, pybind11's
`int_::operator T()` (pytypes.h):

    return std::is_unsigned<T>::value ? detail::as_unsigned<T>(m_ptr)
           : sizeof(T) <= sizeof(long) ? (T) PyLong_AsLong(m_ptr)
                                       : (T) PYBIND11_LONG_AS_LONGLONG(m_ptr); -/
def py_int_to (T : CppInt) (value : Int) : Int :=
  if T.is_unsigned then as_unsigned T value else T.cast (PyLong_AsLong value)

/-- Writing the member `value` (of `width` bits, with object representation
`rep`) of the union `encoded` whose member `bits` holds `bits`: the low `width`
bits are replaced (little-endian), the others are kept. -/
def union_write (bits : Nat) (width : Nat) (rep : Nat) : Nat :=
  bits / 2 ^ width * 2 ^ width + rep % 2 ^ width

/-- `EncodeKernelParameterAs<CppT, py::int_>`, lines 233-243:
`encoded.bits = 0; encoded.value = CppT(value); return encoded.bits;`. -/
def EncodeKernelParameterAs (T : CppInt) (value : Int) : Nat :=
  union_write 0 T.width (T.object_bits (py_int_to T value))

/-- `EncodeKernelParameter(py::int_ value, std::string_view dtype)`, lines
245-267.  The message is `std::string("unknown dtype:") + dtype.data()`: the
pointer `dtype.data()` is read as a C string. -/
def EncodeKernelParameter_int (value : Int) (dtype : String) : StatusOr Nat :=
  if dtype = "i1" ∨ dtype = "i8" then
    StatusOr.value (EncodeKernelParameterAs CppInt.int8_t value)
  else if dtype = "u8" then
    StatusOr.value (EncodeKernelParameterAs CppInt.uint8_t value)
  else if dtype = "i16" then
    StatusOr.value (EncodeKernelParameterAs CppInt.int16_t value)
  else if dtype = "u16" then
    StatusOr.value (EncodeKernelParameterAs CppInt.uint16_t value)
  else if dtype = "i32" then
    StatusOr.value (EncodeKernelParameterAs CppInt.int32_t value)
  else if dtype = "u32" then
    StatusOr.value (EncodeKernelParameterAs CppInt.int32_t value)
  else if dtype = "i64" then
    StatusOr.value (EncodeKernelParameterAs CppInt.int64_t value)
  else if dtype = "u64" then
    StatusOr.value (EncodeKernelParameterAs CppInt.uint64_t value)
  else
    StatusOr.status (InvalidArgumentError ("unknown dtype:" ++ c_str dtype))

/-- `EncodeKernelParameter(py::float_ value, std::string_view dtype)`, lines
269-279.  Floating-point conversion is outside this development: `value` is the
binary64 bit pattern of the Python float, and `to_float` maps it to the binary32
bit pattern of `float(value)`. -/
def EncodeKernelParameter_float (to_float : Nat → Nat) (value : Nat) (dtype : String) :
    StatusOr Nat :=
  if dtype = "fp32" then
    StatusOr.value (union_write 0 32 (to_float value))
  else if dtype = "fp64" then
    StatusOr.value (union_write 0 64 value)
  else
    StatusOr.status (InvalidArgumentError ("unknown dtype: " ++ c_str dtype))

/-- `EncodeKernelParameter(py::bool_ value, std::string_view dtype)`, lines
281-289; a `bool` occupies one byte, holding 1 or 0. -/
def EncodeKernelParameter_bool (value : Bool) (dtype : String) : StatusOr Nat :=
  if dtype = "int1" ∨ dtype = "B" then
    StatusOr.value (union_write 0 8 (if value then 1 else 0))
  else
    StatusOr.status (InvalidArgumentError ("unknown dtype: " ++ c_str dtype))

/-! ## The launch entry point -/

/-- The objects that the boundary's pointers refer to: the live
`TritonKernelCall`s and `TritonKernel`s, by address. -/
structure Memory where
  calls : Nat → Option TritonKernelCall
  kernels : Nat → Option TritonKernel

/-- An `XlaCustomCallStatus`: untouched, or holding a failure's text and
length. -/
structure XlaCustomCallStatus where
  failure : Option (String × Nat)
  deriving DecidableEq, Repr

/-- Modelled from the spec: `XlaCustomCallStatusSetFailure` of
xla/service/custom_call_status.h, which is not among the sources ("`out_status`
records failure text and length"). -/
def XlaCustomCallStatusSetFailure (_status : XlaCustomCallStatus) (message : String)
    (message_len : Nat) : XlaCustomCallStatus :=
  { failure := some (message, message_len) }

/-- `sizeof(TritonKernelCallBase*)`. -/
def sizeof_pointer : Nat := 8

/-- The pointer that `std::memcpy(&kernel_call, bytes, sizeof(TritonKernelCallBase*))`
stores (little-endian); reading past the end of the bytes is undefined (`none`). -/
def memcpy_pointer (bytes : List Nat) : Option Nat :=
  if bytes.length < sizeof_pointer then none
  else some ((bytes.take sizeof_pointer).foldr (fun b acc => b % 256 + 256 * acc) 0)

/-- `LaunchTritonKernel`, lines 294-304.  `descriptor` is the byte blob `opaque`
and `descriptor_len` is `opaque_len`. -/
def LaunchTritonKernel (d : Driver) (mem : Memory) (stream : hipStream_t) (buffers : List Nat)
    (descriptor : List Nat) (descriptor_len : Nat) (status : XlaCustomCallStatus)
    (tr : Trace) : Outcome Unit × Memory × XlaCustomCallStatus × Trace :=
  match CHECK_EQ descriptor_len sizeof_pointer "opaque_len == sizeof(TritonKernelCallBase*)"
      (Outcome.ret ()) with
  | Outcome.abort m => (Outcome.abort m, mem, status, tr)
  | Outcome.undefined => (Outcome.undefined, mem, status, tr)
  | Outcome.ret _ =>
    match memcpy_pointer descriptor with
    | none => (Outcome.undefined, mem, status, tr)
    | some kernel_call =>
      match mem.calls kernel_call with
      | none => (Outcome.undefined, mem, status, tr)
      | some call =>
        match mem.kernels call.kernel_ with
        | none => (Outcome.undefined, mem, status, tr)
        | some kernel =>
          match TritonKernelCall.Launch d call kernel stream buffers tr with
          | (Outcome.ret result, kernel1, tr1) =>
              let mem1 := { mem with
                kernels := Function.update mem.kernels call.kernel_ (some kernel1) }
              if !result.ok then
                (Outcome.ret (), mem1,
                  XlaCustomCallStatusSetFailure status result.message
                    result.message.utf8ByteSize, tr1)
              else
                (Outcome.ret (), mem1, status, tr1)
          | (Outcome.abort m, kernel1, tr1) =>
              (Outcome.abort m,
                { mem with kernels := Function.update mem.kernels call.kernel_ (some kernel1) },
                status, tr1)
          | (Outcome.undefined, kernel1, tr1) =>
              (Outcome.undefined,
                { mem with kernels := Function.update mem.kernels call.kernel_ (some kernel1) },
                status, tr1)

/-! ## The Python module (`PYBIND11_MODULE(_triton, m)`) -/

/-- The object representation of a pointer: its `sizeof_pointer` bytes, the least
significant first. -/
def pointer_bytes (p : Nat) : List Nat :=
  (List.range sizeof_pointer).map (fun i => p / 256 ^ i % 256)

/-- The property `descriptor` of `TritonKernelCall`, lines 315-322: the bytes of
the union whose member `ptr` is `&kernel_call`, as
`py::bytes(descriptor.bytes, sizeof(TritonKernelCall*))`.  `address` is
`&kernel_call`; a `TritonKernelCall*` and the `TritonKernelCallBase*` of the same
object hold the same address (the base is the only base class). -/
def TritonKernelCall.descriptor (address : Nat) : List Nat :=
  (pointer_bytes address).take sizeof_pointer

/-- A Python object given as the value of a scalar parameter: an `int`, a `bool`,
a `float` (by its binary64 bit pattern), or an object of another type. -/
inductive PyObject where
  | int (v : Int)
  | bool (b : Bool)
  | float (bits : Nat)
  | other
  deriving DecidableEq, Repr

/-- Loading an argument of type `py::int_` (pybind11's `pyobject_caster`): the
object is taken when `PyLong_Check` holds, which it does for an `int` and for a
`bool`, whose type is a subclass of `int` (`True` is 1 and `False` is 0). -/
def load_int_ : PyObject → Option Int
  | PyObject.int v => some v
  | PyObject.bool b => some (if b then 1 else 0)
  | _ => none

/-- Loading an argument of type `py::float_`: taken when `PyFloat_Check` holds. -/
def load_float_ : PyObject → Option Nat
  | PyObject.float bits => some bits
  | _ => none

/-- Loading an argument of type `py::bool_`: taken when `PyBool_Check` holds. -/
def load_bool_ : PyObject → Option Bool
  | PyObject.bool b => some b
  | _ => none

/-- The function `create_scalar_parameter` of the module, lines 336-342: the
overloads of `EncodeKernelParameter` registered in the order `py::int_`,
`py::float_`, `py::bool_`.  pybind11 calls the first registered overload whose
arguments load; when none loads the call fails with a `TypeError` (`none`). -/
def create_scalar_parameter (to_float : Nat → Nat) (value : PyObject) (dtype : String) :
    Option (StatusOr Nat) :=
  match load_int_ value with
  | some v => some (EncodeKernelParameter_int v dtype)
  | none =>
    match load_float_ value with
    | some x => some (EncodeKernelParameter_float to_float x dtype)
    | none =>
      match load_bool_ value with
      | some b => some (EncodeKernelParameter_bool b dtype)
      | none => none

/-- Multiplication of two `int`s: undefined (`none`) when the result is not
representable. -/
def int_mul (a b : Int) : Option Int :=
  if -(2 ^ 31) ≤ a * b ∧ a * b < 2 ^ 31 then some (a * b) else none

/-- Addition of two `int`s: undefined (`none`) when the result is not
representable. -/
def int_add (a b : Int) : Option Int :=
  if -(2 ^ 31) ≤ a + b ∧ a + b < 2 ^ 31 then some (a + b) else none

/-- How `get_compute_capability` ends when a `HIP_RETURN_IF_ERROR` returns. -/
def get_compute_capability.stop (o : Outcome Status) (tr : Trace) :
    Outcome (StatusOr Int) × Trace :=
  (Outcome.map StatusOr.status o, tr)

/-- The function `get_compute_capability` of the module, lines 343-351, for the
`int` that its argument loads as.

    int major, minor;
    HIP_RETURN_IF_ERROR(hipInit(device));
    HIP_RETURN_IF_ERROR(hipDeviceGetAttribute(
        &major, hipDeviceAttributeComputeCapabilityMajor , device));
    HIP_RETURN_IF_ERROR(hipDeviceGetAttribute(
        &minor, hipDeviceAttributeComputeCapabilityMajor , device));
    return major * 10 + minor;

`hipInit` takes an `unsigned int`, to which `device` is converted. -/
def get_compute_capability (d : Driver) (device : Int) (tr : Trace) :
    Outcome (StatusOr Int) × Trace :=
  HIP_RETURN_IF_ERROR d (Call.hipInit (to_unsigned device)) 345 "hipInit(device)" tr
    get_compute_capability.stop
  fun _ tr =>
  HIP_RETURN_IF_ERROR d
    (Call.hipDeviceGetAttribute
      hipDeviceAttribute_t.hipDeviceAttributeComputeCapabilityMajor device) 346
    "hipDeviceGetAttribute( &major, hipDeviceAttributeComputeCapabilityMajor , device)"
    tr get_compute_capability.stop
  fun major tr =>
  HIP_RETURN_IF_ERROR d
    (Call.hipDeviceGetAttribute
      hipDeviceAttribute_t.hipDeviceAttributeComputeCapabilityMajor device) 348
    "hipDeviceGetAttribute( &minor, hipDeviceAttributeComputeCapabilityMajor , device)"
    tr get_compute_capability.stop
  fun minor tr =>
  match int_mul major 10 with
  | none => (Outcome.undefined, tr)
  | some tens =>
    match int_add tens minor with
    | none => (Outcome.undefined, tr)
    | some capability => (Outcome.ret (StatusOr.value capability), tr)

/-! ## Reference definitions used by the statements -/

/-- A driver whose every call succeeds and writes 0. -/
def driver_ok : Driver := fun _ _ => { err := HIP_SUCCESS, out := 0 }

/-- A driver whose every call succeeds, that reports `optin` as the opt-in
shared-memory maximum of every device and `static_size` as the static
shared-memory size of every function, and writes 0 otherwise. -/
def driver_shared (optin static_size : Int) : Driver := fun _ c =>
  match c with
  | Call.hipDeviceGetAttribute
      hipDeviceAttribute_t.hipDeviceAttributeSharedMemPerBlockOptin _ =>
      { err := HIP_SUCCESS, out := optin }
  | Call.hipFuncGetAttribute _ _ => { err := HIP_SUCCESS, out := static_size }
  | _ => { err := HIP_SUCCESS, out := 0 }

/-- A kernel of 4 warps that requests `shared_mem_bytes` bytes of shared memory. -/
def example_kernel (shared_mem_bytes : Nat) : TritonKernel :=
  TritonKernel.new "image" "kernel" 4 shared_mem_bytes

/-- The Kernel Call of the spec's example: a buffer with nothing to zero and no
alignment requirement, a buffer with 64 bytes to zero that must be aligned, and
the scalar 7 encoded with dtype `i32`. -/
def example_call : TritonKernelCall :=
  { kernel_ := 0
    grid_ := (1, 1, 1)
    parameters_ :=
      [Parameter.array { bytes_to_zero := 0, ptr_must_be_divisible_by_16 := false },
       Parameter.array { bytes_to_zero := 64, ptr_must_be_divisible_by_16 := true },
       Parameter.scalar 7] }

/-- A Kernel Call whose first buffer has 64 bytes to zero and whose second
buffer must be aligned. -/
def zero_fill_then_aligned_call : TritonKernelCall :=
  { kernel_ := 0
    grid_ := (1, 1, 1)
    parameters_ :=
      [Parameter.array { bytes_to_zero := 64, ptr_must_be_divisible_by_16 := false },
       Parameter.array { bytes_to_zero := 0, ptr_must_be_divisible_by_16 := true }] }

/-- The number of buffer parameters in a parameter list. -/
def count_arrays : List Parameter → Nat
  | [] => 0
  | Parameter.array _ :: rest => count_arrays rest + 1
  | Parameter.scalar _ :: rest => count_arrays rest

/-- The position, in the buffer-address sequence, of the address that parameter
`i` receives: the number of buffer parameters before it. -/
def buffer_index (parameters : List Parameter) (i : Nat) : Nat :=
  count_arrays (parameters.take i)

/-- The zero-fill calls of a parameter list, as the spec words them: one
`hipMemsetD8Async(address, 0, bytes_to_zero, stream)` for each buffer parameter
with `bytes_to_zero > 0`, at the address it receives, in parameter order; `next`
is the position of the first buffer parameter's address. -/
def zero_fills (stream : hipStream_t) (buffers : List Nat) : List Parameter → Nat → List Call
  | [], _ => []
  | Parameter.array a :: rest, next =>
      (match buffers[next]? with
        | some ptr =>
            if a.bytes_to_zero > 0 then [Call.hipMemsetD8Async ptr 0 a.bytes_to_zero stream]
            else []
        | none => []) ++ zero_fills stream buffers rest (next + 1)
  | Parameter.scalar _ :: rest, next => zero_fills stream buffers rest next

/-- The argument array of a parameter list, as the spec words it: one entry per
parameter, in order; a buffer parameter's entry refers to the slot of the address
it receives, a scalar parameter's entry to its stored payload.  `i` is the index
of the first parameter and `next` the position of the first buffer parameter's
address. -/
def arg_refs : List Parameter → Nat → Nat → List ArgRef
  | [], _, _ => []
  | Parameter.array _ :: rest, i, next => ArgRef.bufferSlot next :: arg_refs rest (i + 1) (next + 1)
  | Parameter.scalar _ :: rest, i, next => ArgRef.scalarSlot i :: arg_refs rest (i + 1) next

/-- The zero-fill call that parameter `i` gives rise to, if any, when the first
buffer parameter receives the address at position `next`. -/
def zero_fill_at (stream : hipStream_t) (buffers : List Nat) (parameters : List Parameter)
    (next : Nat) (i : Nat) : Option Call :=
  match parameters[i]?, buffers[next + count_arrays (parameters.take i)]? with
  | some (Parameter.array a), some ptr =>
      if a.bytes_to_zero > 0 then some (Call.hipMemsetD8Async ptr 0 a.bytes_to_zero stream)
      else none
  | _, _ => none

/-- The integer dtype tags of the spec's enumerated set, each with the width and
the signedness that the tag denotes. -/
def integer_tags : List (String × Nat × Bool) :=
  [("i8", 8, true), ("u8", 8, false), ("i16", 16, true), ("u16", 16, false),
   ("i32", 32, true), ("u32", 32, false), ("i64", 64, true), ("u64", 64, false)]

/-- Whether `v` is representable in `width` bits with the given signedness. -/
def representable (width : Nat) (signed : Bool) (v : Int) : Prop :=
  if signed then -(2 ^ (width - 1)) ≤ v ∧ v < 2 ^ (width - 1) else 0 ≤ v ∧ v < 2 ^ width

instance (width : Nat) (signed : Bool) (v : Int) : Decidable (representable width signed v) := by
  unfold representable
  infer_instance

/-- Decoding as the spec words it: the low `width` bits of the 64-bit payload,
reinterpreted as a signed or an unsigned integer of that width. -/
def decode_payload (width : Nat) (signed : Bool) (payload : Nat) : Int :=
  if signed = true ∧ 2 ^ (width - 1) ≤ payload % 2 ^ width then
    ((payload % 2 ^ width : Nat) : Int) - 2 ^ width
  else ((payload % 2 ^ width : Nat) : Int)

/-- The width in bits of each integer dtype tag accepted by
`EncodeKernelParameter`: 8 for `i1`, `i8`, `u8`; 16 for `i16`, `u16`; 32 for `i32`,
`u32`; 64 for `i64`, `u64`. -/
def dtype_width (dtype : String) : Option Nat :=
  if dtype = "i1" ∨ dtype = "i8" ∨ dtype = "u8" then some 8
  else if dtype = "i16" ∨ dtype = "u16" then some 16
  else if dtype = "i32" ∨ dtype = "u32" then some 32
  else if dtype = "i64" ∨ dtype = "u64" then some 64
  else none

/-- Whether `v` is in the range of the C integer through which the conversion
of a Python `int` goes for this tag: `unsigned long` for the tags converted to an
unsigned type (`u8`, `u16`, `u64`), `long` for the others. -/
def in_conversion_range (dtype : String) (v : Int) : Prop :=
  if dtype = "u8" ∨ dtype = "u16" ∨ dtype = "u64" then 0 ≤ v ∧ v < 2 ^ 64
  else -(2 ^ 63) ≤ v ∧ v < 2 ^ 63

instance (dtype : String) (v : Int) : Decidable (in_conversion_range dtype v) := by
  unfold in_conversion_range
  infer_instance

/-- The tags accepted for an integer value. -/
def integer_dtypes : List String := ["i1", "i8", "u8", "i16", "u16", "i32", "u32", "i64", "u64"]

/-- The tags accepted for a float value. -/
def float_dtypes : List String := ["fp32", "fp64"]

/-- The tags accepted for a boolean value. -/
def bool_dtypes : List String := ["int1", "B"]

/-- A tag with an embedded NUL character: `a`, NUL, `b`. -/
def tag_with_nul : String := String.mk ['a', Char.ofNat 0, 'b']

/-- Whether the text `part` occurs in `message`. -/
def occurs_in (part message : String) : Prop := part.data <:+: message.data

instance (part message : String) : Decidable (occurs_in part message) := by
  unfold occurs_in
  infer_instance

/-- The live objects of the example: `zero_fill_then_aligned_call` at address
4096, referring to the kernel at address 0. -/
def example_memory : Memory :=
  { calls := fun p => if p = 4096 then some zero_fill_then_aligned_call else none
    kernels := fun p => if p = 0 then some (example_kernel 0) else none }

/-- The zero-fill byte count that a parameter declares (none for a scalar). -/
def Parameter.bytes_to_zero : Parameter → Nat
  | Parameter.array a => a.bytes_to_zero
  | Parameter.scalar _ => 0

/-- Whether a call is a zero-fill. -/
def Call.is_memset : Call → Bool
  | Call.hipMemsetD8Async _ _ _ _ => true
  | _ => false

/-- Whether a call is a module load. -/
def Call.is_module_load : Call → Bool
  | Call.hipModuleLoadData _ => true
  | _ => false

/-- Whether a call is a native kernel launch. -/
def Call.is_launch : Call → Bool
  | Call.hipModuleLaunchKernel _ _ _ _ _ _ _ _ _ _ => true
  | _ => false

/-- Whether a call sets a function attribute. -/
def Call.is_set_attribute : Call → Bool
  | Call.hipFuncSetAttribute _ _ _ => true
  | _ => false

/-- Parameter `i` is a buffer parameter with `ptr_must_be_divisible_by_16 = true`
that receives the address `ptr`, and `ptr` is not a multiple of 16. -/
def misaligned_at (parameters : List Parameter) (buffers : List Nat) (i ptr : Nat) : Prop :=
  ∃ a, parameters[i]? = some (Parameter.array a) ∧ a.ptr_must_be_divisible_by_16 = true ∧
    buffers[buffer_index parameters i]? = some ptr ∧ ptr % 16 ≠ 0

/-- Launches of one kernel in succession, each given by its stream, grid and
argument array; the sequence ends with the first launch that does not return. -/
def TritonKernel.Launch_all (d : Driver) :
    List (hipStream_t × (Nat × Nat × Nat) × List ArgRef) → TritonKernel → Trace →
      TritonKernel × Trace
  | [], k, tr => (k, tr)
  | (stream, grid, params) :: rest, k, tr =>
      match TritonKernel.Launch d k stream grid params tr with
      | (Outcome.ret _, k1, tr1) => TritonKernel.Launch_all d rest k1 tr1
      | (_, k1, tr1) => (k1, tr1)

/-- Fail-fast, for calls issued from the trace `tr` on: `tr'` extends `tr`, and a
call of the extension that the driver answered with a non-success code is the
last call issued and `stopped` holds. -/
def fail_fast (d : Driver) (tr : Trace) (stopped : Prop) (tr' : Trace) : Prop :=
  ∃ cs, tr' = tr ++ cs ∧
    ∀ pre c post, cs = pre ++ c :: post → (d (tr ++ pre) c).err ≠ HIP_SUCCESS →
      post = [] ∧ stopped

/-- A driver whose module load fails with code 1 and whose other calls succeed. -/
def driver_load_fails : Driver := fun _ c =>
  match c with
  | Call.hipModuleLoadData _ => { err := 1, out := 0 }
  | _ => { err := HIP_SUCCESS, out := 0 }

/-- A driver whose entry-point lookup fails with code 1 and whose other calls
succeed; the module load writes the handle 5. -/
def driver_lookup_fails : Driver := fun _ c =>
  match c with
  | Call.hipModuleLoadData _ => { err := HIP_SUCCESS, out := 5 }
  | Call.hipModuleGetFunction _ _ => { err := 1, out := 0 }
  | _ => { err := HIP_SUCCESS, out := 0 }

/-- The value of a digit character as written by `Nat.toDigits`: `0`-`9`, then
`a`-`f`. -/
def digit_value (c : Char) : Nat :=
  if c.toNat < 58 then c.toNat - 48 else c.toNat - 87

/-- The number that a list of digit characters denotes in base `base`, the most
significant digit first. -/
def digits_value (base : Nat) (cs : List Char) : Nat :=
  cs.foldl (fun acc c => acc * base + digit_value c) 0

/-- A driver whose every call succeeds and that reports `major` and `minor` as
the compute-capability major and minor attributes of every device. -/
def driver_capability (major minor : Int) : Driver := fun _ c =>
  match c with
  | Call.hipDeviceGetAttribute
      hipDeviceAttribute_t.hipDeviceAttributeComputeCapabilityMajor _ =>
      { err := HIP_SUCCESS, out := major }
  | Call.hipDeviceGetAttribute
      hipDeviceAttribute_t.hipDeviceAttributeComputeCapabilityMinor _ =>
      { err := HIP_SUCCESS, out := minor }
  | _ => { err := HIP_SUCCESS, out := 0 }

/-- Whether a call reads the compute-capability minor attribute. -/
def Call.is_minor_query : Call → Bool
  | Call.hipDeviceGetAttribute
      hipDeviceAttribute_t.hipDeviceAttributeComputeCapabilityMinor _ => true
  | _ => false

/-! ## Theorems -/

/-! ### `AsStatus` and `HIP_RETURN_IF_ERROR` -/

theorem AsStatus_of_success (file : String) (line : Int) (expr : String) :
    AsStatus HIP_SUCCESS file line expr = Outcome.ret OkStatus := by
  simp [AsStatus]

theorem AsStatus_of_failure {error : hipError_t} (h : error ≠ HIP_SUCCESS) (file : String)
    (line : Int) (expr : String) :
    AsStatus error file line expr = Outcome.abort "error == HIP_SUCCESS" := by
  simp [AsStatus, CHECK_EQ, h]

theorem OkStatus_ok : OkStatus.ok = true := by
  simp [OkStatus, Status.ok]

theorem HIP_RETURN_IF_ERROR_of_success {ρ : Type} (d : Driver) (c : Call) (line : Int)
    (expr : String) (tr : Trace) (stop : Outcome Status → Trace → ρ) (next : Int → Trace → ρ)
    (h : (d tr c).err = HIP_SUCCESS) :
    HIP_RETURN_IF_ERROR d c line expr tr stop next = next (d tr c).out (tr ++ [c]) := by
  simp [HIP_RETURN_IF_ERROR, h, AsStatus_of_success, OkStatus_ok]

theorem HIP_RETURN_IF_ERROR_of_failure {ρ : Type} (d : Driver) (c : Call) (line : Int)
    (expr : String) (tr : Trace) (stop : Outcome Status → Trace → ρ) (next : Int → Trace → ρ)
    (h : (d tr c).err ≠ HIP_SUCCESS) :
    HIP_RETURN_IF_ERROR d c line expr tr stop next =
      stop (Outcome.abort "error == HIP_SUCCESS") (tr ++ [c]) := by
  simp [HIP_RETURN_IF_ERROR, AsStatus_of_failure h]

/-- C10.  `AsStatus` returns OK on `HIP_SUCCESS`, and on every other code the
check `CHECK_EQ(error, HIP_SUCCESS)` terminates the process: no failure status
is ever returned.  In particular code 1 at the module load of line 96 ends in
the failed check. -/
theorem AsStatus_failure_terminates :
    (∀ (error : hipError_t) (file : String) (line : Int) (expr : String),
      AsStatus error file line expr =
        if error = HIP_SUCCESS then Outcome.ret OkStatus
        else Outcome.abort "error == HIP_SUCCESS") ∧
    AsStatus 1 FILE 96 "hipModuleLoadData(&module, module_image_.c_str())" =
      Outcome.abort "error == HIP_SUCCESS" := by
  constructor
  · intro error file line expr
    by_cases h : error = HIP_SUCCESS
    · simp [h, AsStatus_of_success]
    · simp [h, AsStatus_of_failure h]
  · exact AsStatus_of_failure (by decide) _ _ _

/-! ### The parameter loop of `TritonKernelCall::Launch` -/

theorem loop_finished (d : Driver) (stream : hipStream_t) (buffers : List Nat) :
    ∀ (ps : List Parameter) (i next : Nat) (acc : List ArgRef) (tr : Trace)
      (params : List ArgRef) (n : Nat) (tr' : Trace),
      TritonKernelCall.Launch.loop d stream buffers ps i next acc tr =
        (Outcome.ret (StatusOr.value (params, n)), tr') →
      params = acc ++ arg_refs ps i next ∧ n = next + count_arrays ps ∧
        tr' = tr ++ zero_fills stream buffers ps next := by
  intro ps
  induction ps with
  | nil =>
    intro i next acc tr params n tr' h
    simp [TritonKernelCall.Launch.loop] at h
    simp [arg_refs, count_arrays, zero_fills, h]
  | cons p rest ih =>
    intro i next acc tr params n tr' h
    cases p with
    | scalar bits =>
      simp only [TritonKernelCall.Launch.loop] at h
      obtain ⟨h1, h2, h3⟩ := ih _ _ _ _ _ _ _ h
      simp [arg_refs, count_arrays, zero_fills, h1, h2, h3]
    | array a =>
      simp only [TritonKernelCall.Launch.loop] at h
      cases hb : buffers[next]? with
      | none => simp [hb] at h
      | some ptr =>
        simp only [hb] at h
        split at h
        · simp at h
        · split at h
          · rename_i hz
            by_cases herr : (d tr (Call.hipMemsetD8Async ptr 0 a.bytes_to_zero stream)).err
                = HIP_SUCCESS
            · rw [HIP_RETURN_IF_ERROR_of_success _ _ _ _ _ _ _ herr] at h
              obtain ⟨h1, h2, h3⟩ := ih _ _ _ _ _ _ _ h
              simp [arg_refs, count_arrays, zero_fills, hb, hz, h1, h2, h3]
              omega
            · rw [HIP_RETURN_IF_ERROR_of_failure _ _ _ _ _ _ _ herr] at h
              simp [Outcome.map] at h
          · rename_i hz
            obtain ⟨h1, h2, h3⟩ := ih _ _ _ _ _ _ _ h
            simp [arg_refs, count_arrays, zero_fills, hb, hz, h1, h2, h3]
            omega

theorem count_arrays_take_succ_array (a : ArrayParameter) (rest : List Parameter) (i : Nat) :
    count_arrays ((Parameter.array a :: rest).take (i + 1)) = count_arrays (rest.take i) + 1 := by
  simp [count_arrays]

theorem count_arrays_take_succ_scalar (b : Nat) (rest : List Parameter) (i : Nat) :
    count_arrays ((Parameter.scalar b :: rest).take (i + 1)) = count_arrays (rest.take i) := by
  simp [count_arrays]

theorem getElem?_of_le {buffers : List Nat} {m n : Nat} {x : Nat} (h : buffers[n]? = some x)
    (hmn : m ≤ n) : ∃ y, buffers[m]? = some y := by
  have hn : n < buffers.length := by
    rcases Nat.lt_or_ge n buffers.length with h1 | h1
    · exact h1
    · rw [List.getElem?_eq_none h1] at h; cases h
  exact ⟨buffers[m], List.getElem?_eq_getElem (by omega)⟩

/-- The loop stops at the first flagged buffer parameter whose address is not a
multiple of 16, having issued the zero-fills of the parameters before it. -/
theorem loop_misaligned (d : Driver) (stream : hipStream_t) (buffers : List Nat)
    (hok : ∀ h dst v n s, (d h (Call.hipMemsetD8Async dst v n s)).err = HIP_SUCCESS) :
    ∀ (ps : List Parameter) (i0 next : Nat) (acc : List ArgRef) (tr : Trace)
      (i : Nat) (a : ArrayParameter) (ptr : Nat),
      ps[i]? = some (Parameter.array a) → a.ptr_must_be_divisible_by_16 = true →
      buffers[next + count_arrays (ps.take i)]? = some ptr → ptr % 16 ≠ 0 →
      ∃ j a' ptr', j ≤ i ∧ ps[j]? = some (Parameter.array a') ∧
        a'.ptr_must_be_divisible_by_16 = true ∧
        buffers[next + count_arrays (ps.take j)]? = some ptr' ∧ ptr' % 16 ≠ 0 ∧
        (∀ j' b q, j' < j → ps[j']? = some (Parameter.array b) →
          b.ptr_must_be_divisible_by_16 = true →
          buffers[next + count_arrays (ps.take j')]? = some q → q % 16 = 0) ∧
        TritonKernelCall.Launch.loop d stream buffers ps i0 next acc tr =
          (Outcome.ret (StatusOr.status (InvalidArgumentError (alignment_message (i0 + j) ptr'))),
            tr ++ zero_fills stream buffers (ps.take j) next) := by
  intro ps
  induction ps with
  | nil => intro i0 next acc tr i a ptr h; simp at h
  | cons p rest ih =>
    intro i0 next acc tr i a ptr hi hflag hptr hmis
    cases p with
    | scalar bits =>
      cases i with
      | zero => simp at hi
      | succ i =>
        simp only [List.getElem?_cons_succ] at hi
        rw [count_arrays_take_succ_scalar] at hptr
        obtain ⟨j, a', ptr', hj, h1, h2, h3, h4, hmin, h5⟩ :=
          ih (i0 + 1) next (acc ++ [ArgRef.scalarSlot i0]) tr i a ptr hi hflag hptr hmis
        refine ⟨j + 1, a', ptr', by omega, by simpa using h1, h2, ?_, h4, ?_, ?_⟩
        · rw [count_arrays_take_succ_scalar]; exact h3
        · intro j' b q hj' hb hbf hq
          cases j' with
          | zero => simp at hb
          | succ j' =>
            rw [count_arrays_take_succ_scalar] at hq
            exact hmin j' b q (by omega) (by simpa using hb) hbf hq
        · simp only [TritonKernelCall.Launch.loop, List.take_succ_cons, zero_fills]
          rw [h5]
          simp [Nat.add_assoc, Nat.add_comm 1 j]
    | array a0 =>
      have hb0 : ∃ p0, buffers[next]? = some p0 := getElem?_of_le hptr (by omega)
      obtain ⟨p0, hp0⟩ := hb0
      by_cases hbad : a0.ptr_must_be_divisible_by_16 = true ∧ p0 % 16 ≠ 0
      · refine ⟨0, a0, p0, by omega, by simp, hbad.1, by simpa [count_arrays] using hp0,
          hbad.2, ?_, ?_⟩
        · intro j' b q hj'; omega
        · simp [TritonKernelCall.Launch.loop, hp0, hbad.1, hbad.2, zero_fills]
      · cases i with
        | zero =>
          simp only [List.getElem?_cons_zero, Option.some.injEq, Parameter.array.injEq] at hi
          subst hi
          simp only [List.take_zero, count_arrays, Nat.add_zero] at hptr
          rw [hp0] at hptr
          cases hptr
          exact absurd ⟨hflag, hmis⟩ hbad
        | succ i =>
          simp only [List.getElem?_cons_succ] at hi
          rw [count_arrays_take_succ_array] at hptr
          have hptr' : buffers[next + 1 + count_arrays (rest.take i)]? = some ptr := by
            rw [← hptr]; congr 1; omega
          have hcond : (a0.ptr_must_be_divisible_by_16 && (p0 % 16 != 0)) = false := by
            cases hf : a0.ptr_must_be_divisible_by_16 with
            | false => simp
            | true =>
              have : p0 % 16 = 0 := by
                by_contra hne; exact hbad ⟨hf, hne⟩
              simp [this]
          have key : ∀ tr1 : Trace, ∃ j a' ptr', j ≤ i + 1 ∧
              (Parameter.array a0 :: rest)[j]? = some (Parameter.array a') ∧
              a'.ptr_must_be_divisible_by_16 = true ∧
              buffers[next + count_arrays ((Parameter.array a0 :: rest).take j)]? = some ptr' ∧
              ptr' % 16 ≠ 0 ∧
              (∀ j' b q, j' < j → (Parameter.array a0 :: rest)[j']? = some (Parameter.array b) →
                b.ptr_must_be_divisible_by_16 = true →
                buffers[next + count_arrays ((Parameter.array a0 :: rest).take j')]? = some q →
                q % 16 = 0) ∧
              TritonKernelCall.Launch.loop d stream buffers rest (i0 + 1) (next + 1)
                  (acc ++ [ArgRef.bufferSlot next]) tr1 =
                (Outcome.ret (StatusOr.status
                  (InvalidArgumentError (alignment_message (i0 + j) ptr'))),
                  tr1 ++ zero_fills stream buffers (rest.take (j - 1)) (next + 1)) ∧ 0 < j := by
            intro tr1
            obtain ⟨j, a', ptr', hj, h1, h2, h3, h4, hmin, h5⟩ :=
              ih (i0 + 1) (next + 1) (acc ++ [ArgRef.bufferSlot next]) tr1 i a ptr hi hflag
                hptr' hmis
            refine ⟨j + 1, a', ptr', by omega, by simpa using h1, h2, ?_, h4, ?_, ?_, by omega⟩
            · rw [count_arrays_take_succ_array, ← h3]; congr 1; omega
            · intro j' b q hj' hb hbf hq
              cases j' with
              | zero =>
                simp only [List.getElem?_cons_zero, Option.some.injEq,
                  Parameter.array.injEq] at hb
                subst hb
                simp only [List.take_zero, count_arrays, Nat.add_zero] at hq
                rw [hp0] at hq
                cases hq
                by_contra hne
                exact hbad ⟨hbf, hne⟩
              | succ j' =>
                rw [count_arrays_take_succ_array] at hq
                refine hmin j' b q (by omega) (by simpa using hb) hbf ?_
                rw [← hq]; congr 1; omega
            · rw [h5]
              simp [Nat.add_assoc, Nat.add_comm 1 j]
          by_cases hz : a0.bytes_to_zero > 0
          · obtain ⟨j, a', ptr', hj, h1, h2, h3, h4, hmin, h5, hjpos⟩ :=
              key (tr ++ [Call.hipMemsetD8Async p0 0 a0.bytes_to_zero stream])
            refine ⟨j, a', ptr', hj, h1, h2, h3, h4, hmin, ?_⟩
            obtain ⟨j1, rfl⟩ : ∃ j1, j = j1 + 1 := ⟨j - 1, by omega⟩
            simp only [TritonKernelCall.Launch.loop, hp0, hcond, hz, List.take_succ_cons,
              zero_fills]
            rw [HIP_RETURN_IF_ERROR_of_success _ _ _ _ _ _ _ (hok _ _ _ _ _)]
            simpa using h5
          · obtain ⟨j, a', ptr', hj, h1, h2, h3, h4, hmin, h5, hjpos⟩ := key tr
            refine ⟨j, a', ptr', hj, h1, h2, h3, h4, hmin, ?_⟩
            obtain ⟨j1, rfl⟩ : ∃ j1, j = j1 + 1 := ⟨j - 1, by omega⟩
            simp only [TritonKernelCall.Launch.loop, hp0, hcond, hz, List.take_succ_cons,
              zero_fills]
            simpa using h5

/-! ### The calls of `TritonKernel::Launch` -/

theorem HIP_RETURN_IF_ERROR_eq_ite {ρ : Type} (d : Driver) (c : Call) (line : Int)
    (expr : String) (tr : Trace) (stop : Outcome Status → Trace → ρ) (next : Int → Trace → ρ) :
    HIP_RETURN_IF_ERROR d c line expr tr stop next =
      if (d tr c).err = HIP_SUCCESS then next (d tr c).out (tr ++ [c])
      else stop (Outcome.abort "error == HIP_SUCCESS") (tr ++ [c]) := by
  by_cases h : (d tr c).err = HIP_SUCCESS
  · rw [HIP_RETURN_IF_ERROR_of_success _ _ _ _ _ _ _ h, if_pos h]
  · rw [HIP_RETURN_IF_ERROR_of_failure _ _ _ _ _ _ _ h, if_neg h]

/-- A `HIP_RETURN_IF_ERROR` step issues its call first; what follows is what the
continuation issues. -/
theorem HIP_RETURN_IF_ERROR_head {β σ : Type} (Q : Call → Prop) (d : Driver)
    (c : Call) (line : Int) (expr : String) (tr : Trace)
    (stop : Outcome Status → Trace → Outcome β × σ × Trace)
    (next : Int → Trace → Outcome β × σ × Trace) (hstop : ∀ o t, (stop o t).2.2 = t)
    (hnext : ∀ out, ∃ cs, (next out (tr ++ [c])).2.2 = (tr ++ [c]) ++ cs ∧ ∀ x ∈ cs, Q x) :
    ∃ cs, (HIP_RETURN_IF_ERROR d c line expr tr stop next).2.2 = tr ++ c :: cs ∧
      ∀ x ∈ cs, Q x := by
  rw [HIP_RETURN_IF_ERROR_eq_ite]
  split_ifs
  · obtain ⟨cs, h1, h2⟩ := hnext (d tr c).out
    exact ⟨cs, by simpa using h1, h2⟩
  · exact ⟨[], by simp [hstop], by simp⟩

theorem HIP_RETURN_IF_ERROR_extends {β σ : Type} (Q : Call → Prop) (d : Driver)
    (c : Call) (line : Int) (expr : String) (tr : Trace)
    (stop : Outcome Status → Trace → Outcome β × σ × Trace)
    (next : Int → Trace → Outcome β × σ × Trace) (hc : Q c) (hstop : ∀ o t, (stop o t).2.2 = t)
    (hnext : ∀ out, ∃ cs, (next out (tr ++ [c])).2.2 = (tr ++ [c]) ++ cs ∧ ∀ x ∈ cs, Q x) :
    ∃ cs, (HIP_RETURN_IF_ERROR d c line expr tr stop next).2.2 = tr ++ cs ∧
      ∀ x ∈ cs, Q x := by
  obtain ⟨cs, h1, h2⟩ := HIP_RETURN_IF_ERROR_head Q d c line expr tr stop next hstop hnext
  refine ⟨c :: cs, h1, ?_⟩
  intro x hx
  rcases List.mem_cons.mp hx with rfl | hx
  · exact hc
  · exact h2 x hx

/-- The calls that one `GetFunctionForStream` adds to the trace: the module load
comes first and is the only one, and none is a zero-fill or a native launch. -/
theorem GetFunctionForStream_trace (d : Driver) (k : TritonKernel) (stream : hipStream_t)
    (tr : Trace) :
    ∃ cs, (TritonKernel.GetFunctionForStream d k stream tr).2.2 =
        tr ++ Call.hipModuleLoadData k.module_image_ :: cs ∧
      ∀ c ∈ cs, c.is_memset = false ∧ c.is_launch = false ∧ c.is_module_load = false := by
  unfold TritonKernel.GetFunctionForStream
  have hstop : ∀ (k' : TritonKernel) (o : Outcome Status) (t : Trace),
      (TritonKernel.GetFunctionForStream.stop k' o t).2.2 = t := fun _ _ _ => rfl
  have hnil : ∀ (t : Trace) (r : Outcome (StatusOr hipFunction_t) × TritonKernel × Trace),
      r.2.2 = t → ∃ cs, r.2.2 = t ++ cs ∧
        ∀ c ∈ cs, c.is_memset = false ∧ c.is_launch = false ∧ c.is_module_load = false :=
    fun t r h => ⟨[], by simp [h], by simp⟩
  apply HIP_RETURN_IF_ERROR_head _ _ _ _ _ _ _ _ (hstop _)
  intro module
  apply HIP_RETURN_IF_ERROR_extends _ _ _ _ _ _ _ _ (by simp [Call.is_memset, Call.is_launch, Call.is_module_load]) (hstop _)
  intro function
  split
  · exact hnil _ _ rfl
  apply HIP_RETURN_IF_ERROR_extends _ _ _ _ _ _ _ _ (by simp [Call.is_memset, Call.is_launch, Call.is_module_load]) (hstop _)
  intro device
  apply HIP_RETURN_IF_ERROR_extends _ _ _ _ _ _ _ _ (by simp [Call.is_memset, Call.is_launch, Call.is_module_load]) (hstop _)
  intro shared_optin
  split
  · exact hnil _ _ rfl
  split
  · apply HIP_RETURN_IF_ERROR_extends _ _ _ _ _ _ _ _ (by simp [Call.is_memset, Call.is_launch, Call.is_module_load]) (hstop _)
    intro _
    apply HIP_RETURN_IF_ERROR_extends _ _ _ _ _ _ _ _ (by simp [Call.is_memset, Call.is_launch, Call.is_module_load]) (hstop _)
    intro shared_total
    apply HIP_RETURN_IF_ERROR_extends _ _ _ _ _ _ _ _ (by simp [Call.is_memset, Call.is_launch, Call.is_module_load]) (hstop _)
    intro shared_static
    split
    · exact hnil _ _ rfl
    · apply HIP_RETURN_IF_ERROR_extends _ _ _ _ _ _ _ _ (by simp [Call.is_memset, Call.is_launch, Call.is_module_load]) (hstop _)
      intro _
      exact hnil _ _ rfl
  · exact hnil _ _ rfl

theorem TritonKernel_Launch_trace (d : Driver) (k : TritonKernel) (stream : hipStream_t)
    (grid : Nat × Nat × Nat) (params : List ArgRef) (tr : Trace) :
    ∃ cs, (TritonKernel.Launch d k stream grid params tr).2.2 =
        tr ++ Call.hipModuleLoadData k.module_image_ :: cs ∧
      ∀ c ∈ cs, c.is_memset = false ∧ c.is_module_load = false := by
  obtain ⟨cs, h1, h2⟩ := GetFunctionForStream_trace d k stream tr
  unfold TritonKernel.Launch
  rcases hr : TritonKernel.GetFunctionForStream d k stream tr with ⟨o, k1, tr1⟩
  rw [hr] at h1
  simp only at h1
  subst h1
  have h2' : ∀ c ∈ cs, c.is_memset = false ∧ c.is_module_load = false :=
    fun c hc => ⟨(h2 c hc).1, (h2 c hc).2.2⟩
  cases o with
  | ret r =>
    cases r with
    | value f =>
      refine ⟨cs ++ [Call.hipModuleLaunchKernel f grid.1 grid.2.1 grid.2.2 k.block_dim_x_ 1 1
        k.shared_mem_bytes_ stream params], by simp, ?_⟩
      intro c hc
      rcases List.mem_append.mp hc with hc | hc
      · exact h2' c hc
      · simp only [List.mem_singleton] at hc
        subst hc
        simp [Call.is_memset, Call.is_module_load]
    | status st =>
      refine ⟨cs, ?_, h2'⟩
      simp only
      split <;> rfl
  | abort m => exact ⟨cs, rfl, h2'⟩
  | undefined => exact ⟨cs, rfl, h2'⟩

theorem to_unsigned_of_nonneg {x : Int} (h0 : 0 ≤ x) (h1 : x < 2 ^ 32) :
    (to_unsigned x : Int) = x := by
  unfold to_unsigned
  rw [Int.emod_eq_of_lt h0 h1]
  exact Int.toNat_of_nonneg h0

theorem to_unsigned_kMaxStaticSharedMemBytes : to_unsigned kMaxStaticSharedMemBytes = 49152 := by
  decide

theorem int_sub_of_sizes {a b : Int} (ha : 0 ≤ a ∧ a < 2 ^ 31) (hb : 0 ≤ b ∧ b < 2 ^ 31) :
    int_sub a b = some (a - b) := by
  unfold int_sub
  rw [if_pos]
  constructor <;> omega

theorem Launch_of_static_size (d : Driver) (k : TritonKernel)
    (stream : hipStream_t) (grid : Nat × Nat × Nat) (params : List ArgRef) (tr : Trace)
    (hok : ∀ h c, (d h c).err = HIP_SUCCESS) (hs : k.shared_mem_bytes_ ≤ 49152) :
    ∃ m f, TritonKernel.Launch d k stream grid params tr =
      (Outcome.ret OkStatus, { k with modules_ := k.modules_ ++ [m] },
        tr ++ [Call.hipModuleLoadData k.module_image_,
          Call.hipModuleGetFunction m (c_str k.kernel_name_),
          Call.hipModuleLaunchKernel f grid.1 grid.2.1 grid.2.2 k.block_dim_x_ 1 1
            k.shared_mem_bytes_ stream params]) := by
  exact ⟨_, _, by
    simp only [TritonKernel.Launch, TritonKernel.GetFunctionForStream,
      HIP_RETURN_IF_ERROR_of_success _ _ _ _ _ _ _ (hok _ _),
      to_unsigned_kMaxStaticSharedMemBytes, hs, if_true, hok, AsStatus_of_success,
      List.append_assoc, List.cons_append, List.nil_append]
    rfl⟩

theorem Launch_of_dynamic_size (d : Driver) (k : TritonKernel)
    (stream : hipStream_t) (grid : Nat × Nat × Nat) (params : List ArgRef) (tr : Trace)
    (optin static_size : Int)
    (hok : ∀ h c, (d h c).err = HIP_SUCCESS)
    (hopt : ∀ h dev, (d h (Call.hipDeviceGetAttribute
      hipDeviceAttribute_t.hipDeviceAttributeSharedMemPerBlockOptin dev)).out = optin)
    (hstat : ∀ h f, (d h (Call.hipFuncGetAttribute
      hipFunction_attribute.HIP_FUNC_ATTRIBUTE_SHARED_SIZE_BYTES f)).out = static_size)
    (hoptin : optin < 2 ^ 31)
    (hstatic : 0 ≤ static_size ∧ static_size < 2 ^ 31)
    (hs : 49152 < k.shared_mem_bytes_) (hle : (k.shared_mem_bytes_ : Int) ≤ optin) :
    ∃ m f dev, TritonKernel.Launch d k stream grid params tr =
      (Outcome.ret OkStatus, { k with modules_ := k.modules_ ++ [m] },
        tr ++ [Call.hipModuleLoadData k.module_image_,
          Call.hipModuleGetFunction m (c_str k.kernel_name_),
          Call.hipStreamGetDevice stream,
          Call.hipDeviceGetAttribute
            hipDeviceAttribute_t.hipDeviceAttributeSharedMemPerBlockOptin dev,
          Call.hipFuncSetCacheConfig f hipFuncCache_t.hipFuncCachePreferShared,
          Call.hipDeviceGetAttribute
            hipDeviceAttribute_t.hipDeviceAttributeMaxBlocksPerMultiProcessor dev,
          Call.hipFuncGetAttribute hipFunction_attribute.HIP_FUNC_ATTRIBUTE_SHARED_SIZE_BYTES f,
          Call.hipFuncSetAttribute f hipFuncAttribute.hipFuncAttributeMaxDynamicSharedMemorySize
            (optin - static_size),
          Call.hipModuleLaunchKernel f grid.1 grid.2.1 grid.2.2 k.block_dim_x_ 1 1
            k.shared_mem_bytes_ stream params]) := by
  have hu : (to_unsigned optin : Int) = optin := to_unsigned_of_nonneg (by omega) (by omega)
  have h1 : ¬ k.shared_mem_bytes_ ≤ 49152 := by omega
  have h2 : ¬ k.shared_mem_bytes_ > to_unsigned optin := by omega
  have h3 : optin > kMaxStaticSharedMemBytes := by
    have : kMaxStaticSharedMemBytes = 49152 := rfl
    omega
  have h4 := int_sub_of_sizes (a := optin) (b := static_size) ⟨by omega, hoptin⟩ hstatic
  exact ⟨_, _, _, by
    simp only [TritonKernel.Launch, TritonKernel.GetFunctionForStream,
      HIP_RETURN_IF_ERROR_of_success _ _ _ _ _ _ _ (hok _ _),
      to_unsigned_kMaxStaticSharedMemBytes, h1, h2, h3, h4, hopt, hstat, if_true, if_false, hok,
      AsStatus_of_success, List.append_assoc, List.cons_append, List.nil_append]
    rfl⟩

theorem Launch_of_excessive_size (d : Driver) (k : TritonKernel)
    (stream : hipStream_t) (grid : Nat × Nat × Nat) (params : List ArgRef) (tr : Trace)
    (optin : Int)
    (hok : ∀ h c, (d h c).err = HIP_SUCCESS)
    (hopt : ∀ h dev, (d h (Call.hipDeviceGetAttribute
      hipDeviceAttribute_t.hipDeviceAttributeSharedMemPerBlockOptin dev)).out = optin)
    (hoptin : 0 ≤ optin ∧ optin < 2 ^ 31)
    (hs : 49152 < k.shared_mem_bytes_) (hlt : optin < (k.shared_mem_bytes_ : Int)) :
    ∃ m dev, TritonKernel.Launch d k stream grid params tr =
      (Outcome.ret (InvalidArgumentError "Shared memory requested exceeds device resources."),
        { k with modules_ := k.modules_ ++ [m] },
        tr ++ [Call.hipModuleLoadData k.module_image_,
          Call.hipModuleGetFunction m (c_str k.kernel_name_),
          Call.hipStreamGetDevice stream,
          Call.hipDeviceGetAttribute
            hipDeviceAttribute_t.hipDeviceAttributeSharedMemPerBlockOptin dev]) := by
  have hu : (to_unsigned optin : Int) = optin := to_unsigned_of_nonneg hoptin.1 (by omega)
  have h1 : ¬ k.shared_mem_bytes_ ≤ 49152 := by omega
  have h2 : k.shared_mem_bytes_ > to_unsigned optin := by omega
  have hnok : (InvalidArgumentError
      "Shared memory requested exceeds device resources.").ok = false := rfl
  exact ⟨_, _, by
    simp only [TritonKernel.Launch, TritonKernel.GetFunctionForStream,
      HIP_RETURN_IF_ERROR_of_success _ _ _ _ _ _ _ (hok _ _),
      to_unsigned_kMaxStaticSharedMemBytes, h1, h2, hopt, if_true, if_false, hnok,
      List.append_assoc, List.cons_append, List.nil_append]
    rfl⟩

/-! ### Argument array and zero-fills -/

theorem zero_fills_is_memset (stream : hipStream_t) (buffers : List Nat) :
    ∀ (ps : List Parameter) (next : Nat) (c : Call),
      c ∈ zero_fills stream buffers ps next → c.is_memset = true := by
  intro ps
  induction ps with
  | nil => intro next c h; simp [zero_fills] at h
  | cons p rest ih =>
    intro next c h
    cases p with
    | scalar bits => exact ih next c (by simpa [zero_fills] using h)
    | array a =>
      simp only [zero_fills, List.mem_append] at h
      rcases h with h | h
      · cases hb : buffers[next]? with
        | none => simp [hb] at h
        | some ptr =>
          simp only [hb] at h
          split at h
          · simp only [List.mem_singleton] at h
            subst h
            rfl
          · simp at h
      · exact ih _ c h

theorem zero_fills_eq_nil (stream : hipStream_t) (buffers : List Nat) :
    ∀ (ps : List Parameter) (next : Nat), (∀ p ∈ ps, p.bytes_to_zero = 0) →
      zero_fills stream buffers ps next = [] := by
  intro ps
  induction ps with
  | nil => intro next _; rfl
  | cons p rest ih =>
    intro next h
    have hrest := ih
    cases p with
    | scalar bits =>
      simp only [zero_fills]
      exact ih next (fun q hq => h q (List.mem_cons_of_mem _ hq))
    | array a =>
      have ha : a.bytes_to_zero = 0 := h (Parameter.array a) (List.mem_cons_self _ _)
      simp only [zero_fills, ha]
      rw [ih (next + 1) (fun q hq => h q (List.mem_cons_of_mem _ hq))]
      cases buffers[next]? <;> simp

theorem arg_refs_length : ∀ (ps : List Parameter) (i next : Nat),
    (arg_refs ps i next).length = ps.length := by
  intro ps
  induction ps with
  | nil => intro i next; rfl
  | cons p rest ih =>
    intro i next
    cases p <;> simp [arg_refs, ih]

theorem arg_refs_getElem?_array : ∀ (ps : List Parameter) (i next j : Nat) (a : ArrayParameter),
    ps[j]? = some (Parameter.array a) →
    (arg_refs ps i next)[j]? = some (ArgRef.bufferSlot (next + count_arrays (ps.take j))) := by
  intro ps
  induction ps with
  | nil => intro i next j a h; simp at h
  | cons p rest ih =>
    intro i next j a h
    cases j with
    | zero =>
      simp only [List.getElem?_cons_zero, Option.some.injEq] at h
      subst h
      simp [arg_refs, count_arrays]
    | succ j =>
      simp only [List.getElem?_cons_succ] at h
      cases p with
      | scalar bits =>
        simp only [arg_refs, List.getElem?_cons_succ, count_arrays_take_succ_scalar]
        exact ih _ _ _ _ h
      | array b =>
        simp only [arg_refs, List.getElem?_cons_succ, count_arrays_take_succ_array]
        rw [ih _ _ _ _ h]
        congr 2
        omega

theorem arg_refs_getElem?_scalar : ∀ (ps : List Parameter) (i next j : Nat) (bits : Nat),
    ps[j]? = some (Parameter.scalar bits) →
    (arg_refs ps i next)[j]? = some (ArgRef.scalarSlot (i + j)) := by
  intro ps
  induction ps with
  | nil => intro i next j a h; simp at h
  | cons p rest ih =>
    intro i next j bits h
    cases j with
    | zero =>
      simp only [List.getElem?_cons_zero, Option.some.injEq] at h
      subst h
      simp [arg_refs]
    | succ j =>
      simp only [List.getElem?_cons_succ] at h
      cases p with
      | scalar b =>
        simp only [arg_refs, List.getElem?_cons_succ]
        rw [ih _ _ _ _ h]
        congr 2
        omega
      | array b =>
        simp only [arg_refs, List.getElem?_cons_succ]
        rw [ih _ _ _ _ h]
        congr 2
        omega

/-- When the loop runs to its end, every buffer parameter found its address in
the caller's array. -/
theorem loop_finished_addresses (d : Driver) (stream : hipStream_t) (buffers : List Nat) :
    ∀ (ps : List Parameter) (i next : Nat) (acc : List ArgRef) (tr : Trace)
      (r : List ArgRef × Nat) (tr' : Trace),
      TritonKernelCall.Launch.loop d stream buffers ps i next acc tr =
        (Outcome.ret (StatusOr.value r), tr') →
      ∀ j a, ps[j]? = some (Parameter.array a) →
        ∃ addr, buffers[next + count_arrays (ps.take j)]? = some addr := by
  intro ps
  induction ps with
  | nil => intro i next acc tr r tr' _ j a h; simp at h
  | cons p rest ih =>
    intro i next acc tr r tr' h j a hj
    cases p with
    | scalar bits =>
      simp only [TritonKernelCall.Launch.loop] at h
      cases j with
      | zero => simp at hj
      | succ j =>
        rw [count_arrays_take_succ_scalar]
        exact ih _ _ _ _ _ _ h j a (by simpa using hj)
    | array a0 =>
      simp only [TritonKernelCall.Launch.loop] at h
      cases hb : buffers[next]? with
      | none => simp [hb] at h
      | some ptr =>
        cases j with
        | zero => exact ⟨ptr, by simpa [count_arrays] using hb⟩
        | succ j =>
          have hj' : rest[j]? = some (Parameter.array a) := by simpa using hj
          have hidx : next + count_arrays ((Parameter.array a0 :: rest).take (j + 1)) =
              next + 1 + count_arrays (rest.take j) := by
            rw [count_arrays_take_succ_array]; omega
          rw [hidx]
          simp only [hb] at h
          split at h
          · simp at h
          · split at h
            · by_cases herr : (d tr (Call.hipMemsetD8Async ptr 0 a0.bytes_to_zero stream)).err
                  = HIP_SUCCESS
              · rw [HIP_RETURN_IF_ERROR_of_success _ _ _ _ _ _ _ herr] at h
                exact ih _ _ _ _ _ _ h j a hj'
              · rw [HIP_RETURN_IF_ERROR_of_failure _ _ _ _ _ _ _ herr] at h
                simp [Outcome.map] at h
            · exact ih _ _ _ _ _ _ h j a hj'

/-! ### C1: alignment failure -/

/-- C1, as stated, fails: the second buffer must be aligned and receives 0x2001,
the launch returns the alignment error, and the zero-fill of the first buffer
has already been issued. -/
theorem Launch_misaligned_after_zero_fill :
    TritonKernelCall.Launch driver_ok zero_fill_then_aligned_call (example_kernel 0) 7
        [0x1000, 0x2001] [] =
      (Outcome.ret (InvalidArgumentError "Parameter 1 (0x2001) is not divisible by 16."),
        example_kernel 0, [Call.hipMemsetD8Async 0x1000 0 64 7]) := by
  decide

/-! ### C2: module loads of successive launches -/

/-- C2, as stated, fails: two launches of one kernel in succession on one stream
both succeed, and the module load has been invoked twice. -/
theorem second_Launch_loads_again :
    (TritonKernel.Launch driver_ok (example_kernel 0) 7 (1, 1, 1) [] []).1 =
        Outcome.ret OkStatus ∧
    (TritonKernel.Launch driver_ok
        (TritonKernel.Launch driver_ok (example_kernel 0) 7 (1, 1, 1) [] []).2.1 7 (1, 1, 1) []
        (TritonKernel.Launch driver_ok (example_kernel 0) 7 (1, 1, 1) [] []).2.2).1 =
        Outcome.ret OkStatus ∧
    List.countP Call.is_module_load
      (TritonKernel.Launch driver_ok
        (TritonKernel.Launch driver_ok (example_kernel 0) 7 (1, 1, 1) [] []).2.1 7 (1, 1, 1) []
        (TritonKernel.Launch driver_ok (example_kernel 0) 7 (1, 1, 1) [] []).2.2).2.2 = 2 := by
  decide

theorem TritonKernel_Launch_loads_once (d : Driver) (k : TritonKernel) (stream : hipStream_t)
    (grid : Nat × Nat × Nat) (params : List ArgRef) (tr : Trace) :
    List.countP Call.is_module_load (TritonKernel.Launch d k stream grid params tr).2.2 =
      List.countP Call.is_module_load tr + 1 := by
  obtain ⟨cs, h1, h2⟩ := TritonKernel_Launch_trace d k stream grid params tr
  rw [h1, List.countP_append, List.countP_cons]
  have h0 : List.countP Call.is_module_load cs = 0 := by
    rw [List.countP_eq_zero]
    intro c hc
    simp [(h2 c hc).2]
  simp [h0, Call.is_module_load]

/-- C2 (amended).  Every `TritonKernel::Launch` invokes the module load exactly
once, so two launches of a kernel in succession on one stream invoke it exactly
twice in total, whatever the driver answers: the second launch loads the image
again. -/
theorem Launch_twice_loads_twice (d : Driver) (k : TritonKernel) (stream : hipStream_t)
    (grid grid' : Nat × Nat × Nat) (params params' : List ArgRef) (tr : Trace) :
    List.countP Call.is_module_load
      (TritonKernel.Launch d (TritonKernel.Launch d k stream grid params tr).2.1 stream grid'
        params' (TritonKernel.Launch d k stream grid params tr).2.2).2.2 =
      List.countP Call.is_module_load tr + 2 := by
  rw [TritonKernel_Launch_loads_once, TritonKernel_Launch_loads_once]

/-! ### C3: shared-memory configuration -/

/-- C3, as stated, fails in its third case: a request of 1000 bytes exceeds an
opt-in maximum of 500 bytes, and the launch succeeds with a native launch call;
and a request of 60000 bytes exceeds an opt-in maximum reported as -1, and the
launch succeeds as well. -/
theorem Launch_above_optin_succeeds :
    TritonKernel.Launch (driver_shared 500 0) (example_kernel 1000) 7 (1, 1, 1) [] [] =
      (Outcome.ret OkStatus, { example_kernel 1000 with modules_ := [0] },
        [Call.hipModuleLoadData "image", Call.hipModuleGetFunction 0 "kernel",
          Call.hipModuleLaunchKernel 0 1 1 1 256 1 1 1000 7 []]) ∧
    TritonKernel.Launch (driver_shared (-1) 0) (example_kernel 60000) 7 (1, 1, 1) [] [] =
      (Outcome.ret OkStatus, { example_kernel 60000 with modules_ := [0] },
        [Call.hipModuleLoadData "image", Call.hipModuleGetFunction 0 "kernel",
          Call.hipStreamGetDevice 7,
          Call.hipDeviceGetAttribute
            hipDeviceAttribute_t.hipDeviceAttributeSharedMemPerBlockOptin 0,
          Call.hipModuleLaunchKernel 0 1 1 1 256 1 1 60000 7 []]) := by
  decide

/-- C3 (amended).  With every driver call succeeding, a non-negative opt-in
maximum `optin` and a non-negative static size `static_size` (both `int`s):
(1) a request of at most 49152 bytes launches without any `hipFuncSetAttribute`;
(2) a request above 49152 and at most `optin` launches with exactly one
`hipFuncSetAttribute`, for the maximum dynamic shared-memory size, with value
`optin - static_size`; (3) a request above 49152 and above `optin` returns the
invalid-argument error and issues no native launch. -/
theorem Launch_shared_memory_configuration (d : Driver) (k : TritonKernel)
    (stream : hipStream_t) (grid : Nat × Nat × Nat) (params : List ArgRef) (tr : Trace)
    (optin static_size : Int)
    (hok : ∀ h c, (d h c).err = HIP_SUCCESS)
    (hopt : ∀ h dev, (d h (Call.hipDeviceGetAttribute
      hipDeviceAttribute_t.hipDeviceAttributeSharedMemPerBlockOptin dev)).out = optin)
    (hstat : ∀ h f, (d h (Call.hipFuncGetAttribute
      hipFunction_attribute.HIP_FUNC_ATTRIBUTE_SHARED_SIZE_BYTES f)).out = static_size)
    (hoptin : 0 ≤ optin ∧ optin < 2 ^ 31)
    (hstatic : 0 ≤ static_size ∧ static_size < 2 ^ 31) :
    ∃ cs, (TritonKernel.Launch d k stream grid params tr).2.2 = tr ++ cs ∧
      (k.shared_mem_bytes_ ≤ 49152 →
        (TritonKernel.Launch d k stream grid params tr).1 = Outcome.ret OkStatus ∧
        cs.filter Call.is_set_attribute = []) ∧
      (49152 < k.shared_mem_bytes_ → (k.shared_mem_bytes_ : Int) ≤ optin →
        (TritonKernel.Launch d k stream grid params tr).1 = Outcome.ret OkStatus ∧
        ∃ f, cs.filter Call.is_set_attribute =
          [Call.hipFuncSetAttribute f hipFuncAttribute.hipFuncAttributeMaxDynamicSharedMemorySize
            (optin - static_size)]) ∧
      (49152 < k.shared_mem_bytes_ → optin < (k.shared_mem_bytes_ : Int) →
        (TritonKernel.Launch d k stream grid params tr).1 = Outcome.ret (InvalidArgumentError
          "Shared memory requested exceeds device resources.") ∧
        cs.filter Call.is_launch = []) := by
  by_cases h1 : k.shared_mem_bytes_ ≤ 49152
  · obtain ⟨m, f, h⟩ := Launch_of_static_size d k stream grid params tr hok h1
    refine ⟨_, by rw [h], ?_, ?_, ?_⟩
    · intro _; rw [h]; exact ⟨rfl, rfl⟩
    · intro h2; omega
    · intro h2; omega
  · by_cases h2 : (k.shared_mem_bytes_ : Int) ≤ optin
    · obtain ⟨m, f, dev, h⟩ := Launch_of_dynamic_size d k stream grid params tr optin
        static_size hok hopt hstat hoptin.2 hstatic (by omega) h2
      refine ⟨_, by rw [h], ?_, ?_, ?_⟩
      · intro h3; omega
      · intro _ _; rw [h]; exact ⟨rfl, f, rfl⟩
      · intro _ h3; omega
    · obtain ⟨m, dev, h⟩ := Launch_of_excessive_size d k stream grid params tr optin
        hok hopt hoptin (by omega) (by omega)
      refine ⟨_, by rw [h], ?_, ?_, ?_⟩
      · intro h3; omega
      · intro _ h3; omega
      · intro _ _; rw [h]; exact ⟨rfl, rfl⟩

theorem driver_shared_err (optin static_size : Int) (h : Trace) (c : Call) :
    (driver_shared optin static_size h c).err = HIP_SUCCESS := by
  unfold driver_shared
  split <;> rfl

theorem Launch_shared_memory_configuration_witness :
    49152 < (example_kernel 60000).shared_mem_bytes_ ∧
    ((example_kernel 60000).shared_mem_bytes_ : Int) ≤ 65536 ∧
    ∃ cs, (TritonKernel.Launch (driver_shared 65536 1024) (example_kernel 60000) 7 (1, 1, 1)
        [] []).2.2 = [] ++ cs ∧
      ((example_kernel 60000).shared_mem_bytes_ ≤ 49152 →
        (TritonKernel.Launch (driver_shared 65536 1024) (example_kernel 60000) 7 (1, 1, 1)
          [] []).1 = Outcome.ret OkStatus ∧
        cs.filter Call.is_set_attribute = []) ∧
      (49152 < (example_kernel 60000).shared_mem_bytes_ →
        ((example_kernel 60000).shared_mem_bytes_ : Int) ≤ 65536 →
        (TritonKernel.Launch (driver_shared 65536 1024) (example_kernel 60000) 7 (1, 1, 1)
          [] []).1 = Outcome.ret OkStatus ∧
        ∃ f, cs.filter Call.is_set_attribute =
          [Call.hipFuncSetAttribute f hipFuncAttribute.hipFuncAttributeMaxDynamicSharedMemorySize
            (65536 - 1024)]) ∧
      (49152 < (example_kernel 60000).shared_mem_bytes_ →
        (65536 : Int) < ((example_kernel 60000).shared_mem_bytes_ : Int) →
        (TritonKernel.Launch (driver_shared 65536 1024) (example_kernel 60000) 7 (1, 1, 1)
          [] []).1 = Outcome.ret (InvalidArgumentError
          "Shared memory requested exceeds device resources.") ∧
        cs.filter Call.is_launch = []) :=
  ⟨by decide, by decide,
    Launch_shared_memory_configuration (driver_shared 65536 1024) (example_kernel 60000) 7
      (1, 1, 1) [] [] 65536 1024 (driver_shared_err 65536 1024) (fun _ _ => rfl)
      (fun _ _ => rfl) (by decide) (by decide)⟩

theorem zero_fills_eq_filterMap_aux (stream : hipStream_t) (buffers : List Nat) :
    ∀ (ps : List Parameter) (next : Nat),
      zero_fills stream buffers ps next =
        (List.range ps.length).filterMap (zero_fill_at stream buffers ps next) := by
  intro ps
  induction ps with
  | nil => intro next; rfl
  | cons p rest ih =>
    intro next
    rw [List.length_cons, List.range_succ_eq_map, List.filterMap_cons, List.filterMap_map]
    cases p with
    | scalar bits =>
      have h0 : zero_fill_at stream buffers (Parameter.scalar bits :: rest) next 0 = none := by
        simp [zero_fill_at]
      have hs : (zero_fill_at stream buffers (Parameter.scalar bits :: rest) next) ∘ Nat.succ =
          zero_fill_at stream buffers rest next := by
        funext i
        simp [zero_fill_at, count_arrays]
      rw [h0, hs]
      simp only [zero_fills]
      exact ih next
    | array a =>
      have hs : (zero_fill_at stream buffers (Parameter.array a :: rest) next) ∘ Nat.succ =
          zero_fill_at stream buffers rest (next + 1) := by
        funext i
        simp [zero_fill_at, count_arrays, Nat.add_assoc, Nat.add_comm 1]
      rw [hs, ← ih (next + 1)]
      simp only [zero_fills]
      cases hb : buffers[next]? with
      | none => simp [zero_fill_at, hb, count_arrays]
      | some ptr =>
        by_cases hz : a.bytes_to_zero > 0
        · simp [zero_fill_at, hb, count_arrays, hz]
        · simp [zero_fill_at, hb, count_arrays, hz]

/-! ### C7: the flat argument array -/

/-- C7.  When the parameter loop of `TritonKernelCall::Launch` runs to its end
with the vector `params`, `Launch` is the call of `TritonKernel::Launch` with
`params`; `params` has one entry per parameter, in parameter order; the entry of
a buffer parameter is the slot of the caller's array at the position given by the
number of buffer parameters before it, and that slot holds an address; the entry
of a scalar parameter is the stored payload of that parameter; and the cursor has
advanced by the number of buffer parameters. -/
theorem Launch_argument_array (d : Driver) (call : TritonKernelCall) (kernel : TritonKernel)
    (stream : hipStream_t) (buffers : List Nat) (tr : Trace) (params : List ArgRef) (n : Nat)
    (tr' : Trace)
    (h : TritonKernelCall.Launch.loop d stream buffers call.parameters_ 0 0 [] tr =
      (Outcome.ret (StatusOr.value (params, n)), tr')) :
    TritonKernelCall.Launch d call kernel stream buffers tr =
        TritonKernel.Launch d kernel stream call.grid_ params tr' ∧
      params.length = call.parameters_.length ∧
      n = count_arrays call.parameters_ ∧
      (∀ i a, call.parameters_[i]? = some (Parameter.array a) →
        params[i]? = some (ArgRef.bufferSlot (buffer_index call.parameters_ i)) ∧
        ∃ addr, buffers[buffer_index call.parameters_ i]? = some addr ∧
          ArgRef.deref call.parameters_ buffers
            (ArgRef.bufferSlot (buffer_index call.parameters_ i)) = some addr) ∧
      (∀ i bits, call.parameters_[i]? = some (Parameter.scalar bits) →
        params[i]? = some (ArgRef.scalarSlot i) ∧
        ArgRef.deref call.parameters_ buffers (ArgRef.scalarSlot i) = some bits) := by
  obtain ⟨h1, h2, _⟩ := loop_finished d stream buffers _ _ _ _ _ _ _ _ h
  simp only [List.nil_append] at h1
  refine ⟨?_, ?_, ?_, ?_, ?_⟩
  · simp only [TritonKernelCall.Launch, h]
  · rw [h1, arg_refs_length]
  · simpa using h2
  · intro i a hi
    obtain ⟨addr, haddr⟩ := loop_finished_addresses d stream buffers _ _ _ _ _ _ _ h i a hi
    simp only [Nat.zero_add] at haddr
    refine ⟨?_, addr, haddr, ?_⟩
    · rw [h1, arg_refs_getElem?_array _ _ _ _ a hi]
      simp [buffer_index]
    · simpa [ArgRef.deref, buffer_index] using haddr
  · intro i bits hi
    refine ⟨?_, ?_⟩
    · rw [h1, arg_refs_getElem?_scalar _ _ _ _ bits hi]
      simp
    · simp [ArgRef.deref, hi]

theorem Launch_argument_array_witness :
    EncodeKernelParameter_int 7 "i32" = StatusOr.value 7 ∧
    TritonKernelCall.Launch.loop driver_ok 7 [0x1000, 0x2000] example_call.parameters_ 0 0 [] [] =
      (Outcome.ret (StatusOr.value
        ([ArgRef.bufferSlot 0, ArgRef.bufferSlot 1, ArgRef.scalarSlot 2], 2)),
        [Call.hipMemsetD8Async 0x2000 0 64 7]) ∧
    [ArgRef.bufferSlot 0, ArgRef.bufferSlot 1, ArgRef.scalarSlot 2].map
        (ArgRef.deref example_call.parameters_ [0x1000, 0x2000]) =
      [some 0x1000, some 0x2000, some 7] ∧
    (TritonKernelCall.Launch driver_ok example_call (example_kernel 0) 7 [0x1000, 0x2000] [] =
        TritonKernel.Launch driver_ok (example_kernel 0) 7 example_call.grid_
          [ArgRef.bufferSlot 0, ArgRef.bufferSlot 1, ArgRef.scalarSlot 2]
          [Call.hipMemsetD8Async 0x2000 0 64 7] ∧
      [ArgRef.bufferSlot 0, ArgRef.bufferSlot 1, ArgRef.scalarSlot 2].length =
        example_call.parameters_.length ∧
      2 = count_arrays example_call.parameters_ ∧
      (∀ i a, example_call.parameters_[i]? = some (Parameter.array a) →
        [ArgRef.bufferSlot 0, ArgRef.bufferSlot 1, ArgRef.scalarSlot 2][i]? =
          some (ArgRef.bufferSlot (buffer_index example_call.parameters_ i)) ∧
        ∃ addr, [0x1000, 0x2000][buffer_index example_call.parameters_ i]? = some addr ∧
          ArgRef.deref example_call.parameters_ [0x1000, 0x2000]
            (ArgRef.bufferSlot (buffer_index example_call.parameters_ i)) = some addr) ∧
      (∀ i bits, example_call.parameters_[i]? = some (Parameter.scalar bits) →
        [ArgRef.bufferSlot 0, ArgRef.bufferSlot 1, ArgRef.scalarSlot 2][i]? =
          some (ArgRef.scalarSlot i) ∧
        ArgRef.deref example_call.parameters_ [0x1000, 0x2000] (ArgRef.scalarSlot i) =
          some bits)) :=
  ⟨by decide, by decide, by decide,
    Launch_argument_array driver_ok example_call (example_kernel 0) 7 [0x1000, 0x2000] []
      [ArgRef.bufferSlot 0, ArgRef.bufferSlot 1, ArgRef.scalarSlot 2] 2
      [Call.hipMemsetD8Async 0x2000 0 64 7] (by decide)⟩

/-! ### C8: zero-fills -/

/-- C8.  When the parameter loop of `TritonKernelCall::Launch` runs to its end,
the calls that `Launch` issues are the zero-fills of the parameter list (one
`hipMemsetD8Async(address, 0, bytes_to_zero, stream)` for each buffer parameter
with `bytes_to_zero > 0`, in parameter order) followed by calls none of which is a
zero-fill: every zero-fill precedes whatever `TritonKernel::Launch` issues, the
native launch included.  The zero-fills are, index by index, the calls of
`zero_fill_at`: every buffer parameter with `bytes_to_zero > 0` has one, at the
address that it receives, and no other parameter has any. -/
theorem Launch_zero_fills_first (d : Driver) (call : TritonKernelCall) (kernel : TritonKernel)
    (stream : hipStream_t) (buffers : List Nat) (tr : Trace) (params : List ArgRef) (n : Nat)
    (tr' : Trace)
    (h : TritonKernelCall.Launch.loop d stream buffers call.parameters_ 0 0 [] tr =
      (Outcome.ret (StatusOr.value (params, n)), tr')) :
    tr' = tr ++ zero_fills stream buffers call.parameters_ 0 ∧
    zero_fills stream buffers call.parameters_ 0 =
      (List.range call.parameters_.length).filterMap
        (zero_fill_at stream buffers call.parameters_ 0) ∧
    (∀ i a, call.parameters_[i]? = some (Parameter.array a) → 0 < a.bytes_to_zero →
      ∃ addr, buffers[buffer_index call.parameters_ i]? = some addr ∧
        zero_fill_at stream buffers call.parameters_ 0 i =
          some (Call.hipMemsetD8Async addr 0 a.bytes_to_zero stream)) ∧
    ∃ rest, (TritonKernelCall.Launch d call kernel stream buffers tr).2.2 =
        tr ++ zero_fills stream buffers call.parameters_ 0 ++ rest ∧
      (∀ c ∈ rest, c.is_memset = false) ∧
      (∀ c ∈ zero_fills stream buffers call.parameters_ 0,
        c.is_memset = true ∧ c.is_launch = false) := by
  obtain ⟨_, _, h3⟩ := loop_finished d stream buffers _ _ _ _ _ _ _ _ h
  obtain ⟨cs, hcs, hq⟩ := TritonKernel_Launch_trace d kernel stream call.grid_ params tr'
  refine ⟨h3, zero_fills_eq_filterMap_aux stream buffers _ 0, ?_,
    Call.hipModuleLoadData kernel.module_image_ :: cs, ?_, ?_, ?_⟩
  · intro i a hi hpos
    obtain ⟨addr, haddr⟩ := loop_finished_addresses d stream buffers _ _ _ _ _ _ _ h i a hi
    refine ⟨addr, by simpa [buffer_index] using haddr, ?_⟩
    simp only [zero_fill_at, hi, haddr, hpos, gt_iff_lt, if_true]
  · simp only [TritonKernelCall.Launch, h]
    rw [hcs, h3]
  · intro c hc
    rcases List.mem_cons.mp hc with rfl | hc
    · rfl
    · exact (hq c hc).1
  · intro c hc
    have hm := zero_fills_is_memset stream buffers _ _ c hc
    cases c <;> simp_all [Call.is_memset, Call.is_launch]

theorem Launch_zero_fills_first_witness :
    zero_fills 7 [0x1000, 0x2000] example_call.parameters_ 0 =
      [Call.hipMemsetD8Async 0x2000 0 64 7] ∧
    TritonKernelCall.Launch driver_ok example_call (example_kernel 0) 7 [0x1000, 0x2000] [] =
      (Outcome.ret OkStatus, { example_kernel 0 with modules_ := [0] },
        [Call.hipMemsetD8Async 0x2000 0 64 7, Call.hipModuleLoadData "image",
          Call.hipModuleGetFunction 0 "kernel",
          Call.hipModuleLaunchKernel 0 1 1 1 256 1 1 0 7
            [ArgRef.bufferSlot 0, ArgRef.bufferSlot 1, ArgRef.scalarSlot 2]]) ∧
    ([Call.hipMemsetD8Async 0x2000 0 64 7] =
        [] ++ zero_fills 7 [0x1000, 0x2000] example_call.parameters_ 0 ∧
      zero_fills 7 [0x1000, 0x2000] example_call.parameters_ 0 =
        (List.range example_call.parameters_.length).filterMap
          (zero_fill_at 7 [0x1000, 0x2000] example_call.parameters_ 0) ∧
      (∀ i a, example_call.parameters_[i]? = some (Parameter.array a) → 0 < a.bytes_to_zero →
        ∃ addr, [0x1000, 0x2000][buffer_index example_call.parameters_ i]? = some addr ∧
          zero_fill_at 7 [0x1000, 0x2000] example_call.parameters_ 0 i =
            some (Call.hipMemsetD8Async addr 0 a.bytes_to_zero 7)) ∧
      ∃ rest, (TritonKernelCall.Launch driver_ok example_call (example_kernel 0) 7
          [0x1000, 0x2000] []).2.2 =
          [] ++ zero_fills 7 [0x1000, 0x2000] example_call.parameters_ 0 ++ rest ∧
        (∀ c ∈ rest, c.is_memset = false) ∧
        (∀ c ∈ zero_fills 7 [0x1000, 0x2000] example_call.parameters_ 0,
          c.is_memset = true ∧ c.is_launch = false)) :=
  ⟨by decide, by decide,
    Launch_zero_fills_first driver_ok example_call (example_kernel 0) 7 [0x1000, 0x2000] []
      [ArgRef.bufferSlot 0, ArgRef.bufferSlot 1, ArgRef.scalarSlot 2] 2
      [Call.hipMemsetD8Async 0x2000 0 64 7] (by decide)⟩

/-! ### Scalar encoding -/

theorem union_write_zero (width rep : Nat) : union_write 0 width rep = rep % 2 ^ width := by
  simp [union_write]

theorem cast_emod (T : CppInt) (x : Int) : T.cast x % 2 ^ T.width = x % 2 ^ T.width := by
  cases T <;> simp only [CppInt.cast, CppInt.is_unsigned, CppInt.width] <;> norm_num <;> omega

theorem EncodeKernelParameterAs_eq (T : CppInt) (v : Int) :
    EncodeKernelParameterAs T v = (py_int_to T v % 2 ^ T.width).toNat := by
  unfold EncodeKernelParameterAs CppInt.object_bits
  rw [union_write_zero]
  apply Nat.mod_eq_of_lt
  have h1 : 0 ≤ py_int_to T v % 2 ^ T.width := Int.emod_nonneg _ (by positivity)
  have h2 : py_int_to T v % 2 ^ T.width < 2 ^ T.width := Int.emod_lt_of_pos _ (by positivity)
  zify
  rw [Int.toNat_of_nonneg h1]
  exact_mod_cast h2

theorem EncodeKernelParameterAs_lt (T : CppInt) (v : Int) :
    EncodeKernelParameterAs T v < 2 ^ T.width := by
  unfold EncodeKernelParameterAs
  rw [union_write_zero]
  exact Nat.mod_lt _ (by positivity)

theorem py_int_to_emod_signed (T : CppInt) (v : Int) (hT : T.is_unsigned = false)
    (hv : -(2 ^ 63) ≤ v ∧ v < 2 ^ 63) : py_int_to T v % 2 ^ T.width = v % 2 ^ T.width := by
  unfold py_int_to PyLong_AsLong
  rw [if_pos hv]
  simp only [hT, Bool.false_eq_true, if_false]
  exact cast_emod T v

theorem py_int_to_emod_unsigned (T : CppInt) (v : Int) (hT : T.is_unsigned = true)
    (hv : 0 ≤ v ∧ v < 2 ^ 64) : py_int_to T v % 2 ^ T.width = v % 2 ^ T.width := by
  have hne : ¬ (v.toNat = 2 ^ 64 - 1 ∧ false = true) := by simp
  unfold py_int_to as_unsigned PyLong_AsUnsignedLong
  simp only [hT, if_true, if_pos hv, if_neg hne]
  rw [cast_emod, Int.toNat_of_nonneg hv.1]

theorem py_int_to_emod_out_of_range_signed (T : CppInt) (v : Int) (hT : T.is_unsigned = false)
    (hv : ¬ (-(2 ^ 63) ≤ v ∧ v < 2 ^ 63)) :
    py_int_to T v % 2 ^ T.width = 2 ^ T.width - 1 := by
  unfold py_int_to PyLong_AsLong
  rw [if_neg hv]
  simp only [hT, Bool.false_eq_true, if_false]
  rw [cast_emod]
  cases T <;> simp [CppInt.width]

theorem py_int_to_emod_out_of_range_unsigned (T : CppInt) (v : Int) (hT : T.is_unsigned = true)
    (hv : ¬ (0 ≤ v ∧ v < 2 ^ 64)) :
    py_int_to T v % 2 ^ T.width = 2 ^ T.width - 1 := by
  unfold py_int_to as_unsigned PyLong_AsUnsignedLong
  simp only [hT, if_true, if_neg hv, and_self]
  rw [cast_emod]
  cases T <;> simp [CppInt.width]

theorem EncodeKernelParameterAs_signed (T : CppInt) (v : Int) (hT : T.is_unsigned = false)
    (hv : -(2 ^ 63) ≤ v ∧ v < 2 ^ 63) :
    EncodeKernelParameterAs T v = (v % 2 ^ T.width).toNat := by
  rw [EncodeKernelParameterAs_eq, py_int_to_emod_signed T v hT hv]

theorem EncodeKernelParameterAs_unsigned (T : CppInt) (v : Int) (hT : T.is_unsigned = true)
    (hv : 0 ≤ v ∧ v < 2 ^ 64) :
    EncodeKernelParameterAs T v = (v % 2 ^ T.width).toNat := by
  rw [EncodeKernelParameterAs_eq, py_int_to_emod_unsigned T v hT hv]

theorem EncodeKernelParameterAs_out_of_range (T : CppInt) (v : Int)
    (hv : if T.is_unsigned = true then ¬ (0 ≤ v ∧ v < 2 ^ 64)
      else ¬ (-(2 ^ 63) ≤ v ∧ v < 2 ^ 63)) :
    EncodeKernelParameterAs T v = 2 ^ T.width - 1 := by
  rw [EncodeKernelParameterAs_eq]
  cases hT : T.is_unsigned with
  | true =>
    rw [hT] at hv
    rw [py_int_to_emod_out_of_range_unsigned T v hT (by simpa using hv)]
    cases T <;> simp [CppInt.width]
  | false =>
    rw [hT] at hv
    rw [py_int_to_emod_out_of_range_signed T v hT (by simpa using hv)]
    cases T <;> simp [CppInt.width]

theorem decode_payload_of_encode (T : CppInt) (signed : Bool) (v : Int)
    (hr : EncodeKernelParameterAs T v = (v % 2 ^ T.width).toNat)
    (hv : representable T.width signed v) :
    EncodeKernelParameterAs T v < 2 ^ 64 ∧
      decode_payload T.width signed (EncodeKernelParameterAs T v) = v := by
  rw [hr]
  cases T <;> cases signed <;>
    simp only [representable, decode_payload, CppInt.width, if_true, Bool.false_eq_true,
      if_false, false_and, true_and] at hv ⊢ <;>
    norm_num at hv ⊢ <;>
    (try split_ifs) <;> omega

theorem long_of_representable {width : Nat} {signed : Bool} {v : Int}
    (hw : width ≤ 32 ∨ (width = 64 ∧ signed = true)) (hv : representable width signed v) :
    -(2 ^ 63) ≤ v ∧ v < 2 ^ 63 := by
  have h1 : (2 : Int) ^ (width - 1) ≤ 2 ^ 63 :=
    pow_le_pow_right₀ (by norm_num) (by omega)
  rcases hw with hw | ⟨rfl, rfl⟩
  · have h2 : (2 : Int) ^ width ≤ 2 ^ 32 := pow_le_pow_right₀ (by norm_num) hw
    unfold representable at hv
    split at hv <;> constructor <;> omega
  · simp only [representable, if_true] at hv
    norm_num at hv ⊢
    omega

theorem unsigned_long_of_representable {width : Nat} {v : Int} (hw : width ≤ 64)
    (hv : representable width false v) : 0 ≤ v ∧ v < 2 ^ 64 := by
  have h2 : (2 : Int) ^ width ≤ 2 ^ 64 := pow_le_pow_right₀ (by norm_num) hw
  simp only [representable, Bool.false_eq_true, if_false] at hv
  constructor <;> omega

/-- C4.  For every integer tag of the enumerated set and every value
representable in the width and signedness that the tag denotes, the encoder
returns a 64-bit payload, and reinterpreting its low bits in that width and
signedness gives the value back; this includes the tag `u32` on all of
`[0, 2 ^ 32)`. -/
theorem EncodeKernelParameter_int_decode (tag : String) (width : Nat) (signed : Bool) (v : Int)
    (htag : (tag, width, signed) ∈ integer_tags) (hv : representable width signed v) :
    ∃ payload, EncodeKernelParameter_int v tag = StatusOr.value payload ∧
      payload < 2 ^ 64 ∧ decode_payload width signed payload = v := by
  simp only [integer_tags, List.mem_cons, Prod.mk.injEq, List.mem_singleton, List.not_mem_nil,
    or_false] at htag
  rcases htag with hcase | hcase | hcase | hcase | hcase | hcase | hcase | hcase
  all_goals obtain ⟨htag1, hwidth, hsigned⟩ := hcase
  all_goals subst htag1 hwidth hsigned
  · exact ⟨EncodeKernelParameterAs CppInt.int8_t v, by simp [EncodeKernelParameter_int],
      decode_payload_of_encode CppInt.int8_t true v (EncodeKernelParameterAs_signed _ _ rfl
        (long_of_representable (by decide) hv)) hv⟩
  · exact ⟨EncodeKernelParameterAs CppInt.uint8_t v, by simp [EncodeKernelParameter_int],
      decode_payload_of_encode CppInt.uint8_t false v (EncodeKernelParameterAs_unsigned _ _ rfl
        (unsigned_long_of_representable (by decide) hv)) hv⟩
  · exact ⟨EncodeKernelParameterAs CppInt.int16_t v, by simp [EncodeKernelParameter_int],
      decode_payload_of_encode CppInt.int16_t true v (EncodeKernelParameterAs_signed _ _ rfl
        (long_of_representable (by decide) hv)) hv⟩
  · exact ⟨EncodeKernelParameterAs CppInt.uint16_t v, by simp [EncodeKernelParameter_int],
      decode_payload_of_encode CppInt.uint16_t false v (EncodeKernelParameterAs_unsigned _ _ rfl
        (unsigned_long_of_representable (by decide) hv)) hv⟩
  · exact ⟨EncodeKernelParameterAs CppInt.int32_t v, by simp [EncodeKernelParameter_int],
      decode_payload_of_encode CppInt.int32_t true v (EncodeKernelParameterAs_signed _ _ rfl
        (long_of_representable (by decide) hv)) hv⟩
  · exact ⟨EncodeKernelParameterAs CppInt.int32_t v, by simp [EncodeKernelParameter_int],
      decode_payload_of_encode CppInt.int32_t false v (EncodeKernelParameterAs_signed _ _ rfl
        (long_of_representable (by decide) hv)) hv⟩
  · exact ⟨EncodeKernelParameterAs CppInt.int64_t v, by simp [EncodeKernelParameter_int],
      decode_payload_of_encode CppInt.int64_t true v (EncodeKernelParameterAs_signed _ _ rfl
        (long_of_representable (by decide) hv)) hv⟩
  · exact ⟨EncodeKernelParameterAs CppInt.uint64_t v, by simp [EncodeKernelParameter_int],
      decode_payload_of_encode CppInt.uint64_t false v (EncodeKernelParameterAs_unsigned _ _ rfl
        (unsigned_long_of_representable (by decide) hv)) hv⟩

theorem EncodeKernelParameter_int_decode_witness :
    (("u32", 32, false) : String × Nat × Bool) ∈ integer_tags ∧
    representable 32 false 4000000000 ∧
    EncodeKernelParameter_int 4000000000 "u32" = StatusOr.value 4000000000 ∧
    ∃ payload, EncodeKernelParameter_int 4000000000 "u32" = StatusOr.value payload ∧
      payload < 2 ^ 64 ∧ decode_payload 32 false payload = 4000000000 :=
  ⟨by decide, by decide, by decide,
    EncodeKernelParameter_int_decode "u32" 32 false 4000000000 (by decide) (by decide)⟩

/-- C5, as stated, fails: the value -2 with the tag `u8` (width 8) encodes to
255, while -2 narrowed to 8 bits is 254. -/
theorem EncodeKernelParameter_int_negative_unsigned :
    dtype_width "u8" = some 8 ∧
    EncodeKernelParameter_int (-2) "u8" = StatusOr.value 255 ∧
    ((-2 : Int) % 2 ^ 8).toNat = 254 := by
  decide

theorem payload_of_cast (T : CppInt) (tag : String) (v : Int)
    (hr : in_conversion_range tag v ↔
      if T.is_unsigned = true then (0 ≤ v ∧ v < 2 ^ 64) else (-(2 ^ 63) ≤ v ∧ v < 2 ^ 63)) :
    EncodeKernelParameterAs T v < 2 ^ T.width ∧
      (in_conversion_range tag v → EncodeKernelParameterAs T v = (v % 2 ^ T.width).toNat) ∧
      (¬ in_conversion_range tag v → EncodeKernelParameterAs T v = 2 ^ T.width - 1) := by
  refine ⟨EncodeKernelParameterAs_lt T v, ?_, ?_⟩
  · intro h
    rw [hr] at h
    cases hT : T.is_unsigned with
    | true => rw [hT] at h; exact EncodeKernelParameterAs_unsigned T v hT (by simpa using h)
    | false => rw [hT] at h; exact EncodeKernelParameterAs_signed T v hT (by simpa using h)
  · intro h
    rw [hr] at h
    apply EncodeKernelParameterAs_out_of_range
    cases hT : T.is_unsigned with
    | true => rw [hT] at h; simpa using h
    | false => rw [hT] at h; simpa using h

/-- C5 (amended).  For every integer tag of width `width` accepted by
`EncodeKernelParameter` and every integer `v`, the payload is below
`2 ^ width` (all higher bits are zero); it is `v mod 2 ^ width` when `v` is in the
range of the C integer that the conversion of the Python `int` goes through, and
`2 ^ width - 1` otherwise. -/
theorem EncodeKernelParameter_int_payload (tag : String) (width : Nat) (v : Int)
    (htag : dtype_width tag = some width) :
    ∃ payload, EncodeKernelParameter_int v tag = StatusOr.value payload ∧
      payload < 2 ^ width ∧
      (in_conversion_range tag v → payload = (v % 2 ^ width).toNat) ∧
      (¬ in_conversion_range tag v → payload = 2 ^ width - 1) := by
  unfold dtype_width at htag
  split_ifs at htag with h1 h2 h3 h4
  · cases htag
    rcases h1 with rfl | rfl | rfl
    · exact ⟨EncodeKernelParameterAs CppInt.int8_t v, by simp [EncodeKernelParameter_int],
        payload_of_cast CppInt.int8_t _ v (by simp [in_conversion_range, CppInt.is_unsigned])⟩
    · exact ⟨EncodeKernelParameterAs CppInt.int8_t v, by simp [EncodeKernelParameter_int],
        payload_of_cast CppInt.int8_t _ v (by simp [in_conversion_range, CppInt.is_unsigned])⟩
    · exact ⟨EncodeKernelParameterAs CppInt.uint8_t v, by simp [EncodeKernelParameter_int],
        payload_of_cast CppInt.uint8_t _ v (by simp [in_conversion_range, CppInt.is_unsigned])⟩
  · cases htag
    rcases h2 with rfl | rfl
    · exact ⟨EncodeKernelParameterAs CppInt.int16_t v, by simp [EncodeKernelParameter_int],
        payload_of_cast CppInt.int16_t _ v (by simp [in_conversion_range, CppInt.is_unsigned])⟩
    · exact ⟨EncodeKernelParameterAs CppInt.uint16_t v, by simp [EncodeKernelParameter_int],
        payload_of_cast CppInt.uint16_t _ v (by simp [in_conversion_range, CppInt.is_unsigned])⟩
  · cases htag
    rcases h3 with rfl | rfl
    · exact ⟨EncodeKernelParameterAs CppInt.int32_t v, by simp [EncodeKernelParameter_int],
        payload_of_cast CppInt.int32_t _ v (by simp [in_conversion_range, CppInt.is_unsigned])⟩
    · exact ⟨EncodeKernelParameterAs CppInt.int32_t v, by simp [EncodeKernelParameter_int],
        payload_of_cast CppInt.int32_t _ v (by simp [in_conversion_range, CppInt.is_unsigned])⟩
  · cases htag
    rcases h4 with rfl | rfl
    · exact ⟨EncodeKernelParameterAs CppInt.int64_t v, by simp [EncodeKernelParameter_int],
        payload_of_cast CppInt.int64_t _ v (by simp [in_conversion_range, CppInt.is_unsigned])⟩
    · exact ⟨EncodeKernelParameterAs CppInt.uint64_t v, by simp [EncodeKernelParameter_int],
        payload_of_cast CppInt.uint64_t _ v (by simp [in_conversion_range, CppInt.is_unsigned])⟩

theorem EncodeKernelParameter_int_payload_witness :
    dtype_width "i32" = some 32 ∧
    EncodeKernelParameter_int (-1) "i32" = StatusOr.value 0x00000000FFFFFFFF ∧
    ∃ payload, EncodeKernelParameter_int (-1) "i32" = StatusOr.value payload ∧
      payload < 2 ^ 32 ∧
      (in_conversion_range "i32" (-1) → payload = ((-1 : Int) % 2 ^ 32).toNat) ∧
      (¬ in_conversion_range "i32" (-1) → payload = 2 ^ 32 - 1) :=
  ⟨by decide, by decide, EncodeKernelParameter_int_payload "i32" 32 (-1) (by decide)⟩

/-! ### C6: accepted tags -/

theorem c_str_of_no_nul (s : String) (h : Char.ofNat 0 ∉ s.data) : c_str s = s := by
  unfold c_str
  have : s.data.takeWhile (fun ch => decide (ch ≠ Char.ofNat 0)) = s.data := by
    rw [List.takeWhile_eq_self_iff]
    intro c hc
    simp only [ne_eq, decide_not, Bool.not_eq_eq_eq_not, Bool.not_true, decide_eq_false_iff_not]
    intro hc0
    exact h (hc0 ▸ hc)
  rw [this]

/-- C6.  Each overload of `EncodeKernelParameter` returns a payload exactly for
the tags accepted for its kind of value, and for every other tag it returns an
invalid-argument status (no payload) whose message ends with the tag read as a C
string: the whole tag when it holds no NUL character.  For the tag `a`, NUL, `b`
the message is `unknown dtype:a`, in which the tag does not occur. -/
theorem EncodeKernelParameter_unknown_tag :
    (∀ (value : Int) (dtype : String), dtype ∈ integer_dtypes →
      ∃ payload, EncodeKernelParameter_int value dtype = StatusOr.value payload) ∧
    (∀ (value : Int) (dtype : String), dtype ∉ integer_dtypes →
      EncodeKernelParameter_int value dtype =
        StatusOr.status (InvalidArgumentError ("unknown dtype:" ++ c_str dtype))) ∧
    (∀ (to_float : Nat → Nat) (value : Nat) (dtype : String), dtype ∈ float_dtypes →
      ∃ payload, EncodeKernelParameter_float to_float value dtype = StatusOr.value payload) ∧
    (∀ (to_float : Nat → Nat) (value : Nat) (dtype : String), dtype ∉ float_dtypes →
      EncodeKernelParameter_float to_float value dtype =
        StatusOr.status (InvalidArgumentError ("unknown dtype: " ++ c_str dtype))) ∧
    (∀ (value : Bool) (dtype : String), dtype ∈ bool_dtypes →
      ∃ payload, EncodeKernelParameter_bool value dtype = StatusOr.value payload) ∧
    (∀ (value : Bool) (dtype : String), dtype ∉ bool_dtypes →
      EncodeKernelParameter_bool value dtype =
        StatusOr.status (InvalidArgumentError ("unknown dtype: " ++ c_str dtype))) ∧
    (∀ dtype : String, Char.ofNat 0 ∉ dtype.data → c_str dtype = dtype) ∧
    (∀ head dtype : String, occurs_in dtype (head ++ dtype)) ∧
    tag_with_nul ∉ integer_dtypes ∧
    EncodeKernelParameter_int 1 tag_with_nul =
      StatusOr.status (InvalidArgumentError "unknown dtype:a") ∧
    ¬ occurs_in tag_with_nul "unknown dtype:a" := by
  refine ⟨?_, ?_, ?_, ?_, ?_, ?_, c_str_of_no_nul, ?_, by decide, by decide, by decide⟩
  · intro value dtype h
    simp only [integer_dtypes, List.mem_cons, List.mem_singleton, List.not_mem_nil,
      or_false] at h
    rcases h with rfl | rfl | rfl | rfl | rfl | rfl | rfl | rfl | rfl <;>
      exact ⟨_, by simp [EncodeKernelParameter_int]; rfl⟩
  · intro value dtype h
    simp only [integer_dtypes, List.mem_cons, List.mem_singleton, List.not_mem_nil,
      or_false, not_or] at h
    obtain ⟨h1, h2, h3, h4, h5, h6, h7, h8, h9⟩ := h
    simp [EncodeKernelParameter_int, h1, h2, h3, h4, h5, h6, h7, h8, h9]
  · intro to_float value dtype h
    simp only [float_dtypes, List.mem_cons, List.mem_singleton, List.not_mem_nil,
      or_false] at h
    rcases h with rfl | rfl <;> exact ⟨_, by simp [EncodeKernelParameter_float]; rfl⟩
  · intro to_float value dtype h
    simp only [float_dtypes, List.mem_cons, List.mem_singleton, List.not_mem_nil,
      or_false, not_or] at h
    simp [EncodeKernelParameter_float, h.1, h.2]
  · intro value dtype h
    simp only [bool_dtypes, List.mem_cons, List.mem_singleton, List.not_mem_nil,
      or_false] at h
    rcases h with rfl | rfl <;> exact ⟨_, by simp [EncodeKernelParameter_bool]; rfl⟩
  · intro value dtype h
    simp only [bool_dtypes, List.mem_cons, List.mem_singleton, List.not_mem_nil,
      or_false, not_or] at h
    simp [EncodeKernelParameter_bool, h.1, h.2]
  · intro head dtype
    exact ⟨head.data, [], by simp [String.data_append]⟩

/-! ### C9: the launch entry point -/

/-- C9.  When the descriptor has the reference width and decodes to a live
Kernel Call whose `Launch` returns the status `result`, `LaunchTritonKernel`
returns normally; it leaves the status slot unchanged when `result` is OK, and
otherwise sets it to the failure holding exactly `result`'s message and the
length of that message. -/
theorem LaunchTritonKernel_status_slot (d : Driver) (mem : Memory) (stream : hipStream_t)
    (buffers : List Nat) (descriptor : List Nat) (descriptor_len : Nat)
    (status : XlaCustomCallStatus) (tr : Trace) (kernel_call : Nat) (call : TritonKernelCall)
    (kernel : TritonKernel) (result : Status) (kernel1 : TritonKernel) (tr1 : Trace)
    (hlen : descriptor_len = sizeof_pointer)
    (hdec : memcpy_pointer descriptor = some kernel_call)
    (hcall : mem.calls kernel_call = some call)
    (hkernel : mem.kernels call.kernel_ = some kernel)
    (hlaunch : TritonKernelCall.Launch d call kernel stream buffers tr =
      (Outcome.ret result, kernel1, tr1)) :
    (LaunchTritonKernel d mem stream buffers descriptor descriptor_len status tr).1 =
        Outcome.ret () ∧
    (result.ok = true →
      (LaunchTritonKernel d mem stream buffers descriptor descriptor_len status tr).2.2.1 =
        status) ∧
    (result.ok = false →
      (LaunchTritonKernel d mem stream buffers descriptor descriptor_len status tr).2.2.1 =
        { failure := some (result.message, result.message.utf8ByteSize) }) ∧
    (LaunchTritonKernel d mem stream buffers descriptor descriptor_len status tr).2.2.2 =
      tr1 := by
  subst hlen
  simp only [LaunchTritonKernel, CHECK_EQ, if_true, hdec, hcall, hkernel, hlaunch]
  cases hok : result.ok <;> simp [XlaCustomCallStatusSetFailure]

theorem LaunchTritonKernel_status_slot_witness :
    (LaunchTritonKernel driver_ok example_memory 7 [0x1000, 0x2001] [0, 16, 0, 0, 0, 0, 0, 0] 8
        { failure := none } []).2.2.1 =
      { failure := some ("Parameter 1 (0x2001) is not divisible by 16.", 44) } ∧
    ((LaunchTritonKernel driver_ok example_memory 7 [0x1000, 0x2001] [0, 16, 0, 0, 0, 0, 0, 0] 8
        { failure := none } []).1 = Outcome.ret () ∧
    ((InvalidArgumentError "Parameter 1 (0x2001) is not divisible by 16.").ok = true →
      (LaunchTritonKernel driver_ok example_memory 7 [0x1000, 0x2001] [0, 16, 0, 0, 0, 0, 0, 0] 8
        { failure := none } []).2.2.1 = { failure := none }) ∧
    ((InvalidArgumentError "Parameter 1 (0x2001) is not divisible by 16.").ok = false →
      (LaunchTritonKernel driver_ok example_memory 7 [0x1000, 0x2001] [0, 16, 0, 0, 0, 0, 0, 0] 8
        { failure := none } []).2.2.1 =
        { failure := some
            ((InvalidArgumentError "Parameter 1 (0x2001) is not divisible by 16.").message,
              (InvalidArgumentError
                "Parameter 1 (0x2001) is not divisible by 16.").message.utf8ByteSize) }) ∧
    (LaunchTritonKernel driver_ok example_memory 7 [0x1000, 0x2001] [0, 16, 0, 0, 0, 0, 0, 0] 8
        { failure := none } []).2.2.2 = [Call.hipMemsetD8Async 0x1000 0 64 7]) :=
  ⟨by decide,
    LaunchTritonKernel_status_slot driver_ok example_memory 7 [0x1000, 0x2001]
      [0, 16, 0, 0, 0, 0, 0, 0] 8 { failure := none } [] 4096 zero_fill_then_aligned_call
      (example_kernel 0) (InvalidArgumentError "Parameter 1 (0x2001) is not divisible by 16.")
      (example_kernel 0) [Call.hipMemsetD8Async 0x1000 0 64 7] rfl (by decide) rfl rfl
      (by decide)⟩

/-! ### C11: fail-fast -/

theorem fail_fast_refl (d : Driver) (tr : Trace) (stopped : Prop) :
    fail_fast d tr stopped tr :=
  ⟨[], by simp, by intro pre c post h; simp at h⟩

theorem fail_fast_failed (d : Driver) (tr : Trace) (stopped : Prop) (c : Call)
    (hs : stopped) : fail_fast d tr stopped (tr ++ [c]) := by
  refine ⟨[c], rfl, ?_⟩
  intro pre x post h _
  cases pre with
  | nil =>
    simp only [List.nil_append, List.cons.injEq] at h
    exact ⟨h.2.symm, hs⟩
  | cons y pre' =>
    simp only [List.cons_append, List.cons.injEq] at h
    have := h.2
    simp at this

theorem fail_fast_cons (d : Driver) (tr : Trace) (stopped : Prop) (c : Call) (tr' : Trace)
    (hc : (d tr c).err = HIP_SUCCESS) (h : fail_fast d (tr ++ [c]) stopped tr') :
    fail_fast d tr stopped tr' := by
  obtain ⟨cs, h1, h2⟩ := h
  refine ⟨c :: cs, by simp [h1], ?_⟩
  intro pre x post hx hfail
  cases pre with
  | nil =>
    simp only [List.nil_append, List.cons.injEq] at hx
    rw [← hx.1] at hfail
    simp only [List.append_nil] at hfail
    exact absurd hc hfail
  | cons y pre' =>
    simp only [List.cons_append, List.cons.injEq] at hx
    obtain ⟨rfl, hx⟩ := hx
    apply h2 pre' x post hx
    simpa using hfail

theorem fail_fast_trans (d : Driver) (tr tr1 tr2 : Trace) (stopped1 stopped : Prop)
    (h1 : fail_fast d tr stopped1 tr1) (hn : ¬ stopped1) (h2 : fail_fast d tr1 stopped tr2) :
    fail_fast d tr stopped tr2 := by
  obtain ⟨cs1, e1, f1⟩ := h1
  obtain ⟨cs2, e2, f2⟩ := h2
  refine ⟨cs1 ++ cs2, by simp [e2, e1], ?_⟩
  intro pre x post hx hfail
  rcases List.append_eq_append_iff.mp hx with ⟨a', ha, hb⟩ | ⟨c', ha, hb⟩
  · -- pre = cs1 ++ a', cs2 = a' ++ x :: post
    apply f2 a' x post hb
    rw [e1, List.append_assoc, ← ha]
    exact hfail
  · -- cs1 = pre ++ c', x :: post = c' ++ cs2
    cases c' with
    | nil =>
      simp only [List.nil_append] at hb
      simp only [List.append_nil] at ha
      apply f2 [] x post hb.symm
      rw [e1, ha]
      simpa using hfail
    | cons y c'' =>
      simp only [List.cons_append, List.cons.injEq] at hb
      obtain ⟨rfl, _⟩ := hb
      exact absurd (f1 pre x c'' ha hfail).2 hn

theorem fail_fast_mono (d : Driver) (tr tr' : Trace) (p q : Prop) (hpq : p → q)
    (h : fail_fast d tr p tr') : fail_fast d tr q tr' := by
  obtain ⟨cs, h1, h2⟩ := h
  exact ⟨cs, h1, fun pre c post hx hf => ⟨(h2 pre c post hx hf).1, hpq (h2 pre c post hx hf).2⟩⟩

/-- Case analysis on a `HIP_RETURN_IF_ERROR` step: the call fails and the
enclosing function ends with the failed check, or it succeeds and execution
continues. -/
theorem HIP_RETURN_IF_ERROR_cases {ρ : Type} (P : ρ → Prop) (d : Driver) (c : Call)
    (line : Int) (expr : String) (tr : Trace) (stop : Outcome Status → Trace → ρ)
    (next : Int → Trace → ρ)
    (hfail : (d tr c).err ≠ HIP_SUCCESS →
      P (stop (Outcome.abort "error == HIP_SUCCESS") (tr ++ [c])))
    (hnext : (d tr c).err = HIP_SUCCESS → P (next (d tr c).out (tr ++ [c]))) :
    P (HIP_RETURN_IF_ERROR d c line expr tr stop next) := by
  rw [HIP_RETURN_IF_ERROR_eq_ite]
  split_ifs with h
  · exact hnext h
  · exact hfail h

theorem loop_fail_fast (d : Driver) (stream : hipStream_t) (buffers : List Nat) :
    ∀ (ps : List Parameter) (i next : Nat) (acc : List ArgRef) (tr : Trace),
      fail_fast d tr
        ((TritonKernelCall.Launch.loop d stream buffers ps i next acc tr).1 =
          Outcome.abort "error == HIP_SUCCESS")
        (TritonKernelCall.Launch.loop d stream buffers ps i next acc tr).2 := by
  intro ps
  induction ps with
  | nil => intro i next acc tr; exact fail_fast_refl _ _ _
  | cons p rest ih =>
    intro i next acc tr
    cases p with
    | scalar bits =>
      simp only [TritonKernelCall.Launch.loop]
      exact ih _ _ _ _
    | array a =>
      simp only [TritonKernelCall.Launch.loop]
      cases hb : buffers[next]? with
      | none => exact fail_fast_refl _ _ _
      | some ptr =>
        simp only []
        split
        · exact fail_fast_refl _ _ _
        · split
          · refine HIP_RETURN_IF_ERROR_cases
              (P := fun (r : Outcome (StatusOr (List ArgRef × Nat)) × Trace) =>
                fail_fast d tr (r.1 = Outcome.abort "error == HIP_SUCCESS") r.2)
              d _ _ _ tr _ _ ?_ ?_
            · intro _
              exact fail_fast_failed d tr _ _ rfl
            · intro hc
              exact fail_fast_cons d tr _ _ _ hc (ih _ _ _ _)
          · exact ih _ _ _ _

theorem GetFunctionForStream_fail_fast (d : Driver) (k : TritonKernel) (stream : hipStream_t)
    (tr : Trace) :
    fail_fast d tr
      ((TritonKernel.GetFunctionForStream d k stream tr).1 = Outcome.abort "error == HIP_SUCCESS")
      (TritonKernel.GetFunctionForStream d k stream tr).2.2 := by
  unfold TritonKernel.GetFunctionForStream
  have step : ∀ (t : Trace) (c : Call) (line : Int) (expr : String) (k' : TritonKernel)
      (next : Int → Trace → Outcome (StatusOr hipFunction_t) × TritonKernel × Trace),
      (∀ out, fail_fast d (t ++ [c])
        ((next out (t ++ [c])).1 = Outcome.abort "error == HIP_SUCCESS")
        (next out (t ++ [c])).2.2) →
      fail_fast d t
        ((HIP_RETURN_IF_ERROR d c line expr t (TritonKernel.GetFunctionForStream.stop k')
          next).1 = Outcome.abort "error == HIP_SUCCESS")
        (HIP_RETURN_IF_ERROR d c line expr t (TritonKernel.GetFunctionForStream.stop k')
          next).2.2 := by
    intro t c line expr k' next hnext
    refine HIP_RETURN_IF_ERROR_cases
      (P := fun (r : Outcome (StatusOr hipFunction_t) × TritonKernel × Trace) =>
        fail_fast d t (r.1 = Outcome.abort "error == HIP_SUCCESS") r.2.2)
      d c line expr t _ next ?_ ?_
    · intro _
      exact fail_fast_failed d t _ _ rfl
    · intro hc
      exact fail_fast_cons d t _ _ _ hc (hnext _)
  apply step
  intro module
  apply step
  intro function
  split
  · exact fail_fast_refl _ _ _
  apply step
  intro device
  apply step
  intro shared_optin
  split
  · exact fail_fast_refl _ _ _
  split
  · apply step
    intro _
    apply step
    intro shared_total
    apply step
    intro shared_static
    split
    · exact fail_fast_refl _ _ _
    · apply step
      intro _
      exact fail_fast_refl _ _ _
  · exact fail_fast_refl _ _ _

theorem AsStatus_fail_fast (d : Driver) (tr : Trace) (c : Call) (file : String) (line : Int)
    (expr : String) :
    fail_fast d tr (AsStatus (d tr c).err file line expr = Outcome.abort "error == HIP_SUCCESS")
      (tr ++ [c]) := by
  by_cases hc : (d tr c).err = HIP_SUCCESS
  · exact fail_fast_cons d tr _ c _ hc (fail_fast_refl _ _ _)
  · exact fail_fast_failed d tr _ c (AsStatus_of_failure hc _ _ _)

theorem TritonKernel_Launch_fail_fast (d : Driver) (k : TritonKernel) (stream : hipStream_t)
    (grid : Nat × Nat × Nat) (params : List ArgRef) (tr : Trace) :
    fail_fast d tr
      ((TritonKernel.Launch d k stream grid params tr).1 = Outcome.abort "error == HIP_SUCCESS")
      (TritonKernel.Launch d k stream grid params tr).2.2 := by
  have hff := GetFunctionForStream_fail_fast d k stream tr
  unfold TritonKernel.Launch
  rcases hr : TritonKernel.GetFunctionForStream d k stream tr with ⟨o, k1, tr1⟩
  rw [hr] at hff
  simp only at hff
  cases o with
  | ret r =>
    cases r with
    | value f =>
      exact fail_fast_trans d tr tr1 _ _ _ hff (by simp) (AsStatus_fail_fast d tr1 _ _ _ _)
    | status st =>
      simp only
      split
      · exact fail_fast_mono d tr tr1 _ _ (by intro h; cases h) hff
      · exact fail_fast_mono d tr tr1 _ _ (by intro h; cases h) hff
  | abort m =>
    simp only
    exact fail_fast_mono d tr tr1 _ _ (by intro h; cases h; rfl) hff
  | undefined =>
    simp only
    exact fail_fast_mono d tr tr1 _ _ (by intro h; cases h) hff

theorem TritonKernelCall_Launch_fail_fast (d : Driver) (call : TritonKernelCall)
    (kernel : TritonKernel) (stream : hipStream_t) (buffers : List Nat) (tr : Trace) :
    fail_fast d tr
      ((TritonKernelCall.Launch d call kernel stream buffers tr).1 =
        Outcome.abort "error == HIP_SUCCESS")
      (TritonKernelCall.Launch d call kernel stream buffers tr).2.2 := by
  have hff := loop_fail_fast d stream buffers call.parameters_ 0 0 [] tr
  unfold TritonKernelCall.Launch
  rcases hr : TritonKernelCall.Launch.loop d stream buffers call.parameters_ 0 0 [] tr
    with ⟨o, tr1⟩
  rw [hr] at hff
  simp only at hff
  cases o with
  | ret r =>
    cases r with
    | value v =>
      obtain ⟨params, n⟩ := v
      exact fail_fast_trans d tr tr1 _ _ _ hff (by simp)
        (TritonKernel_Launch_fail_fast d kernel stream call.grid_ params tr1)
    | status st => exact fail_fast_mono d tr tr1 _ _ (by intro h; cases h) hff
  | abort m =>
    simp only
    exact fail_fast_mono d tr tr1 _ _ (by intro h; cases h; rfl) hff
  | undefined =>
    simp only
    exact fail_fast_mono d tr tr1 _ _ (by intro h; cases h) hff

/-- C11.  In `TritonKernelCall::Launch` (with the `TritonKernel::Launch` it ends
in), a driver call answered with a non-success code is the last call issued, so
no later call and no native launch follows it; but the launch does not return a
failure: it ends in the failed check of `AsStatus`, which terminates the
process.  With a module load that fails with code 1 the example launch issues the
load and ends in the failed check. -/
theorem Launch_driver_failure_terminates :
    (∀ (d : Driver) (call : TritonKernelCall) (kernel : TritonKernel) (stream : hipStream_t)
      (buffers : List Nat) (tr : Trace),
      ∃ cs, (TritonKernelCall.Launch d call kernel stream buffers tr).2.2 = tr ++ cs ∧
        ∀ pre c post, cs = pre ++ c :: post → (d (tr ++ pre) c).err ≠ HIP_SUCCESS →
          post = [] ∧
          (TritonKernelCall.Launch d call kernel stream buffers tr).1 =
            Outcome.abort "error == HIP_SUCCESS") ∧
    TritonKernelCall.Launch driver_load_fails example_call (example_kernel 0) 7
        [0x1000, 0x2000] [] =
      (Outcome.abort "error == HIP_SUCCESS", example_kernel 0,
        [Call.hipMemsetD8Async 0x2000 0 64 7, Call.hipModuleLoadData "image"]) := by
  refine ⟨?_, by decide⟩
  intro d call kernel stream buffers tr
  exact TritonKernelCall_Launch_fail_fast d call kernel stream buffers tr

/-! ### C12: the native launch call -/

/-- C12.  For a kernel built with `(num_warps, shared_mem_bytes)`, whatever
modules it has recorded since, when resolution succeeds with the function `f`,
`TritonKernel::Launch` issues after it exactly one native launch call: of `f`,
with the grid unchanged, block dimensions `(num_warps * 64 mod 2 ^ 32, 1, 1)`,
`shared_mem_bytes` bytes of shared memory, the given stream and the given
argument array; it returns the OK status exactly when the driver answers that
call with the success code, and returns no other status; and for
`num_warps < 2 ^ 26` the block x-dimension is `num_warps * 64`. -/
theorem TritonKernel_Launch_native_call (d : Driver) (k : TritonKernel)
    (module_image kernel_name : String) (num_warps shared_mem_bytes : Nat)
    (modules : List hipModule_t) (stream : hipStream_t) (grid : Nat × Nat × Nat)
    (params : List ArgRef) (tr : Trace) (f : hipFunction_t) (k1 : TritonKernel) (tr1 : Trace)
    (hk : k = { TritonKernel.new module_image kernel_name num_warps shared_mem_bytes with
      modules_ := modules })
    (hres : TritonKernel.GetFunctionForStream d k stream tr =
      (Outcome.ret (StatusOr.value f), k1, tr1)) :
    (TritonKernel.Launch d k stream grid params tr).2.2 =
      tr1 ++ [Call.hipModuleLaunchKernel f grid.1 grid.2.1 grid.2.2 (num_warps * 64 % 2 ^ 32)
        1 1 shared_mem_bytes stream params] ∧
    List.countP Call.is_launch (TritonKernel.Launch d k stream grid params tr).2.2 =
      List.countP Call.is_launch tr + 1 ∧
    ((TritonKernel.Launch d k stream grid params tr).1 = Outcome.ret OkStatus ↔
      (d tr1 (Call.hipModuleLaunchKernel f grid.1 grid.2.1 grid.2.2 (num_warps * 64 % 2 ^ 32)
        1 1 shared_mem_bytes stream params)).err = HIP_SUCCESS) ∧
    (∀ st, (TritonKernel.Launch d k stream grid params tr).1 = Outcome.ret st →
      st = OkStatus) ∧
    (num_warps < 2 ^ 26 → num_warps * 64 % 2 ^ 32 = num_warps * 64) := by
  obtain ⟨cs, hcs, hq⟩ := GetFunctionForStream_trace d k stream tr
  rw [hres] at hcs
  simp only at hcs
  have hb : k.block_dim_x_ = num_warps * 64 % 2 ^ 32 := by
    rw [hk]; rfl
  have hsm : k.shared_mem_bytes_ = shared_mem_bytes := by
    rw [hk]; rfl
  have hl : TritonKernel.Launch d k stream grid params tr =
      (AsStatus (d tr1 (Call.hipModuleLaunchKernel f grid.1 grid.2.1 grid.2.2
          (num_warps * 64 % 2 ^ 32) 1 1 shared_mem_bytes stream params)).err FILE 78
        "hipModuleLaunchKernel( *kernel, grid[0], grid[1], grid[2], block_dim_x_, 1, 1, shared_mem_bytes_, stream, params, nullptr)",
        k1, tr1 ++ [Call.hipModuleLaunchKernel f grid.1 grid.2.1 grid.2.2
          (num_warps * 64 % 2 ^ 32) 1 1 shared_mem_bytes stream params]) := by
    simp only [TritonKernel.Launch, hres, hb, hsm]
  have h0 : List.countP Call.is_launch cs = 0 := by
    rw [List.countP_eq_zero]
    intro c hc
    simp [(hq c hc).2.1]
  refine ⟨by rw [hl], ?_, ?_, ?_, ?_⟩
  · rw [hl]
    simp only
    rw [hcs]
    simp [List.countP_append, List.countP_cons, h0, Call.is_launch]
  · rw [hl]
    simp only
    constructor
    · intro hst
      by_contra hne
      rw [AsStatus_of_failure hne] at hst
      cases hst
    · intro hsucc
      rw [hsucc, AsStatus_of_success]
  · intro st hst
    rw [hl] at hst
    simp only at hst
    by_cases hsucc : (d tr1 (Call.hipModuleLaunchKernel f grid.1 grid.2.1 grid.2.2
        (num_warps * 64 % 2 ^ 32) 1 1 shared_mem_bytes stream params)).err = HIP_SUCCESS
    · rw [hsucc, AsStatus_of_success] at hst
      cases hst
      rfl
    · rw [AsStatus_of_failure hsucc] at hst
      cases hst
  · intro hw
    apply Nat.mod_eq_of_lt
    omega

theorem TritonKernel_Launch_native_call_witness :
    TritonKernel.Launch driver_ok (example_kernel 0) 7 (2, 3, 5) [ArgRef.bufferSlot 0] [] =
      (Outcome.ret OkStatus, { example_kernel 0 with modules_ := [0] },
        [Call.hipModuleLoadData "image", Call.hipModuleGetFunction 0 "kernel",
          Call.hipModuleLaunchKernel 0 2 3 5 256 1 1 0 7 [ArgRef.bufferSlot 0]]) ∧
    ((TritonKernel.Launch driver_ok (example_kernel 0) 7 (2, 3, 5) [ArgRef.bufferSlot 0] []).2.2 =
      [Call.hipModuleLoadData "image", Call.hipModuleGetFunction 0 "kernel"] ++
        [Call.hipModuleLaunchKernel 0 (2, 3, 5).1 (2, 3, 5).2.1 (2, 3, 5).2.2 (4 * 64 % 2 ^ 32)
          1 1 0 7 [ArgRef.bufferSlot 0]] ∧
    List.countP Call.is_launch
        (TritonKernel.Launch driver_ok (example_kernel 0) 7 (2, 3, 5) [ArgRef.bufferSlot 0] []).2.2 =
      List.countP Call.is_launch [] + 1 ∧
    ((TritonKernel.Launch driver_ok (example_kernel 0) 7 (2, 3, 5) [ArgRef.bufferSlot 0]
        []).1 = Outcome.ret OkStatus ↔
      (driver_ok [Call.hipModuleLoadData "image", Call.hipModuleGetFunction 0 "kernel"]
        (Call.hipModuleLaunchKernel 0 (2, 3, 5).1 (2, 3, 5).2.1 (2, 3, 5).2.2 (4 * 64 % 2 ^ 32)
          1 1 0 7 [ArgRef.bufferSlot 0])).err = HIP_SUCCESS) ∧
    (∀ st, (TritonKernel.Launch driver_ok (example_kernel 0) 7 (2, 3, 5) [ArgRef.bufferSlot 0]
        []).1 = Outcome.ret st → st = OkStatus) ∧
    (4 < 2 ^ 26 → 4 * 64 % 2 ^ 32 = 4 * 64)) :=
  ⟨by decide,
    TritonKernel_Launch_native_call driver_ok (example_kernel 0) "image" "kernel" 4 0 [] 7
      (2, 3, 5) [ArgRef.bufferSlot 0] [] 0 { example_kernel 0 with modules_ := [0] }
      [Call.hipModuleLoadData "image", Call.hipModuleGetFunction 0 "kernel"] rfl (by decide)⟩

/-! ### C13: boolean scalars -/

/-- C13.  The overload `EncodeKernelParameter(py::bool_, dtype)` gives the
payload 1 for `true` and 0 for `false` with both boolean tags.  But the module's
`create_scalar_parameter` never reaches it: a Python `bool` loads as the
`py::int_` of the overload registered first, so a boolean is encoded by the
integer overload, which rejects the tags `B` and `int1`. -/
theorem create_scalar_parameter_of_bool :
    (∀ value : Bool, EncodeKernelParameter_bool value "B" =
      StatusOr.value (if value then 1 else 0)) ∧
    (∀ value : Bool, EncodeKernelParameter_bool value "int1" =
      StatusOr.value (if value then 1 else 0)) ∧
    (∀ (to_float : Nat → Nat) (value : Bool) (dtype : String),
      create_scalar_parameter to_float (PyObject.bool value) dtype =
        some (EncodeKernelParameter_int (if value then 1 else 0) dtype)) ∧
    (∀ to_float : Nat → Nat, create_scalar_parameter to_float (PyObject.bool true) "B" =
      some (StatusOr.status (InvalidArgumentError "unknown dtype:B"))) ∧
    (∀ to_float : Nat → Nat, create_scalar_parameter to_float (PyObject.bool true) "int1" =
      some (StatusOr.status (InvalidArgumentError "unknown dtype:int1"))) := by
  refine ⟨?_, ?_, ?_, ?_, ?_⟩
  · intro value; cases value <;> decide
  · intro value; cases value <;> decide
  · intro to_float value dtype; rfl
  · intro to_float
    exact congrArg some (by decide : EncodeKernelParameter_int 1 "B" =
      StatusOr.status (InvalidArgumentError "unknown dtype:B"))
  · intro to_float
    exact congrArg some (by decide : EncodeKernelParameter_int 1 "int1" =
      StatusOr.status (InvalidArgumentError "unknown dtype:int1"))

/-! ### C15: the tags `u32` and `i32` -/

/-- C15.  For every integer value the tags `u32` and `i32` give the same
payload: both are encoded by `EncodeKernelParameterAs<int32_t>`. -/
theorem EncodeKernelParameter_u32_eq_i32 (v : Int) :
    EncodeKernelParameter_int v "u32" = EncodeKernelParameter_int v "i32" ∧
    EncodeKernelParameter_int v "u32" =
      StatusOr.value (EncodeKernelParameterAs CppInt.int32_t v) := by
  constructor <;> simp [EncodeKernelParameter_int]

/-! ### The text of the alignment message -/

theorem digitChar_spec : ∀ k, k < 16 →
    digit_value (Nat.digitChar k) = k ∧ Nat.digitChar k ≠ ' ' ∧ Nat.digitChar k ≠ ')' := by
  decide

theorem digits_value_append_singleton (base : Nat) (cs : List Char) (c : Char) :
    digits_value base (cs ++ [c]) = digits_value base cs * base + digit_value c := by
  simp [digits_value, List.foldl_append]

theorem toDigitsCore_spec (base : Nat) (hb : 2 ≤ base) (hb16 : base ≤ 16) :
    ∀ (fuel n : Nat) (ds : List Char), n < fuel →
      ∃ pre, Nat.toDigitsCore base fuel n ds = pre ++ ds ∧ digits_value base pre = n ∧
        ∀ c ∈ pre, c ≠ ' ' ∧ c ≠ ')' := by
  intro fuel
  induction fuel with
  | zero => intro n ds h; omega
  | succ fuel ih =>
    intro n ds hn
    have hmod : n % base < 16 := lt_of_lt_of_le (Nat.mod_lt _ (by omega)) hb16
    obtain ⟨hv, hs, hp⟩ := digitChar_spec (n % base) hmod
    simp only [Nat.toDigitsCore]
    split_ifs with h0
    · refine ⟨[Nat.digitChar (n % base)], rfl, ?_, ?_⟩
      · simp only [digits_value, List.foldl_cons, List.foldl_nil, Nat.zero_mul, Nat.zero_add]
        rw [hv]
        have := Nat.div_add_mod n base
        rw [h0] at this
        simpa using this
      · intro c hc
        simp only [List.mem_singleton] at hc
        subst hc
        exact ⟨hs, hp⟩
    · have hlt : n / base < fuel := by
        have hpos : 0 < n := by
          rcases Nat.eq_zero_or_pos n with hz | hz
          · subst hz; simp at h0
          · exact hz
        have : n / base < n := Nat.div_lt_self hpos hb
        omega
      obtain ⟨pre, hpre, hval, hch⟩ := ih (n / base) (Nat.digitChar (n % base) :: ds) hlt
      refine ⟨pre ++ [Nat.digitChar (n % base)], by simp [hpre], ?_, ?_⟩
      · rw [digits_value_append_singleton, hval, hv]
        exact Nat.div_add_mod' n base
      · intro c hc
        rcases List.mem_append.mp hc with hc | hc
        · exact hch c hc
        · simp only [List.mem_singleton] at hc
          subst hc
          exact ⟨hs, hp⟩

theorem toDigits_spec (base : Nat) (hb : 2 ≤ base) (hb16 : base ≤ 16) (n : Nat) :
    digits_value base (Nat.toDigits base n) = n ∧
      ∀ c ∈ Nat.toDigits base n, c ≠ ' ' ∧ c ≠ ')' := by
  obtain ⟨pre, h1, h2, h3⟩ := toDigitsCore_spec base hb hb16 (n + 1) n [] (by omega)
  unfold Nat.toDigits
  rw [h1, List.append_nil]
  exact ⟨h2, h3⟩

theorem append_cons_cancel {a : Char} :
    ∀ (xs ys r s : List Char), a ∉ xs → a ∉ ys → xs ++ a :: r = ys ++ a :: s →
      xs = ys ∧ r = s := by
  intro xs
  induction xs with
  | nil =>
    intro ys r s _ hy h
    cases ys with
    | nil => simpa using h
    | cons y ys' =>
      simp only [List.nil_append, List.cons_append, List.cons.injEq] at h
      exact absurd (List.mem_cons.mpr (Or.inl h.1)) hy
  | cons x xs' ih =>
    intro ys r s hx hy h
    cases ys with
    | nil =>
      simp only [List.nil_append, List.cons_append, List.cons.injEq] at h
      exact absurd (List.mem_cons.mpr (Or.inl h.1.symm)) hx
    | cons y ys' =>
      simp only [List.cons_append, List.cons.injEq] at h
      obtain ⟨hxy, hrest⟩ := h
      obtain ⟨h1, h2⟩ := ih ys' r s (fun hm => hx (List.mem_cons_of_mem _ hm))
        (fun hm => hy (List.mem_cons_of_mem _ hm)) hrest
      exact ⟨by rw [hxy, h1], h2⟩

theorem alignment_message_data (i ptr : Nat) (hp : ptr ≠ 0) :
    (alignment_message i ptr).data =
      "Parameter ".data ++ (Nat.toDigits 10 i ++ ' ' :: ('('  :: '0' :: 'x' ::
        (Nat.toDigits 16 ptr ++ ')' :: " is not divisible by 16.".data))) := by
  simp only [alignment_message, format_pointer, hp, if_false, hex_lower, String.data_append,
    List.append_assoc]
  rfl

/-- The alignment message names its parameter index and its address: two
messages are equal only for the same index and the same address. -/
theorem alignment_message_injective (i j p q : Nat) (hp : p ≠ 0) (hq : q ≠ 0)
    (h : alignment_message i p = alignment_message j q) : i = j ∧ p = q := by
  have hd := congrArg String.data h
  rw [alignment_message_data i p hp, alignment_message_data j q hq] at hd
  have hd' := List.append_cancel_left hd
  obtain ⟨vi, ci⟩ := toDigits_spec 10 (by norm_num) (by norm_num) i
  obtain ⟨vj, cj⟩ := toDigits_spec 10 (by norm_num) (by norm_num) j
  obtain ⟨e1, e2⟩ := append_cons_cancel _ _ _ _ (fun hm => (ci _ hm).1 rfl)
    (fun hm => (cj _ hm).1 rfl) hd'
  simp only [List.cons.injEq, true_and] at e2
  obtain ⟨vp, cp⟩ := toDigits_spec 16 (by norm_num) (by norm_num) p
  obtain ⟨vq, cq⟩ := toDigits_spec 16 (by norm_num) (by norm_num) q
  obtain ⟨e3, _⟩ := append_cons_cancel _ _ _ _ (fun hm => (cp _ hm).2 rfl)
    (fun hm => (cq _ hm).2 rfl) e2
  constructor
  · rw [← vi, ← vj, e1]
  · rw [← vp, ← vq, e3]

/-! ### C14, C19: the alignment error -/

/-- A status returned by the parameter loop is the alignment error of the first
flagged buffer parameter whose address is not a multiple of 16; the calls issued
are the zero-fills of the parameters before it. -/
theorem loop_returned_status (d : Driver) (stream : hipStream_t) (buffers : List Nat) :
    ∀ (ps : List Parameter) (i0 next : Nat) (acc : List ArgRef) (tr : Trace) (st : Status)
      (tr' : Trace),
      TritonKernelCall.Launch.loop d stream buffers ps i0 next acc tr =
        (Outcome.ret (StatusOr.status st), tr') →
      ∃ j a ptr, ps[j]? = some (Parameter.array a) ∧
        a.ptr_must_be_divisible_by_16 = true ∧
        buffers[next + count_arrays (ps.take j)]? = some ptr ∧ ptr % 16 ≠ 0 ∧
        (∀ j' b q, j' < j → ps[j']? = some (Parameter.array b) →
          b.ptr_must_be_divisible_by_16 = true →
          buffers[next + count_arrays (ps.take j')]? = some q → q % 16 = 0) ∧
        st = InvalidArgumentError (alignment_message (i0 + j) ptr) ∧
        tr' = tr ++ zero_fills stream buffers (ps.take j) next := by
  intro ps
  induction ps with
  | nil => intro i0 next acc tr st tr' h; simp [TritonKernelCall.Launch.loop] at h
  | cons p rest ih =>
    intro i0 next acc tr st tr' h
    cases p with
    | scalar bits =>
      simp only [TritonKernelCall.Launch.loop] at h
      obtain ⟨j, a, ptr, h1, h2, h3, h4, hmin, h5, h6⟩ := ih _ _ _ _ _ _ h
      refine ⟨j + 1, a, ptr, by simpa using h1, h2, ?_, h4, ?_, ?_, ?_⟩
      · rw [count_arrays_take_succ_scalar]; exact h3
      · intro j' b q hj' hb hbf hq
        cases j' with
        | zero => simp at hb
        | succ j' =>
          rw [count_arrays_take_succ_scalar] at hq
          exact hmin j' b q (by omega) (by simpa using hb) hbf hq
      · rw [h5]; congr 2; omega
      · rw [h6]; simp [zero_fills]
    | array a0 =>
      simp only [TritonKernelCall.Launch.loop] at h
      cases hb0 : buffers[next]? with
      | none => simp [hb0] at h
      | some p0 =>
        simp only [hb0] at h
        by_cases hbad : a0.ptr_must_be_divisible_by_16 = true ∧ p0 % 16 ≠ 0
        · have hcond : (a0.ptr_must_be_divisible_by_16 && (p0 % 16 != 0)) = true := by
            simp [hbad.1, hbad.2]
          simp only [hcond, if_true, Prod.mk.injEq, Outcome.ret.injEq,
            StatusOr.status.injEq] at h
          refine ⟨0, a0, p0, by simp, hbad.1, by simpa [count_arrays] using hb0, hbad.2, ?_,
            by simpa using h.1.symm, by simpa [zero_fills] using h.2.symm⟩
          intro j' b q hj'; omega
        · have hcond : (a0.ptr_must_be_divisible_by_16 && (p0 % 16 != 0)) = false := by
            cases hf : a0.ptr_must_be_divisible_by_16 with
            | false => simp
            | true =>
              have : p0 % 16 = 0 := by
                by_contra hne; exact hbad ⟨hf, hne⟩
              simp [this]
          simp only [hcond, Bool.false_eq_true, if_false] at h
          have key : ∀ tr1 : Trace,
              TritonKernelCall.Launch.loop d stream buffers rest (i0 + 1) (next + 1)
                (acc ++ [ArgRef.bufferSlot next]) tr1 = (Outcome.ret (StatusOr.status st), tr') →
              ∃ j a ptr, (Parameter.array a0 :: rest)[j]? = some (Parameter.array a) ∧
                a.ptr_must_be_divisible_by_16 = true ∧
                buffers[next + count_arrays ((Parameter.array a0 :: rest).take j)]? = some ptr ∧
                ptr % 16 ≠ 0 ∧
                (∀ j' b q, j' < j →
                  (Parameter.array a0 :: rest)[j']? = some (Parameter.array b) →
                  b.ptr_must_be_divisible_by_16 = true →
                  buffers[next + count_arrays ((Parameter.array a0 :: rest).take j')]? = some q →
                  q % 16 = 0) ∧
                st = InvalidArgumentError (alignment_message (i0 + j) ptr) ∧
                0 < j ∧
                tr' = tr1 ++ zero_fills stream buffers (rest.take (j - 1)) (next + 1) := by
            intro tr1 hl
            obtain ⟨j, a, ptr, h1, h2, h3, h4, hmin, h5, h6⟩ := ih _ _ _ _ _ _ hl
            refine ⟨j + 1, a, ptr, by simpa using h1, h2, ?_, h4, ?_, ?_, by omega,
              by simpa using h6⟩
            · rw [count_arrays_take_succ_array, ← h3]; congr 1; omega
            · intro j' b q hj' hb hbf hq
              cases j' with
              | zero =>
                simp only [List.getElem?_cons_zero, Option.some.injEq,
                  Parameter.array.injEq] at hb
                subst hb
                simp only [List.take_zero, count_arrays, Nat.add_zero] at hq
                rw [hb0] at hq
                cases hq
                by_contra hne
                exact hbad ⟨hbf, hne⟩
              | succ j' =>
                rw [count_arrays_take_succ_array] at hq
                refine hmin j' b q (by omega) (by simpa using hb) hbf ?_
                rw [← hq]; congr 1; omega
            · rw [h5]; congr 2; omega
          by_cases hz : a0.bytes_to_zero > 0
          · simp only [hz, if_true] at h
            by_cases herr : (d tr (Call.hipMemsetD8Async p0 0 a0.bytes_to_zero stream)).err
                = HIP_SUCCESS
            · rw [HIP_RETURN_IF_ERROR_of_success _ _ _ _ _ _ _ herr] at h
              obtain ⟨j, a, ptr, h1, h2, h3, h4, hmin, h5, hj, h6⟩ := key _ h
              refine ⟨j, a, ptr, h1, h2, h3, h4, hmin, h5, ?_⟩
              obtain ⟨j1, rfl⟩ : ∃ j1, j = j1 + 1 := ⟨j - 1, by omega⟩
              rw [h6]
              simp [zero_fills, hb0, hz]
            · rw [HIP_RETURN_IF_ERROR_of_failure _ _ _ _ _ _ _ herr] at h
              simp [Outcome.map] at h
          · simp only [hz, if_false] at h
            obtain ⟨j, a, ptr, h1, h2, h3, h4, hmin, h5, hj, h6⟩ := key _ h
            refine ⟨j, a, ptr, h1, h2, h3, h4, hmin, h5, ?_⟩
            obtain ⟨j1, rfl⟩ : ∃ j1, j = j1 + 1 := ⟨j - 1, by omega⟩
            rw [h6]
            simp [zero_fills, hb0, hz]

/-- The statuses that `TritonKernel::Launch` returns: OK, or the shared-memory
error. -/
theorem TritonKernel_Launch_returned_status (d : Driver) (k : TritonKernel)
    (stream : hipStream_t) (grid : Nat × Nat × Nat) (params : List ArgRef) (tr : Trace)
    (st : Status) (h : (TritonKernel.Launch d k stream grid params tr).1 = Outcome.ret st) :
    st = OkStatus ∨
      st = InvalidArgumentError "Shared memory requested exceeds device resources." := by
  have hres : ∀ s', (TritonKernel.GetFunctionForStream d k stream tr).1 =
      Outcome.ret (StatusOr.status s') →
      s' = InvalidArgumentError "Shared memory requested exceeds device resources." := by
    unfold TritonKernel.GetFunctionForStream
    have step : ∀ (t : Trace) (c : Call) (line : Int) (expr : String) (k' : TritonKernel)
        (next : Int → Trace → Outcome (StatusOr hipFunction_t) × TritonKernel × Trace),
        (∀ out s', (next out (t ++ [c])).1 = Outcome.ret (StatusOr.status s') →
          s' = InvalidArgumentError "Shared memory requested exceeds device resources.") →
        ∀ s', (HIP_RETURN_IF_ERROR d c line expr t (TritonKernel.GetFunctionForStream.stop k')
          next).1 = Outcome.ret (StatusOr.status s') →
          s' = InvalidArgumentError "Shared memory requested exceeds device resources." := by
      intro t c line expr k' next hnext
      refine HIP_RETURN_IF_ERROR_cases
        (P := fun (r : Outcome (StatusOr hipFunction_t) × TritonKernel × Trace) =>
          ∀ s', r.1 = Outcome.ret (StatusOr.status s') →
            s' = InvalidArgumentError "Shared memory requested exceeds device resources.")
        d c line expr t _ next ?_ ?_
      · intro _ s' hs
        simp [TritonKernel.GetFunctionForStream.stop, Outcome.map] at hs
      · intro _
        exact hnext _
    apply step
    intro module
    apply step
    intro function
    split
    · intro s' hs; simp at hs
    apply step
    intro device
    apply step
    intro shared_optin
    split
    · intro s' hs
      simp only [Outcome.ret.injEq, StatusOr.status.injEq] at hs
      exact hs.symm
    split
    · apply step
      intro _
      apply step
      intro shared_total
      apply step
      intro shared_static
      split
      · intro s' hs; simp at hs
      · apply step
        intro _ s' hs
        simp at hs
    · intro s' hs; simp at hs
  unfold TritonKernel.Launch at h
  rcases hr : TritonKernel.GetFunctionForStream d k stream tr with ⟨o, k1, tr1⟩
  rw [hr] at h hres
  cases o with
  | ret r =>
    cases r with
    | value f =>
      simp only at h
      left
      by_cases hsucc : (d tr1 (Call.hipModuleLaunchKernel f grid.1 grid.2.1 grid.2.2
          k.block_dim_x_ 1 1 k.shared_mem_bytes_ stream params)).err = HIP_SUCCESS
      · rw [hsucc, AsStatus_of_success] at h
        cases h
        rfl
      · rw [AsStatus_of_failure hsucc] at h
        cases h
    | status s' =>
      simp only at h
      split at h
      · cases h
      · simp only [Outcome.ret.injEq] at h
        subst h
        right
        exact hres _ rfl
  | abort m => simp at h
  | undefined => simp at h

theorem alignment_message_data_index (i ptr : Nat) :
    (alignment_message i ptr).data =
      "Parameter ".data ++ (Nat.toDigits 10 i ++ ' ' :: ('(' ::
        ((format_pointer ptr).data ++ ") is not divisible by 16.".data))) := by
  simp only [alignment_message, String.data_append, List.append_assoc]
  rfl

theorem alignment_message_index_injective (i j p q : Nat)
    (h : alignment_message i p = alignment_message j q) : i = j := by
  have hd := congrArg String.data h
  rw [alignment_message_data_index i p, alignment_message_data_index j q] at hd
  have hd' := List.append_cancel_left hd
  obtain ⟨vi, ci⟩ := toDigits_spec 10 (by norm_num) (by norm_num) i
  obtain ⟨vj, cj⟩ := toDigits_spec 10 (by norm_num) (by norm_num) j
  obtain ⟨e1, _⟩ := append_cons_cancel _ _ _ _ (fun hm => (ci _ hm).1 rfl)
    (fun hm => (cj _ hm).1 rfl) hd'
  rw [← vi, ← vj, e1]

theorem alignment_message_ne_shared (i ptr : Nat) :
    alignment_message i ptr ≠ "Shared memory requested exceeds device resources." := by
  intro h
  have hd := congrArg String.data h
  rw [alignment_message_data_index] at hd
  have h1 : ∀ l : List Char, "Parameter ".data ++ l = 'P' :: ("arameter ".data ++ l) :=
    fun _ => rfl
  have h2 : "Shared memory requested exceeds device resources.".data =
      'S' :: "hared memory requested exceeds device resources.".data := rfl
  rw [h1, h2] at hd
  simp only [List.cons.injEq] at hd
  exact absurd hd.1 (by decide)

theorem misaligned_at_iff (ps : List Parameter) (buffers : List Nat) (i ptr : Nat) :
    misaligned_at ps buffers i ptr ↔
      ∃ a, ps[i]? = some (Parameter.array a) ∧ a.ptr_must_be_divisible_by_16 = true ∧
        buffers[0 + count_arrays (ps.take i)]? = some ptr ∧ ptr % 16 ≠ 0 := by
  simp [misaligned_at, buffer_index]

/-- The alignment error of `TritonKernelCall::Launch` comes from the parameter
loop, at the first misaligned flagged buffer parameter. -/
theorem Launch_alignment_error_source (d : Driver) (call : TritonKernelCall)
    (kernel : TritonKernel) (stream : hipStream_t) (buffers : List Nat) (tr : Trace)
    (i ptr : Nat)
    (h : (TritonKernelCall.Launch d call kernel stream buffers tr).1 =
      Outcome.ret (InvalidArgumentError (alignment_message i ptr))) :
    ∃ q, misaligned_at call.parameters_ buffers i q ∧
      (∀ j p, j < i → ¬ misaligned_at call.parameters_ buffers j p) ∧
      TritonKernelCall.Launch d call kernel stream buffers tr =
        (Outcome.ret (InvalidArgumentError (alignment_message i q)), kernel,
          tr ++ zero_fills stream buffers (call.parameters_.take i) 0) := by
  unfold TritonKernelCall.Launch at h ⊢
  rcases hr : TritonKernelCall.Launch.loop d stream buffers call.parameters_ 0 0 [] tr
    with ⟨o, tr1⟩
  rw [hr] at h
  cases o with
  | ret r =>
    cases r with
    | value v =>
      obtain ⟨params, n⟩ := v
      simp only at h
      rcases TritonKernel_Launch_returned_status d kernel stream call.grid_ params tr1 _ h
        with h1 | h1
      · cases h1
      · simp only [InvalidArgumentError, Status.mk.injEq, true_and] at h1
        exact absurd h1 (alignment_message_ne_shared i ptr)
    | status st =>
      simp only [Outcome.ret.injEq] at h
      subst h
      obtain ⟨j, a, q, h1, h2, h3, h4, hmin, h5, h6⟩ :=
        loop_returned_status d stream buffers _ _ _ _ _ _ _ hr
      simp only [InvalidArgumentError, Status.mk.injEq, true_and] at h5
      have hij : i = 0 + j := alignment_message_index_injective _ _ _ _ h5
      simp only [Nat.zero_add] at hij
      subst hij
      refine ⟨q, (misaligned_at_iff _ _ _ _).mpr ⟨a, h1, h2, h3, h4⟩, ?_, ?_⟩
      · intro j' p hj' hm
        obtain ⟨b, hb1, hb2, hb3, hb4⟩ := (misaligned_at_iff _ _ _ _).mp hm
        exact hb4 (hmin j' b p hj' hb1 hb2 hb3)
      · simp only [Nat.zero_add] at h5
        simp only [h6, h5]
  | abort m => simp at h
  | undefined => simp at h

/-- C14.  With every zero-fill succeeding, `TritonKernelCall::Launch` returns the
alignment error exactly when some buffer parameter with the flag receives an
address that is not a multiple of 16; the error is then that of the smallest
such index of the parameter list, with the message
`Parameter <index> (<address>) is not divisible by 16.`, the address written as
`%p` writes it; and the message determines the index and the address. -/
theorem Launch_alignment_error_iff (d : Driver) (call : TritonKernelCall)
    (kernel : TritonKernel) (stream : hipStream_t) (buffers : List Nat) (tr : Trace)
    (hok : ∀ h dst v n s, (d h (Call.hipMemsetD8Async dst v n s)).err = HIP_SUCCESS) :
    ((∃ i ptr, (TritonKernelCall.Launch d call kernel stream buffers tr).1 =
        Outcome.ret (InvalidArgumentError (alignment_message i ptr))) ↔
      ∃ i ptr, misaligned_at call.parameters_ buffers i ptr) ∧
    (∀ i ptr, misaligned_at call.parameters_ buffers i ptr →
      (∀ j q, j < i → ¬ misaligned_at call.parameters_ buffers j q) →
      (TritonKernelCall.Launch d call kernel stream buffers tr).1 =
        Outcome.ret (InvalidArgumentError (alignment_message i ptr))) ∧
    (∀ i ptr, alignment_message i ptr =
      "Parameter " ++ toString i ++ " (" ++ format_pointer ptr ++
        ") is not divisible by 16.") ∧
    (∀ i j p q, p % 16 ≠ 0 → q % 16 ≠ 0 → alignment_message i p = alignment_message j q →
      i = j ∧ p = q) := by
  have hfirst : ∀ i ptr, misaligned_at call.parameters_ buffers i ptr →
      ∃ j q, j ≤ i ∧ misaligned_at call.parameters_ buffers j q ∧
        (∀ j' b p, j' < j → call.parameters_[j']? = some (Parameter.array b) →
          b.ptr_must_be_divisible_by_16 = true →
          buffers[0 + count_arrays (call.parameters_.take j')]? = some p → p % 16 = 0) ∧
        (TritonKernelCall.Launch d call kernel stream buffers tr).1 =
          Outcome.ret (InvalidArgumentError (alignment_message j q)) := by
    intro i ptr hm
    obtain ⟨a, h1, h2, h3, h4⟩ := (misaligned_at_iff _ _ _ _).mp hm
    obtain ⟨j, a', q, hj, g1, g2, g3, g4, hmin, hloop⟩ :=
      loop_misaligned d stream buffers hok call.parameters_ 0 0 [] tr i a ptr h1 h2 h3 h4
    refine ⟨j, q, hj, (misaligned_at_iff _ _ _ _).mpr ⟨a', g1, g2, g3, g4⟩, hmin, ?_⟩
    simp only [TritonKernelCall.Launch, hloop, Nat.zero_add]
  refine ⟨⟨?_, ?_⟩, ?_, fun _ _ => rfl, ?_⟩
  · rintro ⟨i, ptr, h⟩
    obtain ⟨q, hq, _, _⟩ := Launch_alignment_error_source d call kernel stream buffers tr i ptr h
    exact ⟨i, q, hq⟩
  · rintro ⟨i, ptr, hm⟩
    obtain ⟨j, q, _, _, _, hl⟩ := hfirst i ptr hm
    exact ⟨j, q, hl⟩
  · intro i ptr hm hleast
    obtain ⟨j, q, hj, hmj, hmin, hl⟩ := hfirst i ptr hm
    have hji : j = i := by
      rcases Nat.lt_or_ge j i with hlt | hge
      · exact absurd hmj (hleast j q hlt)
      · omega
    subst hji
    obtain ⟨a, _, _, h3, _⟩ := hm
    obtain ⟨b, _, _, g3, _⟩ := hmj
    rw [h3] at g3
    cases g3
    exact hl
  · intro i j p q hp hq h
    exact alignment_message_injective i j p q (by intro h0; simp [h0] at hp)
      (by intro h0; simp [h0] at hq) h

theorem Launch_alignment_error_iff_witness :
    misaligned_at zero_fill_then_aligned_call.parameters_ [0x1000, 0x2001] 1 0x2001 ∧
    (TritonKernelCall.Launch driver_ok zero_fill_then_aligned_call (example_kernel 0) 7
        [0x1000, 0x2001] []).1 =
      Outcome.ret (InvalidArgumentError "Parameter 1 (0x2001) is not divisible by 16.") ∧
    (((∃ i ptr, (TritonKernelCall.Launch driver_ok zero_fill_then_aligned_call
          (example_kernel 0) 7 [0x1000, 0x2001] []).1 =
        Outcome.ret (InvalidArgumentError (alignment_message i ptr))) ↔
      ∃ i ptr, misaligned_at zero_fill_then_aligned_call.parameters_ [0x1000, 0x2001] i ptr) ∧
    (∀ i ptr, misaligned_at zero_fill_then_aligned_call.parameters_ [0x1000, 0x2001] i ptr →
      (∀ j q, j < i →
        ¬ misaligned_at zero_fill_then_aligned_call.parameters_ [0x1000, 0x2001] j q) →
      (TritonKernelCall.Launch driver_ok zero_fill_then_aligned_call (example_kernel 0) 7
          [0x1000, 0x2001] []).1 =
        Outcome.ret (InvalidArgumentError (alignment_message i ptr))) ∧
    (∀ i ptr, alignment_message i ptr =
      "Parameter " ++ toString i ++ " (" ++ format_pointer ptr ++
        ") is not divisible by 16.") ∧
    (∀ i j p q, p % 16 ≠ 0 → q % 16 ≠ 0 → alignment_message i p = alignment_message j q →
      i = j ∧ p = q)) :=
  ⟨⟨{ bytes_to_zero := 0, ptr_must_be_divisible_by_16 := true }, rfl, rfl, rfl, by decide⟩,
    by decide,
    Launch_alignment_error_iff driver_ok zero_fill_then_aligned_call (example_kernel 0) 7
      [0x1000, 0x2001] [] (fun _ _ _ _ _ => rfl)⟩

theorem zero_fill_at_take (stream : hipStream_t) (buffers : List Nat) (ps : List Parameter)
    (i k : Nat) (hk : k < i) :
    zero_fill_at stream buffers (ps.take i) 0 k = zero_fill_at stream buffers ps 0 k := by
  have h1 : (ps.take i)[k]? = ps[k]? := by rw [List.getElem?_take, if_pos hk]
  have h2 : (ps.take i).take k = ps.take k := by
    rw [List.take_take, Nat.min_eq_left (Nat.le_of_lt hk)]
  simp only [zero_fill_at, h1, h2]

/-- C19.  When `TritonKernelCall::Launch` returns the alignment error for the
parameter at index `i`, it leaves the kernel as it was and the calls it has
issued are the zero-fills of the parameters before `i`, in parameter order: for
each index below `i`, the call of `zero_fill_at` (one for a buffer parameter with
`bytes_to_zero > 0`, none otherwise).  All of them are zero-fills: there is no
module load and no kernel launch, and the misaligned address, which parameter `i`
receives, is not zero-filled. -/
theorem Launch_alignment_error_trace (d : Driver) (call : TritonKernelCall)
    (kernel : TritonKernel) (stream : hipStream_t) (buffers : List Nat) (tr : Trace)
    (i ptr : Nat)
    (h : (TritonKernelCall.Launch d call kernel stream buffers tr).1 =
      Outcome.ret (InvalidArgumentError (alignment_message i ptr))) :
    (TritonKernelCall.Launch d call kernel stream buffers tr).2.1 = kernel ∧
    (TritonKernelCall.Launch d call kernel stream buffers tr).2.2 =
      tr ++ (List.range i).filterMap (zero_fill_at stream buffers call.parameters_ 0) ∧
    (∀ c ∈ (List.range i).filterMap (zero_fill_at stream buffers call.parameters_ 0),
      c.is_memset = true ∧ c.is_module_load = false ∧ c.is_launch = false) ∧
    misaligned_at call.parameters_ buffers i ptr := by
  obtain ⟨q, hq, _, hl⟩ := Launch_alignment_error_source d call kernel stream buffers tr i ptr h
  have hqp : q = ptr := by
    rw [hl] at h
    simp only [Outcome.ret.injEq, InvalidArgumentError, Status.mk.injEq, true_and] at h
    obtain ⟨_, _, _, _, hq4⟩ := hq
    by_cases hp0 : ptr = 0
    · subst hp0
      have hd := congrArg String.data h
      rw [alignment_message_data_index, alignment_message_data_index] at hd
      have hd' := List.append_cancel_left (List.append_cancel_left hd)
      have hq0 : q ≠ 0 := by intro h0; simp [h0] at hq4
      simp only [List.cons.injEq, true_and, format_pointer, hq0, if_false, if_true,
        String.data_append] at hd'
      simp at hd'
    · exact ((alignment_message_injective i i q ptr (by intro h0; simp [h0] at hq4) hp0 h).2)
  subst hqp
  have hlen : (call.parameters_.take i).length = i := by
    obtain ⟨a, ha, _⟩ := hq
    have hi : i < call.parameters_.length := by
      rcases Nat.lt_or_ge i call.parameters_.length with h1 | h1
      · exact h1
      · rw [List.getElem?_eq_none h1] at ha; cases ha
    simp only [List.length_take]
    omega
  have hzf : zero_fills stream buffers (call.parameters_.take i) 0 =
      (List.range i).filterMap (zero_fill_at stream buffers call.parameters_ 0) := by
    rw [zero_fills_eq_filterMap_aux, hlen]
    apply List.filterMap_congr
    intro k hk
    exact zero_fill_at_take stream buffers call.parameters_ i k (List.mem_range.mp hk)
  rw [hl]
  refine ⟨rfl, by simp only [hzf], ?_, hq⟩
  intro c hc
  rw [← hzf] at hc
  have hm := zero_fills_is_memset stream buffers _ _ c hc
  cases c <;> simp_all [Call.is_memset, Call.is_module_load, Call.is_launch]

theorem Launch_alignment_error_trace_witness :
    (List.range 1).filterMap
        (zero_fill_at 7 [0x1000, 0x2001] zero_fill_then_aligned_call.parameters_ 0) =
      [Call.hipMemsetD8Async 0x1000 0 64 7] ∧
    ((TritonKernelCall.Launch driver_ok zero_fill_then_aligned_call (example_kernel 0) 7
        [0x1000, 0x2001] []).2.1 = example_kernel 0 ∧
    (TritonKernelCall.Launch driver_ok zero_fill_then_aligned_call (example_kernel 0) 7
        [0x1000, 0x2001] []).2.2 =
      [] ++ (List.range 1).filterMap
        (zero_fill_at 7 [0x1000, 0x2001] zero_fill_then_aligned_call.parameters_ 0) ∧
    (∀ c ∈ (List.range 1).filterMap
        (zero_fill_at 7 [0x1000, 0x2001] zero_fill_then_aligned_call.parameters_ 0),
      c.is_memset = true ∧ c.is_module_load = false ∧ c.is_launch = false) ∧
    misaligned_at zero_fill_then_aligned_call.parameters_ [0x1000, 0x2001] 1 0x2001) :=
  ⟨by decide,
    Launch_alignment_error_trace driver_ok zero_fill_then_aligned_call (example_kernel 0) 7
      [0x1000, 0x2001] [] 1 0x2001 (by decide)⟩

/-! ### C16: the descriptor -/

theorem memcpy_pointer_bytes (p : Nat) (hp : p < 2 ^ 64) :
    memcpy_pointer (pointer_bytes p) = some p := by
  have h8 : List.range 8 = [0, 1, 2, 3, 4, 5, 6, 7] := by decide
  simp only [memcpy_pointer, pointer_bytes, sizeof_pointer, h8, List.map_cons, List.map_nil,
    List.length_cons, List.length_nil, List.take, List.foldr_cons, List.foldr_nil]
  norm_num
  omega

theorem descriptor_length (address : Nat) :
    (TritonKernelCall.descriptor address).length = sizeof_pointer := by
  simp [TritonKernelCall.descriptor, pointer_bytes, sizeof_pointer]

/-- C16.  The descriptor of the Kernel Call at `address` has the reference width;
`LaunchTritonKernel` decodes it to `address` and so runs the `Launch` of that
call: its trace, its outcome and the kernel it leaves are those of the call's
`Launch`.  A handle of any other length fails the check on `opaque_len`, which
terminates the process: nothing is launched and the status slot is not
written. -/
theorem LaunchTritonKernel_descriptor (d : Driver) (mem : Memory) (stream : hipStream_t)
    (buffers : List Nat) (status : XlaCustomCallStatus) (tr : Trace) (address : Nat)
    (call : TritonKernelCall) (kernel : TritonKernel)
    (haddr : address < 2 ^ 64)
    (hcall : mem.calls address = some call)
    (hkernel : mem.kernels call.kernel_ = some kernel) :
    (TritonKernelCall.descriptor address).length = sizeof_pointer ∧
    memcpy_pointer (TritonKernelCall.descriptor address) = some address ∧
    (LaunchTritonKernel d mem stream buffers (TritonKernelCall.descriptor address)
        (TritonKernelCall.descriptor address).length status tr).1 =
      Outcome.map (fun _ => ()) (TritonKernelCall.Launch d call kernel stream buffers tr).1 ∧
    (LaunchTritonKernel d mem stream buffers (TritonKernelCall.descriptor address)
        (TritonKernelCall.descriptor address).length status tr).2.1.kernels call.kernel_ =
      some (TritonKernelCall.Launch d call kernel stream buffers tr).2.1 ∧
    (LaunchTritonKernel d mem stream buffers (TritonKernelCall.descriptor address)
        (TritonKernelCall.descriptor address).length status tr).2.2.2 =
      (TritonKernelCall.Launch d call kernel stream buffers tr).2.2 ∧
    (∀ (handle : List Nat) (len : Nat), len ≠ sizeof_pointer →
      LaunchTritonKernel d mem stream buffers handle len status tr =
        (Outcome.abort "opaque_len == sizeof(TritonKernelCallBase*)", mem, status, tr)) := by
  have hdec : memcpy_pointer (TritonKernelCall.descriptor address) = some address := by
    have : TritonKernelCall.descriptor address = pointer_bytes address := by
      simp [TritonKernelCall.descriptor, pointer_bytes, sizeof_pointer]
    rw [this]
    exact memcpy_pointer_bytes address haddr
  refine ⟨descriptor_length address, hdec, ?_, ?_, ?_, ?_⟩
  · rw [descriptor_length]
    simp only [LaunchTritonKernel, CHECK_EQ, if_true, hdec, hcall, hkernel]
    rcases TritonKernelCall.Launch d call kernel stream buffers tr with ⟨o, k1, tr1⟩
    cases o with
    | ret r => simp only [Outcome.map]; split <;> rfl
    | abort m => rfl
    | undefined => rfl
  · rw [descriptor_length]
    simp only [LaunchTritonKernel, CHECK_EQ, if_true, hdec, hcall, hkernel]
    rcases TritonKernelCall.Launch d call kernel stream buffers tr with ⟨o, k1, tr1⟩
    cases o with
    | ret r => simp only; split <;> simp
    | abort m => simp
    | undefined => simp
  · rw [descriptor_length]
    simp only [LaunchTritonKernel, CHECK_EQ, if_true, hdec, hcall, hkernel]
    rcases TritonKernelCall.Launch d call kernel stream buffers tr with ⟨o, k1, tr1⟩
    cases o with
    | ret r => simp only; split <;> rfl
    | abort m => rfl
    | undefined => rfl
  · intro handle len hlen
    simp only [LaunchTritonKernel, CHECK_EQ, hlen, if_false]

theorem LaunchTritonKernel_descriptor_witness :
    TritonKernelCall.descriptor 4096 = [0, 16, 0, 0, 0, 0, 0, 0] ∧
    ((TritonKernelCall.descriptor 4096).length = sizeof_pointer ∧
    memcpy_pointer (TritonKernelCall.descriptor 4096) = some 4096 ∧
    (LaunchTritonKernel driver_ok example_memory 7 [0x1000, 0x2001]
        (TritonKernelCall.descriptor 4096) (TritonKernelCall.descriptor 4096).length
        { failure := none } []).1 =
      Outcome.map (fun _ => ()) (TritonKernelCall.Launch driver_ok zero_fill_then_aligned_call
        (example_kernel 0) 7 [0x1000, 0x2001] []).1 ∧
    (LaunchTritonKernel driver_ok example_memory 7 [0x1000, 0x2001]
        (TritonKernelCall.descriptor 4096) (TritonKernelCall.descriptor 4096).length
        { failure := none } []).2.1.kernels zero_fill_then_aligned_call.kernel_ =
      some (TritonKernelCall.Launch driver_ok zero_fill_then_aligned_call
        (example_kernel 0) 7 [0x1000, 0x2001] []).2.1 ∧
    (LaunchTritonKernel driver_ok example_memory 7 [0x1000, 0x2001]
        (TritonKernelCall.descriptor 4096) (TritonKernelCall.descriptor 4096).length
        { failure := none } []).2.2.2 =
      (TritonKernelCall.Launch driver_ok zero_fill_then_aligned_call
        (example_kernel 0) 7 [0x1000, 0x2001] []).2.2 ∧
    (∀ (handle : List Nat) (len : Nat), len ≠ sizeof_pointer →
      LaunchTritonKernel driver_ok example_memory 7 [0x1000, 0x2001] handle len
          { failure := none } [] =
        (Outcome.abort "opaque_len == sizeof(TritonKernelCallBase*)", example_memory,
          { failure := none }, []))) :=
  ⟨by decide,
    LaunchTritonKernel_descriptor driver_ok example_memory 7 [0x1000, 0x2001]
      { failure := none } [] 4096 zero_fill_then_aligned_call (example_kernel 0) (by decide)
      rfl rfl⟩

/-! ### C17, C18: the recorded modules -/

/-- The kernel that `GetFunctionForStream` leaves: unchanged when the module load
fails, and with the loaded module appended to `modules_` when it succeeds,
whatever happens after. -/
theorem GetFunctionForStream_kernel (d : Driver) (k : TritonKernel) (stream : hipStream_t)
    (tr : Trace) :
    ((d tr (Call.hipModuleLoadData k.module_image_)).err ≠ HIP_SUCCESS →
      TritonKernel.GetFunctionForStream d k stream tr =
        (Outcome.abort "error == HIP_SUCCESS", k,
          tr ++ [Call.hipModuleLoadData k.module_image_])) ∧
    ((d tr (Call.hipModuleLoadData k.module_image_)).err = HIP_SUCCESS →
      (TritonKernel.GetFunctionForStream d k stream tr).2.1 =
        { k with modules_ :=
          k.modules_ ++ [(d tr (Call.hipModuleLoadData k.module_image_)).out] }) := by
  constructor
  · intro hfail
    unfold TritonKernel.GetFunctionForStream
    rw [HIP_RETURN_IF_ERROR_of_failure _ _ _ _ _ _ _ hfail]
    rfl
  · intro hsucc
    unfold TritonKernel.GetFunctionForStream
    rw [HIP_RETURN_IF_ERROR_of_success _ _ _ _ _ _ _ hsucc]
    generalize (d tr (Call.hipModuleLoadData k.module_image_)).out = module
    have step : ∀ (t : Trace) (c : Call) (line : Int) (expr : String) (k' : TritonKernel)
        (next : Int → Trace → Outcome (StatusOr hipFunction_t) × TritonKernel × Trace),
        (∀ out, (next out (t ++ [c])).2.1 = k') →
        (HIP_RETURN_IF_ERROR d c line expr t (TritonKernel.GetFunctionForStream.stop k')
          next).2.1 = k' := by
      intro t c line expr k' next hnext
      refine HIP_RETURN_IF_ERROR_cases
        (P := fun (r : Outcome (StatusOr hipFunction_t) × TritonKernel × Trace) => r.2.1 = k')
        d c line expr t _ next ?_ ?_
      · intro _; rfl
      · intro _; exact hnext _
    simp only
    apply step
    intro function
    split
    · rfl
    apply step
    intro device
    apply step
    intro shared_optin
    split
    · rfl
    split
    · apply step
      intro _
      apply step
      intro shared_total
      apply step
      intro shared_static
      split
      · rfl
      · apply step
        intro _
        rfl
    · rfl

theorem TritonKernel_Launch_kernel (d : Driver) (k : TritonKernel) (stream : hipStream_t)
    (grid : Nat × Nat × Nat) (params : List ArgRef) (tr : Trace) :
    (TritonKernel.Launch d k stream grid params tr).2.1 =
      (TritonKernel.GetFunctionForStream d k stream tr).2.1 := by
  unfold TritonKernel.Launch
  rcases TritonKernel.GetFunctionForStream d k stream tr with ⟨o, k1, tr1⟩
  cases o with
  | ret r =>
    cases r with
    | value f => rfl
    | status st => simp only; split <;> rfl
  | abort m => rfl
  | undefined => rfl

/-- C17, as stated, fails: the entry-point lookup returns a non-success code, and
the module that was loaded just before is recorded in `modules_`. -/
theorem lookup_failure_keeps_module :
    (example_kernel 0).modules_ = [] ∧
    (TritonKernel.GetFunctionForStream driver_lookup_fails (example_kernel 0) 7 []).2.1.modules_ =
      [5] ∧
    (TritonKernel.GetFunctionForStream driver_lookup_fails (example_kernel 0) 7 []).2.2 =
      [Call.hipModuleLoadData "image", Call.hipModuleGetFunction 5 "kernel"] := by
  decide

/-- C17 (amended).  If the module load returns a non-success code, resolution
gives no function, issues no further call and leaves the kernel, its `modules_`
included, as it was.  If the load succeeds and the entry-point lookup returns a
non-success code, resolution gives no function and issues no further call, and
`modules_` has the loaded module appended: it is owned by the kernel. -/
theorem GetFunctionForStream_load_or_lookup_failure (d : Driver) (k : TritonKernel)
    (stream : hipStream_t) (tr : Trace) :
    ((d tr (Call.hipModuleLoadData k.module_image_)).err ≠ HIP_SUCCESS →
      (TritonKernel.GetFunctionForStream d k stream tr).2.1 = k ∧
      (TritonKernel.GetFunctionForStream d k stream tr).2.2 =
        tr ++ [Call.hipModuleLoadData k.module_image_] ∧
      ∀ f, (TritonKernel.GetFunctionForStream d k stream tr).1 ≠
        Outcome.ret (StatusOr.value f)) ∧
    ((d tr (Call.hipModuleLoadData k.module_image_)).err = HIP_SUCCESS →
      (d (tr ++ [Call.hipModuleLoadData k.module_image_])
        (Call.hipModuleGetFunction (d tr (Call.hipModuleLoadData k.module_image_)).out
          (c_str k.kernel_name_))).err ≠ HIP_SUCCESS →
      (TritonKernel.GetFunctionForStream d k stream tr).2.1.modules_ =
        k.modules_ ++ [(d tr (Call.hipModuleLoadData k.module_image_)).out] ∧
      (TritonKernel.GetFunctionForStream d k stream tr).2.2 =
        tr ++ [Call.hipModuleLoadData k.module_image_,
          Call.hipModuleGetFunction (d tr (Call.hipModuleLoadData k.module_image_)).out
            (c_str k.kernel_name_)] ∧
      ∀ f, (TritonKernel.GetFunctionForStream d k stream tr).1 ≠
        Outcome.ret (StatusOr.value f)) := by
  constructor
  · intro hfail
    rw [(GetFunctionForStream_kernel d k stream tr).1 hfail]
    exact ⟨rfl, rfl, fun f h => by cases h⟩
  · intro hsucc hfail
    have hk := (GetFunctionForStream_kernel d k stream tr).2 hsucc
    refine ⟨by rw [hk], ?_, ?_⟩
    · unfold TritonKernel.GetFunctionForStream
      rw [HIP_RETURN_IF_ERROR_of_success _ _ _ _ _ _ _ hsucc]
      simp only
      rw [HIP_RETURN_IF_ERROR_of_failure _ _ _ _ _ _ _ hfail]
      simp [TritonKernel.GetFunctionForStream.stop]
    · intro f
      unfold TritonKernel.GetFunctionForStream
      rw [HIP_RETURN_IF_ERROR_of_success _ _ _ _ _ _ _ hsucc]
      simp only
      rw [HIP_RETURN_IF_ERROR_of_failure _ _ _ _ _ _ _ hfail]
      simp [TritonKernel.GetFunctionForStream.stop, Outcome.map]

theorem Launch_all_modules (d : Driver) :
    ∀ (launches : List (hipStream_t × (Nat × Nat × Nat) × List ArgRef)) (k : TritonKernel)
      (tr : Trace), k.modules_ <+: (TritonKernel.Launch_all d launches k tr).1.modules_ := by
  intro launches
  induction launches with
  | nil => intro k tr; exact List.prefix_refl _
  | cons l rest ih =>
    intro k tr
    obtain ⟨stream, grid, params⟩ := l
    have hk : k.modules_ <+: (TritonKernel.Launch d k stream grid params tr).2.1.modules_ := by
      rw [TritonKernel_Launch_kernel]
      by_cases hsucc : (d tr (Call.hipModuleLoadData k.module_image_)).err = HIP_SUCCESS
      · rw [(GetFunctionForStream_kernel d k stream tr).2 hsucc]
        exact List.prefix_append _ _
      · rw [(GetFunctionForStream_kernel d k stream tr).1 hsucc]
    simp only [TritonKernel.Launch_all]
    rcases hr : TritonKernel.Launch d k stream grid params tr with ⟨o, k1, tr1⟩
    rw [hr] at hk
    cases o with
    | ret st => exact List.IsPrefix.trans hk (ih k1 tr1)
    | abort m => exact hk
    | undefined => exact hk

/-- C18.  A resolution whose module load succeeds appends exactly that one module
handle to `modules_`, and one whose module load fails leaves `modules_` as it
was; every `Launch` leaves the `modules_` of its resolution; and over any
sequence of launches the earlier `modules_` stays a prefix of the later one, so
no entry is removed or reordered and the length never decreases. -/
theorem modules_append_only (d : Driver) (k : TritonKernel) (stream : hipStream_t)
    (tr : Trace) :
    ((d tr (Call.hipModuleLoadData k.module_image_)).err = HIP_SUCCESS →
      (TritonKernel.GetFunctionForStream d k stream tr).2.1.modules_ =
        k.modules_ ++ [(d tr (Call.hipModuleLoadData k.module_image_)).out]) ∧
    ((d tr (Call.hipModuleLoadData k.module_image_)).err ≠ HIP_SUCCESS →
      (TritonKernel.GetFunctionForStream d k stream tr).2.1.modules_ = k.modules_) ∧
    (∀ grid params, (TritonKernel.Launch d k stream grid params tr).2.1.modules_ =
      (TritonKernel.GetFunctionForStream d k stream tr).2.1.modules_) ∧
    (∀ launches, k.modules_ <+: (TritonKernel.Launch_all d launches k tr).1.modules_ ∧
      k.modules_.length ≤ (TritonKernel.Launch_all d launches k tr).1.modules_.length) := by
  refine ⟨?_, ?_, ?_, ?_⟩
  · intro hsucc
    rw [(GetFunctionForStream_kernel d k stream tr).2 hsucc]
  · intro hfail
    rw [(GetFunctionForStream_kernel d k stream tr).1 hfail]
  · intro grid params
    rw [TritonKernel_Launch_kernel]
  · intro launches
    exact ⟨Launch_all_modules d launches k tr, (Launch_all_modules d launches k tr).length_le⟩

/-! ### C20: resolution above the static limit -/

/-- When a `HIP_RETURN_IF_ERROR` step inside `GetFunctionForStream` is followed by
the return of a function, its call succeeded and the continuation returned it. -/
theorem HIP_RETURN_IF_ERROR_returned (d : Driver) (c : Call) (line : Int) (expr : String)
    (t : Trace) (k0 : TritonKernel)
    (next : Int → Trace → Outcome (StatusOr hipFunction_t) × TritonKernel × Trace)
    (f : hipFunction_t) (k1 : TritonKernel) (tr1 : Trace)
    (h : HIP_RETURN_IF_ERROR d c line expr t (TritonKernel.GetFunctionForStream.stop k0) next =
      (Outcome.ret (StatusOr.value f), k1, tr1)) :
    next (d t c).out (t ++ [c]) = (Outcome.ret (StatusOr.value f), k1, tr1) := by
  rw [HIP_RETURN_IF_ERROR_eq_ite] at h
  split_ifs at h with hc
  · exact h
  · simp [TritonKernel.GetFunctionForStream.stop, Outcome.map] at h

theorem to_unsigned_le_of_nonneg {x : Int} (h0 : 0 ≤ x) : (to_unsigned x : Int) ≤ x := by
  unfold to_unsigned
  rw [Int.toNat_of_nonneg (Int.emod_nonneg _ (by norm_num))]
  omega

/-- C20.  For a kernel that requests more than 49152 bytes of shared memory on a
device whose reported opt-in maximum is never negative: if `GetFunctionForStream`
returns a function, the opt-in maximum it read is above 49152 and at least the
request, and the calls it issued are the module load, the lookup, the device and
opt-in queries, then `hipFuncSetCacheConfig` with the shared preference, the two
attribute queries and `hipFuncSetAttribute` for the maximum dynamic shared-memory
size on the returned function. -/
theorem GetFunctionForStream_configures_dynamic_shared_memory (d : Driver) (k : TritonKernel)
    (stream : hipStream_t) (tr : Trace) (f : hipFunction_t) (k1 : TritonKernel) (tr1 : Trace)
    (hs : 49152 < k.shared_mem_bytes_)
    (hopt : ∀ h dev, 0 ≤ (d h (Call.hipDeviceGetAttribute
      hipDeviceAttribute_t.hipDeviceAttributeSharedMemPerBlockOptin dev)).out)
    (hres : TritonKernel.GetFunctionForStream d k stream tr =
      (Outcome.ret (StatusOr.value f), k1, tr1)) :
    ∃ (module : hipModule_t) (device : hipDevice_t) (optin static_size : Int),
      kMaxStaticSharedMemBytes < optin ∧ (k.shared_mem_bytes_ : Int) ≤ optin ∧
      tr1 = tr ++ [Call.hipModuleLoadData k.module_image_,
        Call.hipModuleGetFunction module (c_str k.kernel_name_),
        Call.hipStreamGetDevice stream,
        Call.hipDeviceGetAttribute
          hipDeviceAttribute_t.hipDeviceAttributeSharedMemPerBlockOptin device,
        Call.hipFuncSetCacheConfig f hipFuncCache_t.hipFuncCachePreferShared,
        Call.hipDeviceGetAttribute
          hipDeviceAttribute_t.hipDeviceAttributeMaxBlocksPerMultiProcessor device,
        Call.hipFuncGetAttribute hipFunction_attribute.HIP_FUNC_ATTRIBUTE_SHARED_SIZE_BYTES f,
        Call.hipFuncSetAttribute f hipFuncAttribute.hipFuncAttributeMaxDynamicSharedMemorySize
          (optin - static_size)] := by
  unfold TritonKernel.GetFunctionForStream at hres
  have hres := HIP_RETURN_IF_ERROR_returned _ _ _ _ _ _ _ _ _ _ hres
  generalize (d tr (Call.hipModuleLoadData k.module_image_)).out = module at hres
  simp only at hres
  have hres := HIP_RETURN_IF_ERROR_returned _ _ _ _ _ _ _ _ _ _ hres
  generalize (d (tr ++ [Call.hipModuleLoadData k.module_image_])
    (Call.hipModuleGetFunction module (c_str k.kernel_name_))).out = function at hres
  rw [to_unsigned_kMaxStaticSharedMemBytes, if_neg (by simpa using hs)] at hres
  have hres := HIP_RETURN_IF_ERROR_returned _ _ _ _ _ _ _ _ _ _ hres
  generalize (d (tr ++ [Call.hipModuleLoadData k.module_image_] ++
    [Call.hipModuleGetFunction module (c_str k.kernel_name_)])
    (Call.hipStreamGetDevice stream)).out = device at hres
  have hres := HIP_RETURN_IF_ERROR_returned _ _ _ _ _ _ _ _ _ _ hres
  have h0 := hopt (tr ++ [Call.hipModuleLoadData k.module_image_] ++
    [Call.hipModuleGetFunction module (c_str k.kernel_name_)] ++
    [Call.hipStreamGetDevice stream]) device
  generalize (d (tr ++ [Call.hipModuleLoadData k.module_image_] ++
    [Call.hipModuleGetFunction module (c_str k.kernel_name_)] ++
    [Call.hipStreamGetDevice stream])
    (Call.hipDeviceGetAttribute
      hipDeviceAttribute_t.hipDeviceAttributeSharedMemPerBlockOptin device)).out = optin
    at hres h0
  have hle := to_unsigned_le_of_nonneg h0
  split_ifs at hres with hgt hin
  · simp at hres
  · have hres := HIP_RETURN_IF_ERROR_returned _ _ _ _ _ _ _ _ _ _ hres
    have hres := HIP_RETURN_IF_ERROR_returned _ _ _ _ _ _ _ _ _ _ hres
    have hres := HIP_RETURN_IF_ERROR_returned _ _ _ _ _ _ _ _ _ _ hres
    simp only at hgt
    generalize (d (tr ++ [Call.hipModuleLoadData k.module_image_] ++
      [Call.hipModuleGetFunction module (c_str k.kernel_name_)] ++
      [Call.hipStreamGetDevice stream] ++
      [Call.hipDeviceGetAttribute
        hipDeviceAttribute_t.hipDeviceAttributeSharedMemPerBlockOptin device] ++
      [Call.hipFuncSetCacheConfig function hipFuncCache_t.hipFuncCachePreferShared] ++
      [Call.hipDeviceGetAttribute
        hipDeviceAttribute_t.hipDeviceAttributeMaxBlocksPerMultiProcessor device])
      (Call.hipFuncGetAttribute hipFunction_attribute.HIP_FUNC_ATTRIBUTE_SHARED_SIZE_BYTES
        function)).out = static_size at hres
    refine ⟨module, device, optin, static_size, hin, by omega, ?_⟩
    split at hres
    · simp at hres
    · rename_i value hv
      have hres := HIP_RETURN_IF_ERROR_returned _ _ _ _ _ _ _ _ _ _ hres
      have hval : value = optin - static_size := by
        unfold int_sub at hv
        split_ifs at hv
        exact (Option.some.inj hv).symm
      simp only [Prod.mk.injEq, Outcome.ret.injEq, StatusOr.value.injEq] at hres
      obtain ⟨hf, _, htr⟩ := hres
      subst hf
      rw [← htr, hval]
      simp only [List.append_assoc, List.cons_append, List.nil_append]
  · exfalso
    simp only at hgt
    have : kMaxStaticSharedMemBytes = 49152 := rfl
    omega

theorem GetFunctionForStream_configures_dynamic_shared_memory_witness :
    49152 < (example_kernel 60000).shared_mem_bytes_ ∧
    ∃ (module : hipModule_t) (device : hipDevice_t) (optin static_size : Int),
      kMaxStaticSharedMemBytes < optin ∧ ((example_kernel 60000).shared_mem_bytes_ : Int) ≤ optin ∧
      [Call.hipModuleLoadData "image", Call.hipModuleGetFunction 0 "kernel",
        Call.hipStreamGetDevice 7,
        Call.hipDeviceGetAttribute
          hipDeviceAttribute_t.hipDeviceAttributeSharedMemPerBlockOptin 0,
        Call.hipFuncSetCacheConfig 0 hipFuncCache_t.hipFuncCachePreferShared,
        Call.hipDeviceGetAttribute
          hipDeviceAttribute_t.hipDeviceAttributeMaxBlocksPerMultiProcessor 0,
        Call.hipFuncGetAttribute hipFunction_attribute.HIP_FUNC_ATTRIBUTE_SHARED_SIZE_BYTES 0,
        Call.hipFuncSetAttribute 0 hipFuncAttribute.hipFuncAttributeMaxDynamicSharedMemorySize
          64512] =
      [] ++ [Call.hipModuleLoadData (example_kernel 60000).module_image_,
        Call.hipModuleGetFunction module (c_str (example_kernel 60000).kernel_name_),
        Call.hipStreamGetDevice 7,
        Call.hipDeviceGetAttribute
          hipDeviceAttribute_t.hipDeviceAttributeSharedMemPerBlockOptin device,
        Call.hipFuncSetCacheConfig 0 hipFuncCache_t.hipFuncCachePreferShared,
        Call.hipDeviceGetAttribute
          hipDeviceAttribute_t.hipDeviceAttributeMaxBlocksPerMultiProcessor device,
        Call.hipFuncGetAttribute hipFunction_attribute.HIP_FUNC_ATTRIBUTE_SHARED_SIZE_BYTES 0,
        Call.hipFuncSetAttribute 0 hipFuncAttribute.hipFuncAttributeMaxDynamicSharedMemorySize
          (optin - static_size)] :=
  ⟨by decide,
    GetFunctionForStream_configures_dynamic_shared_memory (driver_shared 65536 1024)
      (example_kernel 60000) 7 [] 0
      { example_kernel 60000 with modules_ := [0] }
      [Call.hipModuleLoadData "image", Call.hipModuleGetFunction 0 "kernel",
        Call.hipStreamGetDevice 7,
        Call.hipDeviceGetAttribute
          hipDeviceAttribute_t.hipDeviceAttributeSharedMemPerBlockOptin 0,
        Call.hipFuncSetCacheConfig 0 hipFuncCache_t.hipFuncCachePreferShared,
        Call.hipDeviceGetAttribute
          hipDeviceAttribute_t.hipDeviceAttributeMaxBlocksPerMultiProcessor 0,
        Call.hipFuncGetAttribute hipFunction_attribute.HIP_FUNC_ATTRIBUTE_SHARED_SIZE_BYTES 0,
        Call.hipFuncSetAttribute 0 hipFuncAttribute.hipFuncAttributeMaxDynamicSharedMemorySize
          64512]
      (by decide) (fun _ _ => (by decide : (0 : Int) ≤ 65536)) (by decide)⟩

/-! ### C21: the compute capability -/

/-- Whatever the driver answers, the calls of `get_compute_capability` are a
start of `hipInit`, the major query, the major query: the minor attribute is
never read. -/
theorem get_compute_capability_trace (d : Driver) (device : Int) (tr : Trace) :
    ∃ cs, (get_compute_capability d device tr).2 = tr ++ cs ∧
      cs <+: [Call.hipInit (to_unsigned device),
        Call.hipDeviceGetAttribute
          hipDeviceAttribute_t.hipDeviceAttributeComputeCapabilityMajor device,
        Call.hipDeviceGetAttribute
          hipDeviceAttribute_t.hipDeviceAttributeComputeCapabilityMajor device] := by
  unfold get_compute_capability
  refine HIP_RETURN_IF_ERROR_cases
    (P := fun (r : Outcome (StatusOr Int) × Trace) => ∃ cs, r.2 = tr ++ cs ∧ cs <+: _)
    d _ _ _ tr _ _ ?_ ?_
  · intro _
    exact ⟨[_], rfl, ⟨[_, _], rfl⟩⟩
  · intro _
    refine HIP_RETURN_IF_ERROR_cases
      (P := fun (r : Outcome (StatusOr Int) × Trace) => ∃ cs, r.2 = tr ++ cs ∧ cs <+: _)
      d _ _ _ _ _ _ ?_ ?_
    · intro _
      exact ⟨[_, _], by simp [get_compute_capability.stop], ⟨[_], rfl⟩⟩
    · intro _
      refine HIP_RETURN_IF_ERROR_cases
        (P := fun (r : Outcome (StatusOr Int) × Trace) => ∃ cs, r.2 = tr ++ cs ∧ cs <+: _)
        d _ _ _ _ _ _ ?_ ?_
      · intro _
        exact ⟨[_, _, _], by simp [get_compute_capability.stop], List.prefix_refl _⟩
      · intro _
        refine ⟨[_, _, _], ?_, List.prefix_refl _⟩
        split
        · simp
        · split <;> simp

/-- When its three calls succeed and the two values read give a representable
`major * 10 + major2`, `get_compute_capability` returns that number. -/
theorem get_compute_capability_of_success (d : Driver) (device : Int) (tr : Trace)
    (major major2 : Int)
    (h1 : (d tr (Call.hipInit (to_unsigned device))).err = HIP_SUCCESS)
    (h2 : d (tr ++ [Call.hipInit (to_unsigned device)])
      (Call.hipDeviceGetAttribute
        hipDeviceAttribute_t.hipDeviceAttributeComputeCapabilityMajor device) =
      { err := HIP_SUCCESS, out := major })
    (h3 : d (tr ++ [Call.hipInit (to_unsigned device)] ++ [Call.hipDeviceGetAttribute
        hipDeviceAttribute_t.hipDeviceAttributeComputeCapabilityMajor device])
      (Call.hipDeviceGetAttribute
        hipDeviceAttribute_t.hipDeviceAttributeComputeCapabilityMajor device) =
      { err := HIP_SUCCESS, out := major2 })
    (b1 : -(2 ^ 31) ≤ major * 10 ∧ major * 10 < 2 ^ 31)
    (b2 : -(2 ^ 31) ≤ major * 10 + major2 ∧ major * 10 + major2 < 2 ^ 31) :
    get_compute_capability d device tr =
      (Outcome.ret (StatusOr.value (major * 10 + major2)),
        tr ++ [Call.hipInit (to_unsigned device),
          Call.hipDeviceGetAttribute
            hipDeviceAttribute_t.hipDeviceAttributeComputeCapabilityMajor device,
          Call.hipDeviceGetAttribute
            hipDeviceAttribute_t.hipDeviceAttributeComputeCapabilityMajor device]) := by
  unfold get_compute_capability
  rw [HIP_RETURN_IF_ERROR_of_success _ _ _ _ _ _ _ h1,
    HIP_RETURN_IF_ERROR_of_success _ _ _ _ _ _ _ (by rw [h2]),
    HIP_RETURN_IF_ERROR_of_success _ _ _ _ _ _ _ (by rw [h3])]
  simp only [h2, h3, int_mul, int_add, b1, b2, and_self, if_true]
  simp only [List.append_assoc, List.cons_append, List.nil_append]

/-- C21.  `get_compute_capability` reads the compute-capability major attribute
for both of its variables and never reads the minor attribute.  So whatever the
driver answers no call of it is a query of the minor attribute; on a device that
reports `major` (from 0 to 195225785, for which the sum is an `int`) and any
`minor`, with every call succeeding, it returns `major * 10 + major`; and for
major 9 and minor 4 it returns 99, not 94. -/
theorem get_compute_capability_reads_major_twice :
    (∀ (d : Driver) (device : Int) (tr : Trace),
      ∃ cs, (get_compute_capability d device tr).2 = tr ++ cs ∧
        ∀ c ∈ cs, c.is_minor_query = false) ∧
    (∀ (major minor : Int) (device : Int) (tr : Trace),
      0 ≤ major → major ≤ 195225785 →
      get_compute_capability (driver_capability major minor) device tr =
        (Outcome.ret (StatusOr.value (major * 10 + major)),
          tr ++ [Call.hipInit (to_unsigned device),
            Call.hipDeviceGetAttribute
              hipDeviceAttribute_t.hipDeviceAttributeComputeCapabilityMajor device,
            Call.hipDeviceGetAttribute
              hipDeviceAttribute_t.hipDeviceAttributeComputeCapabilityMajor device])) ∧
    get_compute_capability (driver_capability 9 4) 0 [] =
      (Outcome.ret (StatusOr.value 99),
        [Call.hipInit 0,
          Call.hipDeviceGetAttribute
            hipDeviceAttribute_t.hipDeviceAttributeComputeCapabilityMajor 0,
          Call.hipDeviceGetAttribute
            hipDeviceAttribute_t.hipDeviceAttributeComputeCapabilityMajor 0]) ∧
    (10 * 9 + 4 : Int) ≠ 99 := by
  refine ⟨?_, ?_, by decide, by decide⟩
  · intro d device tr
    obtain ⟨cs, hcs, hp⟩ := get_compute_capability_trace d device tr
    refine ⟨cs, hcs, ?_⟩
    intro c hc
    have hmem := hp.subset hc
    simp only [List.mem_cons, List.mem_singleton, List.not_mem_nil, or_false] at hmem
    rcases hmem with h | h | h <;> subst h <;> rfl
  · intro major minor device tr h0 h1
    exact get_compute_capability_of_success (driver_capability major minor) device tr
      major major rfl rfl rfl ⟨by omega, by omega⟩ ⟨by omega, by omega⟩

/-! ### C1 (amended): what a misaligned launch has issued -/

/-- The zero-fills of the parameters before index `i` of a list that has a
parameter at index `i`, each given by its index. -/
theorem zero_fills_take (stream : hipStream_t) (buffers : List Nat) (ps : List Parameter)
    (i : Nat) (hi : i < ps.length) :
    zero_fills stream buffers (ps.take i) 0 =
      (List.range i).filterMap (zero_fill_at stream buffers ps 0) := by
  have hlen : (ps.take i).length = i := by
    simp only [List.length_take]
    omega
  rw [zero_fills_eq_filterMap_aux, hlen]
  apply List.filterMap_congr
  intro k hk
  exact zero_fill_at_take stream buffers ps i k (List.mem_range.mp hk)

/-- A call given by `zero_fill_at` for index `k` is the zero-fill of the buffer
parameter at `k`: at the address it receives, with value 0, its `bytes_to_zero`
(which is positive) and the stream. -/
theorem zero_fill_at_eq_some (stream : hipStream_t) (buffers : List Nat) (ps : List Parameter)
    (k : Nat) (c : Call) (h : zero_fill_at stream buffers ps 0 k = some c) :
    ∃ b ptr, ps[k]? = some (Parameter.array b) ∧ 0 < b.bytes_to_zero ∧
      buffers[buffer_index ps k]? = some ptr ∧
      c = Call.hipMemsetD8Async ptr 0 b.bytes_to_zero stream := by
  unfold zero_fill_at at h
  split at h
  · rename_i b ptr hb hptr
    split_ifs at h with hz
    refine ⟨b, ptr, hb, hz, ?_, (Option.some.inj h).symm⟩
    simpa [buffer_index] using hptr
  · cases h

/-- C1 (amended).  When some flagged buffer parameter receives an address that is
not a multiple of 16 and the zero-fills succeed, `TritonKernelCall::Launch`
returns the invalid-argument alignment error of the first such parameter, index
`j` with address `q`, and leaves the kernel as it was.  The calls it has issued
are those of `zero_fill_at` for the indices below `j`, in order: each is the
`hipMemsetD8Async(address, 0, bytes_to_zero, stream)` of a buffer parameter
before `j` with `bytes_to_zero > 0`, at the address that parameter receives; none
is a module load or a kernel launch; and there is none at all when no parameter
before the offending one declares bytes to zero. -/
theorem Launch_misaligned_issues_only_zero_fills (d : Driver) (call : TritonKernelCall)
    (kernel : TritonKernel) (stream : hipStream_t) (buffers : List Nat) (tr : Trace)
    (i : Nat) (a : ArrayParameter) (ptr : Nat)
    (hok : ∀ h dst v n s, (d h (Call.hipMemsetD8Async dst v n s)).err = HIP_SUCCESS)
    (hi : call.parameters_[i]? = some (Parameter.array a))
    (hflag : a.ptr_must_be_divisible_by_16 = true)
    (hptr : buffers[buffer_index call.parameters_ i]? = some ptr)
    (hmis : ptr % 16 ≠ 0) :
    ∃ j q, j ≤ i ∧ misaligned_at call.parameters_ buffers j q ∧
      (∀ j' q', j' < j → ¬ misaligned_at call.parameters_ buffers j' q') ∧
      TritonKernelCall.Launch d call kernel stream buffers tr =
        (Outcome.ret (InvalidArgumentError (alignment_message j q)), kernel,
          tr ++ (List.range j).filterMap (zero_fill_at stream buffers call.parameters_ 0)) ∧
      (InvalidArgumentError (alignment_message j q)).code = StatusCode.kInvalidArgument ∧
      (∀ c ∈ (List.range j).filterMap (zero_fill_at stream buffers call.parameters_ 0),
        c.is_module_load = false ∧ c.is_launch = false ∧
        ∃ k b p, k < j ∧ call.parameters_[k]? = some (Parameter.array b) ∧
          0 < b.bytes_to_zero ∧ buffers[buffer_index call.parameters_ k]? = some p ∧
          c = Call.hipMemsetD8Async p 0 b.bytes_to_zero stream) ∧
      ((∀ p ∈ call.parameters_.take i, p.bytes_to_zero = 0) →
        (List.range j).filterMap (zero_fill_at stream buffers call.parameters_ 0) = []) := by
  have hptr' : buffers[0 + count_arrays (call.parameters_.take i)]? = some ptr := by
    simpa [buffer_index] using hptr
  obtain ⟨j, a', q, hj, g1, g2, g3, g4, hmin, hloop⟩ :=
    loop_misaligned d stream buffers hok call.parameters_ 0 0 [] tr i a ptr hi hflag hptr' hmis
  have hjlen : j < call.parameters_.length := by
    rcases Nat.lt_or_ge j call.parameters_.length with h1 | h1
    · exact h1
    · rw [List.getElem?_eq_none h1] at g1; cases g1
  have hzf := zero_fills_take stream buffers call.parameters_ j hjlen
  refine ⟨j, q, hj, (misaligned_at_iff _ _ _ _).mpr ⟨a', g1, g2, g3, g4⟩, ?_, ?_, rfl, ?_, ?_⟩
  · intro j' q' hj' hm
    obtain ⟨b, hb1, hb2, hb3, hb4⟩ := (misaligned_at_iff _ _ _ _).mp hm
    exact hb4 (hmin j' b q' hj' hb1 hb2 hb3)
  · simp only [TritonKernelCall.Launch, hloop, Nat.zero_add, hzf]
  · intro c hc
    obtain ⟨k, hk, hkc⟩ := List.mem_filterMap.mp hc
    obtain ⟨b, p, hb, hz, hp, hcp⟩ :=
      zero_fill_at_eq_some stream buffers call.parameters_ k c hkc
    subst hcp
    exact ⟨rfl, rfl, k, b, p, List.mem_range.mp hk, hb, hz, hp, rfl⟩
  · intro hz
    rw [← hzf]
    apply zero_fills_eq_nil
    intro p hp
    exact hz p (List.take_subset_take_left _ hj hp)

theorem Launch_misaligned_issues_only_zero_fills_witness :
    (List.range 1).filterMap
        (zero_fill_at 7 [0x1000, 0x2001] zero_fill_then_aligned_call.parameters_ 0) =
      [Call.hipMemsetD8Async 0x1000 0 64 7] ∧
    ∃ j q, j ≤ 1 ∧ misaligned_at zero_fill_then_aligned_call.parameters_ [0x1000, 0x2001] j q ∧
      (∀ j' q', j' < j →
        ¬ misaligned_at zero_fill_then_aligned_call.parameters_ [0x1000, 0x2001] j' q') ∧
      TritonKernelCall.Launch driver_ok zero_fill_then_aligned_call (example_kernel 0) 7
          [0x1000, 0x2001] [] =
        (Outcome.ret (InvalidArgumentError (alignment_message j q)), example_kernel 0,
          [] ++ (List.range j).filterMap
            (zero_fill_at 7 [0x1000, 0x2001] zero_fill_then_aligned_call.parameters_ 0)) ∧
      (InvalidArgumentError (alignment_message j q)).code = StatusCode.kInvalidArgument ∧
      (∀ c ∈ (List.range j).filterMap
          (zero_fill_at 7 [0x1000, 0x2001] zero_fill_then_aligned_call.parameters_ 0),
        c.is_module_load = false ∧ c.is_launch = false ∧
        ∃ k b p, k < j ∧
          zero_fill_then_aligned_call.parameters_[k]? = some (Parameter.array b) ∧
          0 < b.bytes_to_zero ∧
          [0x1000, 0x2001][buffer_index zero_fill_then_aligned_call.parameters_ k]? = some p ∧
          c = Call.hipMemsetD8Async p 0 b.bytes_to_zero 7) ∧
      ((∀ p ∈ zero_fill_then_aligned_call.parameters_.take 1, p.bytes_to_zero = 0) →
        (List.range j).filterMap
          (zero_fill_at 7 [0x1000, 0x2001] zero_fill_then_aligned_call.parameters_ 0) = []) :=
  ⟨by decide,
    Launch_misaligned_issues_only_zero_fills driver_ok zero_fill_then_aligned_call
      (example_kernel 0) 7 [0x1000, 0x2001] [] 1
      { bytes_to_zero := 0, ptr_must_be_divisible_by_16 := true } 0x2001
      (fun _ _ _ _ _ => rfl) rfl rfl rfl (by decide)⟩

end jax_triton
